import Mathlib

/-!
# Local-callback OAuth2 authentication: a model of `src/auth/AuthManager.js`

The class `AuthManager` is embedded as pure functions on an explicit system
state `Sys`.  Everything the JavaScript code obtains from outside (provider
responses, file-system failures, the outcome of binding a port) is passed in
as an explicit outcome value, and everything it does to the outside
(notifications to the renderer, network requests, file writes, servers
started and closed, timers armed) is appended to `Sys.log` in program order.
Every asynchronous method is run to completion, so a sequence of operations
is a sequence of whole calls and timer callbacks.  Console logging is not
part of the model.
-/

namespace AuthManager

/-! ## JavaScript values -/

/-- JavaScript values as far as the module looks at them.  The module does
no arithmetic and never reads a field of a nested object or array, so that of
such values it sees only their truthiness, their string conversion and their
identity.  A number is therefore given by its string conversion (the result
of `String(v)`: "10", "1.5", "1e+21"; both zeros give "0"), and an object or
array by an identifying tag together with the outcome of its string
conversion: `some "[object Object]"` for a plain object, the elements joined
by commas for an array, `none` when the conversion throws a `TypeError` (an
object with a member `toString` that is not a function). -/
inductive JsVal where
  | undefined
  | null
  | bool (b : Bool)
  | num (text : String)
  | str (s : String)
  | object (tag : Nat) (text : Option String)
deriving DecidableEq, Repr

/-- JavaScript truthiness (`if (v)`, `!v`, `v && w`, `v || w`): the falsy
numbers are the zeros and `NaN`. -/
def JsVal.truthy : JsVal → Bool
  | .undefined => false
  | .null => false
  | .bool b => b
  | .num text => text != "0" && text != "NaN"
  | .str s => s != ""
  | .object _ _ => true

/-- A plain object, such as a parsed JSON object without a member named
`toString` or `valueOf`. -/
def plainObject (tag : Nat) : JsVal :=
  .object tag (some "[object Object]")

/-- The values for which `v == null` holds in JavaScript. -/
def JsVal.nullish : JsVal → Bool
  | .undefined => true
  | .null => true
  | _ => false

/-- The JavaScript expression `a || b`. -/
def JsVal.or (a b : JsVal) : JsVal :=
  if a.truthy then a else b

/-- The message of the error raised by `throw new Error(v)`: the string
conversion of `v` (the empty message for `undefined`), or, when that
conversion throws, the message of the `TypeError` raised in its place. -/
def JsVal.toMessage : JsVal → String
  | .undefined => ""
  | .null => "null"
  | .bool true => "true"
  | .bool false => "false"
  | .num text => text
  | .str s => s
  | .object _ (some text) => text
  | .object _ none => "Cannot convert object to primitive value"

/-- Truthiness of a string-or-null value such as the result of
`url.searchParams.get(name)`. -/
def strTruthy : Option String → Bool
  | some s => s != ""
  | none => false

/-- The object literal built from a userinfo response. -/
structure UserProfile where
  id : JsVal
  name : JsVal
  email : JsVal
  firstName : JsVal
  lastName : JsVal
  picture : JsVal
deriving DecidableEq, Repr

/-- The `user` slot of the authentication state: either a value copied
verbatim from a file or a response, or a profile object built by the
module. -/
inductive UserVal where
  | val (v : JsVal)
  | profile (p : UserProfile)
deriving DecidableEq, Repr

/-- Truthiness of the `user` slot; an object literal is always truthy. -/
def UserVal.truthy : UserVal → Bool
  | .val v => v.truthy
  | .profile _ => true

/-! ## State -/

/-- The object `this.authState`. -/
structure AuthState where
  isAuthenticated : JsVal
  sessionToken : JsVal
  refreshToken : JsVal
  user : UserVal
  tempToken : JsVal
  isAuthenticating : Bool
  oauthState : Option String
deriving DecidableEq, Repr

/-- The record written by `saveAuthState`. -/
structure SavedData where
  sessionToken : JsVal
  refreshToken : JsVal
  user : UserVal
  isAuthenticated : JsVal
  savedAt : String
deriving DecidableEq, Repr

/-- Content of the credential file at `tokenStorePath`. -/
inductive FileContent where
  | garbage
  | record (d : SavedData)
deriving DecidableEq, Repr

/-- Query parameters of the authorization URL opened in the browser. -/
structure AuthUrl where
  client_id : String
  redirectPort : Nat
  response_type : String
  state : String
  scope : String
deriving DecidableEq, Repr

/-- Requests sent with `fetch`. -/
inductive Request where
  | health
  | usage (bearer : JsVal)
  | introspect (token : JsVal)
  | userinfo (bearer : JsVal)
  | token (code : String) (redirectPort : Option Nat)
  | legacyExchange (tempToken : String)
deriving DecidableEq, Repr

/-- Payloads of `mainWindow.webContents.send(channel, payload)`. -/
inductive Payload where
  | none
  | text (s : String)
  | status (isAuthenticated : JsVal) (user : UserVal) (isAuthenticating : Bool)
      (message : Option String)
  | success (user : UserVal) (message : String)
  | usage (requests_remaining : JsVal) (total_requests : JsVal)
deriving DecidableEq, Repr

/-- The three HTML pages of the callback handler, and the page of its
`catch` block. -/
inductive Page where
  | failed (error : String) (description : Option String)
  | successful
  | noCode
  | serverError
deriving DecidableEq, Repr

/-- Callbacks registered with `setTimeout` that outlive the registering
call. -/
inductive TimerKind where
  | authTimeout
  | shutdown
deriving DecidableEq, Repr

/-- Actions on the outside world, recorded in program order. -/
inductive Effect where
  | send (channel : String) (payload : Payload)
  | fetch (req : Request)
  | writeFile (d : SavedData)
  | unlinkFile
  | listen (server : Nat) (port : Nat)
  | close (server : Nat)
  | openExternal (url : AuthUrl)
  | respond (status : Nat) (page : Page)
  | setTimeout (ms : Nat) (kind : TimerKind)
  | delay (ms : Nat)
deriving DecidableEq, Repr

/-- The `AuthManager` instance together with the part of the world it acts
on.  `mainWindow` records whether `this.mainWindow?.webContents` is truthy;
`localServer` holds the handle of the referenced server; `servers` lists the
handles of servers that are listening and not yet closed; `file` is the
credential file; `timers` are the armed timers with their due time. -/
structure Sys where
  authState : AuthState
  mainWindow : Bool
  localServer : Option Nat
  serverPort : Option Nat
  file : Option FileContent
  nextServer : Nat
  servers : List Nat
  now : Nat
  timers : List (Nat × TimerKind)
  log : List Effect
deriving DecidableEq, Repr

/-- The literal assigned to `this.authState` by the constructor and by
`clearAuthState`. -/
def emptyAuthState : AuthState where
  isAuthenticated := .bool false
  sessionToken := .null
  refreshToken := .null
  user := .val .null
  tempToken := .null
  isAuthenticating := false
  oauthState := none

/-- State after `new AuthManager(configManager)`, with the credential file
as found on disk. -/
def init (file : Option FileContent) : Sys where
  authState := emptyAuthState
  mainWindow := false
  localServer := none
  serverPort := none
  file := file
  nextServer := 0
  servers := []
  now := 0
  timers := []
  log := []

/-- Append one effect to the log. -/
def Sys.emit (s : Sys) (e : Effect) : Sys :=
  { s with log := s.log ++ [e] }

/-- The guarded send `if (this.mainWindow?.webContents) send(channel, payload)`. -/
def Sys.send (s : Sys) (channel : String) (payload : Payload) : Sys :=
  if s.mainWindow then s.emit (.send channel payload) else s

/-- Arm a timer with `setTimeout(callback, ms)`. -/
def Sys.setTimeout (s : Sys) (ms : Nat) (kind : TimerKind) : Sys :=
  { s.emit (.setTimeout ms kind) with timers := s.timers ++ [(s.now + ms, kind)] }

/-- The method `setMainWindow(window)`; the argument records whether the
window has `webContents`. -/
def setMainWindow (s : Sys) (window : Bool) : Sys :=
  { s with mainWindow := window }

/-! ## Outcomes of external calls -/

/-- Outcome of `await fetch(...)` followed by `await response.json()`:
the request rejects, or it yields a response with an `ok` flag whose body
either fails to parse or parses to a record of the fields the module reads.
A body on which reading a field throws (JSON `null`) counts as a body that
fails, with the message of the error thrown. -/
inductive Fetch (β : Type) where
  | throws (msg : String)
  | resp (ok : Bool) (body : Except String β)

/-- Fields read from a token-endpoint body (success and error bodies). -/
structure TokenBody where
  access_token : JsVal
  refresh_token : JsVal
  error_description : JsVal
  error : JsVal
deriving DecidableEq, Repr

/-- Fields read from a userinfo body. -/
structure UserData where
  id : JsVal
  sub : JsVal
  name : JsVal
  email : JsVal
  given_name : JsVal
  family_name : JsVal
  picture : JsVal
deriving DecidableEq, Repr

/-- Fields read from an introspection body. -/
structure IntrospectBody where
  active : JsVal
deriving DecidableEq, Repr

/-- Fields read from a usage body. -/
structure UsageData where
  requests_remaining : JsVal
  monthly_api_calls : JsVal
deriving DecidableEq, Repr

/-- Fields read from a legacy exchange body. -/
structure LegacyBody where
  sessionToken : JsVal
  user : UserVal
  message : JsVal
deriving DecidableEq, Repr

/-- The profile literal `{id: userData.id || userData.sub, name, email,
firstName: given_name, lastName: family_name, picture}`. -/
def mkProfile (u : UserData) : UserProfile where
  id := u.id.or u.sub
  name := u.name
  email := u.email
  firstName := u.given_name
  lastName := u.family_name
  picture := u.picture

/-- The parsed body of a usage response: JSON that is not an object has no
fields, and reading a field of `null` throws. -/
inductive UsageBody where
  | scalar (v : JsVal)
  | obj (u : UsageData)
deriving DecidableEq, Repr

/-- Truthiness of the value returned by `fetchUsageInfo`. -/
def UsageBody.truthy : UsageBody → Bool
  | .scalar v => v.truthy
  | .obj _ => true

/-- Outcome of a transient bind in `findAvailablePort`: the port binds, the
bind fails with `EADDRINUSE`, or it fails with another error. -/
inductive Probe where
  | free
  | inUse
  | fails (msg : String)
deriving DecidableEq, Repr

/-! ## Credential file and state reset -/

/-- The method `saveAuthState()`: a failing `writeFileSync` is caught and
logged. -/
def saveAuthState (s : Sys) (savedAt : String) (writeFails : Bool) : Sys :=
  let dataToSave : SavedData :=
    { sessionToken := s.authState.sessionToken
      refreshToken := s.authState.refreshToken
      user := s.authState.user
      isAuthenticated := s.authState.isAuthenticated
      savedAt := savedAt }
  if writeFails then s
  else { s.emit (.writeFile dataToSave) with file := some (.record dataToSave) }

/-- The method `updateAuthStatus()`. -/
def updateAuthStatus (s : Sys) : Sys :=
  s.send "auth-status-updated"
    (.status s.authState.isAuthenticated s.authState.user s.authState.isAuthenticating none)

/-- The method `stopLocalServer()`. -/
def stopLocalServer (s : Sys) : Sys :=
  match s.localServer with
  | none => s
  | some srv =>
    { s.emit (.close srv) with
      servers := s.servers.filter (fun x => x != srv)
      localServer := none
      serverPort := none }

/-- The method `clearAuthState()`: a failing `unlinkSync` is caught and
logged. -/
def clearAuthState (s : Sys) (unlinkFails : Bool) : Sys :=
  let s1 := { s with authState := emptyAuthState }
  let s2 := stopLocalServer s1
  let s3 :=
    match s2.file with
    | none => s2
    | some _ => if unlinkFails then s2 else { s2.emit .unlinkFile with file := none }
  updateAuthStatus s3

/-- The synchronous body of `loadAuthState()`.  The second component tells
whether `validateStoredToken()` was called. -/
def loadAuthState (s : Sys) (readFails : Bool) : Sys × Bool :=
  match s.file with
  | none => (s, false)
  | some content =>
    if readFails then (s, false)
    else
      match content with
      | .garbage => (s, false)
      | .record savedData =>
        if savedData.sessionToken.truthy && savedData.isAuthenticated.truthy then
          ({ s with authState :=
              { s.authState with
                sessionToken := savedData.sessionToken
                refreshToken := savedData.refreshToken
                user := savedData.user
                isAuthenticated := savedData.isAuthenticated } }, true)
        else (s, false)

/-! ## Usage fetch with retry -/

/-- The method `fetchUsageInfo()`, with the outcome of the request to
`/usage` (made through `makeAuthenticatedRequest`) as parameter.  `none` is
the returned `null`. -/
def fetchUsageInfo (s : Sys) (out : Fetch UsageBody) : Sys × Option UsageBody :=
  if !s.authState.isAuthenticated.truthy || !s.authState.sessionToken.truthy then (s, none)
  else
    let s1 := s.emit (.fetch (.usage s.authState.sessionToken))
    match out with
    | .throws _ => (s1, none)
    | .resp false _ => (s1, none)
    | .resp true (.error _) => (s1, none)
    | .resp true (.ok (.obj u)) =>
      (s1.send "api-response-data" (.usage u.requests_remaining u.monthly_api_calls),
        some (.obj u))
    | .resp true (.ok (.scalar v)) =>
      if v.nullish then (s1, none)
      else (s1.send "api-response-data" (.usage .undefined .undefined), some (.scalar v))

/-- The `for` loop of `fetchUsageInfoWithRetry`: `remaining` is the number
of iterations left, `maxRetries + 1 - attempt`. -/
def retryLoop (usage : Nat → Fetch UsageBody) (maxRetries : Int) (delayMs : Nat) :
    Nat → Nat → Sys → Sys × Option UsageBody
  | 0, _, s => (s, none)
  | remaining + 1, attempt, s =>
    let r := fetchUsageInfo s (usage attempt)
    match r.2 with
    | some usageData =>
      if usageData.truthy then (r.1, some usageData)
      else
        retryLoop usage maxRetries delayMs remaining (attempt + 1)
          (if (attempt : Int) < maxRetries then r.1.emit (.delay delayMs) else r.1)
    | none =>
      retryLoop usage maxRetries delayMs remaining (attempt + 1)
        (if (attempt : Int) < maxRetries then r.1.emit (.delay delayMs) else r.1)

/-- The method `fetchUsageInfoWithRetry(maxRetries, delayMs)`; `health` is
the outcome of the probe of `/health`, `usage n` the outcome of the request
made by attempt `n`. -/
def fetchUsageInfoWithRetry (s : Sys) (maxRetries : Int) (delayMs : Nat)
    (health : Fetch Unit) (usage : Nat → Fetch UsageBody) : Sys × Option UsageBody :=
  let s1 := s.emit (.fetch .health)
  match health with
  | .throws _ => (s1, none)
  | .resp false _ => (s1, none)
  | .resp true _ => retryLoop usage maxRetries delayMs maxRetries.toNat 1 s1

/-- The method `getAuthInfo()`. -/
def getAuthInfo (s : Sys) : String :=
  if s.authState.isAuthenticated.truthy && s.authState.user.truthy then "Signed in | "
  else if s.authState.isAuthenticating then "Authenticating... | "
  else "Not signed in | "

/-! ## Stored-token validation -/

/-- Outcomes of the external calls made by `validateStoredToken`. -/
structure ValidateEnv where
  introspect : Fetch IntrospectBody
  userinfo : Fetch UserData
  unlinkFails : Bool
  health : Fetch Unit
  usage : Nat → Fetch UsageBody

/-- The method `validateStoredToken()`, run to completion. -/
def validateStoredToken (s : Sys) (env : ValidateEnv) : Sys :=
  if !s.authState.sessionToken.truthy then s
  else
    let s1 := s.emit (.fetch (.introspect s.authState.sessionToken))
    match env.introspect with
    | .throws _ => clearAuthState s1 env.unlinkFails
    | .resp false _ => clearAuthState s1 env.unlinkFails
    | .resp true (.error _) => clearAuthState s1 env.unlinkFails
    | .resp true (.ok data) =>
      if data.active.truthy then
        let s2 := s1.emit (.fetch (.userinfo s1.authState.sessionToken))
        match env.userinfo with
        | .throws _ => clearAuthState s2 env.unlinkFails
        | .resp false _ =>
          (fetchUsageInfoWithRetry (updateAuthStatus s2) 3 1000 env.health env.usage).1
        | .resp true (.error _) => clearAuthState s2 env.unlinkFails
        | .resp true (.ok userData) =>
          let s3 := { s2 with authState :=
            { s2.authState with user := .profile (mkProfile userData) } }
          (fetchUsageInfoWithRetry (updateAuthStatus s3) 3 1000 env.health env.usage).1
      else clearAuthState s1 env.unlinkFails

/-! ## Callback server -/

/-- The message of the error raised when every probed port is in use. -/
def noPortsMessage (startPort maxPort : Nat) : String :=
  "No available ports found between " ++ toString startPort ++ " and " ++ toString maxPort

/-- The closure `tryPort` of `findAvailablePort`, probing `currentPort`.
The first argument bounds the number of further probes; `none` means that
the bound was used up, which does not happen for the bound
`maxPort - startPort` passed by `findAvailablePort` (`tryPort_isSome`). -/
def tryPort (probe : Nat → Probe) (startPort maxPort : Nat) :
    Nat → Nat → Option (Except String Nat)
  | 0, currentPort =>
    match probe currentPort with
    | .free => some (.ok currentPort)
    | .fails msg => some (.error msg)
    | .inUse =>
      if currentPort + 1 > maxPort then some (.error (noPortsMessage startPort maxPort))
      else none
  | fuel + 1, currentPort =>
    match probe currentPort with
    | .free => some (.ok currentPort)
    | .fails msg => some (.error msg)
    | .inUse =>
      if currentPort + 1 > maxPort then some (.error (noPortsMessage startPort maxPort))
      else tryPort probe startPort maxPort fuel (currentPort + 1)

/-- The method `findAvailablePort(startPort, maxPort)`. -/
def findAvailablePort (probe : Nat → Probe) (startPort maxPort : Nat) : Except String Nat :=
  match tryPort probe startPort maxPort (maxPort - startPort) startPort with
  | some result => result
  | none => .error (noPortsMessage startPort maxPort)

/-- Outcomes of the external calls made by `startLocalServer`: the port
probes and the bind of the callback server itself. -/
structure ServerEnv where
  probe : Nat → Probe
  bind : Except String Unit

/-- The method `startLocalServer()`.  The timeout timer is armed right
after the call of `listen`, before its outcome is known. -/
def startLocalServer (s : Sys) (env : ServerEnv) : Sys × Except String Nat :=
  match findAvailablePort env.probe 8000 8020 with
  | .error msg => (s, .error msg)
  | .ok port =>
    let srv := s.nextServer
    let s1 := { s with serverPort := some port, localServer := some srv, nextServer := srv + 1 }
    let s2 := s1.setTimeout (10 * 60 * 1000) .authTimeout
    match env.bind with
    | .ok _ => ({ s2.emit (.listen srv port) with servers := s2.servers ++ [srv] }, .ok port)
    | .error msg => (s2, .error msg)

/-- The callback armed by `startLocalServer` with `setTimeout`. -/
def onAuthTimeout (s : Sys) : Sys :=
  if s.localServer.isSome && s.authState.isAuthenticating then
    let s1 := stopLocalServer s
    let s2 := { s1 with authState := { s1.authState with isAuthenticating := false } }
    let s3 := updateAuthStatus s2
    s3.send "auth-error" (.text "Authentication timeout - please try again")
  else s

/-- The callback armed by `handleServerCallback` with `setTimeout`. -/
def onShutdown (s : Sys) : Sys :=
  stopLocalServer s

/-! ## Code exchange -/

/-- Outcomes of the external calls made by `exchangeAuthorizationCode`. -/
structure ExchangeEnv where
  token : Fetch TokenBody
  userinfo : Fetch UserData
  savedAt : String
  writeFails : Bool
  health : Fetch Unit
  usage : Nat → Fetch UsageBody

/-- The `catch` block of `exchangeAuthorizationCode`. -/
def exchangeFailed (s : Sys) (msg : String) : Sys × Except String (UserVal × TokenBody) :=
  (updateAuthStatus
    { s with authState := { s.authState with isAuthenticating := false, oauthState := none } },
    .error msg)

/-- The method `exchangeAuthorizationCode(code, state)`, run to completion.
`state` is the string-or-null value of the `state` query parameter. -/
def exchangeAuthorizationCode (s : Sys) (code : String) (state : Option String)
    (env : ExchangeEnv) : Sys × Except String (UserVal × TokenBody) :=
  if code = "" then (s, .error "Authorization code is required")
  else if strTruthy s.authState.oauthState && state != s.authState.oauthState then
    exchangeFailed s "Invalid state parameter - potential CSRF attack"
  else
    let s1 := s.emit (.fetch (.token code s.serverPort))
    match env.token with
    | .throws msg => exchangeFailed s1 msg
    | .resp false (.error msg) => exchangeFailed s1 msg
    | .resp false (.ok errorData) =>
      exchangeFailed s1
        ((errorData.error_description.or errorData.error).or (.str "Token exchange failed")).toMessage
    | .resp true (.error msg) => exchangeFailed s1 msg
    | .resp true (.ok tokenData) =>
      let s2 := s1.emit (.fetch (.userinfo tokenData.access_token))
      match env.userinfo with
      | .throws msg => exchangeFailed s2 msg
      | .resp false (.error msg) => exchangeFailed s2 msg
      | .resp false (.ok _) => exchangeFailed s2 "Failed to get user information"
      | .resp true (.error msg) => exchangeFailed s2 msg
      | .resp true (.ok userData) =>
        let s3 := { s2 with authState :=
          { s2.authState with
            isAuthenticated := .bool true
            sessionToken := tokenData.access_token
            user := .profile (mkProfile userData)
            refreshToken := tokenData.refresh_token
            tempToken := .null
            isAuthenticating := false
            oauthState := none } }
        let s4 := saveAuthState s3 env.savedAt env.writeFails
        let s5 := updateAuthStatus s4
        let s6 := (fetchUsageInfoWithRetry s5 3 1000 env.health env.usage).1
        let s7 := s6.send "auth-success"
          (.success s6.authState.user "Successfully authenticated with OAuth2!")
        (s7, .ok (s7.authState.user, tokenData))

/-- Outcomes of the external calls made by `exchangeTemporaryToken`. -/
structure LegacyEnv where
  response : Fetch LegacyBody
  savedAt : String
  writeFails : Bool

/-- The `catch` block of `exchangeTemporaryToken`. -/
def legacyFailed (s : Sys) (msg : String) : Sys × Except String LegacyBody :=
  (updateAuthStatus { s with authState := { s.authState with isAuthenticating := false } },
    .error msg)

/-- The method `exchangeTemporaryToken(tempToken)`, run to completion. -/
def exchangeTemporaryToken (s : Sys) (tempToken : String) (env : LegacyEnv) :
    Sys × Except String LegacyBody :=
  if tempToken = "" then (s, .error "Temporary token is required")
  else
    let s1 := s.emit (.fetch (.legacyExchange tempToken))
    match env.response with
    | .throws msg => legacyFailed s1 msg
    | .resp false (.error msg) => legacyFailed s1 msg
    | .resp false (.ok errorData) =>
      legacyFailed s1 (errorData.message.or (.str "Token exchange failed")).toMessage
    | .resp true (.error msg) => legacyFailed s1 msg
    | .resp true (.ok data) =>
      let s2 := { s1 with authState :=
        { s1.authState with
          isAuthenticated := .bool true
          sessionToken := data.sessionToken
          user := data.user
          tempToken := .null
          isAuthenticating := false } }
      let s3 := saveAuthState s2 env.savedAt env.writeFails
      let s4 := updateAuthStatus s3
      (s4.send "auth-success" (.success data.user "Successfully authenticated!"), .ok data)

/-! ## Callback handling -/

/-- The value `url.searchParams.get(name)` on the decoded query pairs. -/
def searchGet (query : List (String × String)) (name : String) : Option String :=
  query.lookup name

/-- The method `handleServerCallback(req, res)`.  The request is given by
the decoded query pairs of its URL, or `none` when `new URL(...)` throws; the
response object is assumed not to throw.  The exchange started by the handler
is run to completion after the handler has armed its shutdown timer: this is
the handling of a request during whose exchange no other request or
operation is handled.  In the source the exchange is not awaited and its
first part runs before the timer is armed; `handleServerCallbackSync` follows
that order and stops at the first `await`, for requests that overlap. -/
def handleServerCallback (s : Sys) (req : Option (List (String × String)))
    (env : ExchangeEnv) : Sys :=
  match req with
  | none =>
    stopLocalServer
      ((s.emit (.respond 500 .serverError)).send "auth-error"
        (.text "Server error processing authentication"))
  | some query =>
    let code := searchGet query "code"
    let state := searchGet query "state"
    let error := searchGet query "error"
    let errorDescription := searchGet query "error_description"
    if strTruthy error then
      let s1 := s.emit (.respond 200
        (.failed (error.getD "") (if strTruthy errorDescription then errorDescription else none)))
      let s2 := s1.send "auth-error"
        (.text ((if strTruthy errorDescription then errorDescription else error).getD ""))
      s2.setTimeout 5000 .shutdown
    else if strTruthy code then
      let s1 := s.emit (.respond 200 .successful)
      let s2 := s1.setTimeout 5000 .shutdown
      let r := exchangeAuthorizationCode s2 (code.getD "") state env
      match r.2 with
      | .ok _ => r.1
      | .error msg => r.1.send "auth-error" (.text msg)
    else
      let s1 := s.emit (.respond 200 .noCode)
      let s2 := s1.send "auth-error" (.text "No authorization code received")
      s2.setTimeout 5000 .shutdown

/-! ## Initiation and sign-out -/

/-- Outcomes of the external calls made by `initiateDesktopAuth`: those of
`startLocalServer`, the generated CSRF state, and `shell.openExternal`. -/
structure InitiateEnv where
  probe : Nat → Probe
  bind : Except String Unit
  csrf : String
  openExternal : Except String Unit

/-- The `catch` block of `initiateDesktopAuth`. -/
def initiateFailed (s : Sys) (msg : String) : Sys :=
  (updateAuthStatus { s with authState := { s.authState with isAuthenticating := false } }).send
    "error" (.text ("Failed to start authentication: " ++ msg))

/-- The statements of `initiateDesktopAuth` that run synchronously once both
guards have been passed: the flag is set and the status is pushed. -/
def initiateEnter (s : Sys) : Sys :=
  updateAuthStatus { s with authState := { s.authState with isAuthenticating := true } }

/-- The `try` block of `initiateDesktopAuth` with its `catch`. -/
def initiateRun (s : Sys) (env : InitiateEnv) : Sys :=
  match startLocalServer s { probe := env.probe, bind := env.bind } with
  | (s1, .error msg) => initiateFailed s1 msg
  | (s1, .ok port) =>
    let s2 := { s1 with authState := { s1.authState with oauthState := some env.csrf } }
    let s3 := s2.emit (.openExternal
      { client_id := "oa-coder-desktop"
        redirectPort := port
        response_type := "code"
        state := env.csrf
        scope := "profile" })
    match env.openExternal with
    | .error msg => initiateFailed s3 msg
    | .ok _ =>
      s3.send "auth-status-updated"
        (.status s3.authState.isAuthenticated s3.authState.user s3.authState.isAuthenticating
          (some ("Authentication server running on port " ++ toString port ++
            ". Complete sign-in in your browser.")))

/-- The method `initiateDesktopAuth()`, run to completion. -/
def initiateDesktopAuth (s : Sys) (env : InitiateEnv) : Sys :=
  if s.authState.isAuthenticated.truthy && s.authState.user.truthy then
    s.send "auth-success" (.success s.authState.user "You are already signed in!")
  else if s.authState.isAuthenticating then s
  else initiateRun (initiateEnter s) env

/-- The method `signOut()`. -/
def signOut (s : Sys) (unlinkFails : Bool) : Sys :=
  (clearAuthState (stopLocalServer s) unlinkFails).send "auth-signed-out" .none

/-! ## Sequences of operations -/

/-- Fire the armed timer at position `i`, provided it is due. -/
def fire (s : Sys) (i : Nat) : Sys :=
  match s.timers.get? i with
  | none => s
  | some (due, kind) =>
    if due ≤ s.now then
      let s1 := { s with timers := s.timers.eraseIdx i }
      match kind with
      | .authTimeout => onAuthTimeout s1
      | .shutdown => onShutdown s1
    else s

/-- The operations and events of an `AuthManager`, each with the outcomes
of the external calls it makes.  Every asynchronous method is run to
completion; `loadAuthState` is its synchronous body, the validation it
starts is the separate event `validateStoredToken`. -/
inductive Event where
  | setMainWindow (window : Bool)
  | loadAuthState (readFails : Bool)
  | validateStoredToken (env : ValidateEnv)
  | fetchUsageInfoWithRetry (maxRetries : Int) (delayMs : Nat) (health : Fetch Unit)
      (usage : Nat → Fetch UsageBody)
  | initiateDesktopAuth (env : InitiateEnv)
  | callback (req : Option (List (String × String))) (env : ExchangeEnv)
  | exchangeAuthorizationCode (code : String) (state : Option String) (env : ExchangeEnv)
  | exchangeTemporaryToken (tempToken : String) (env : LegacyEnv)
  | advance (ms : Nat)
  | fire (i : Nat)
  | signOut (unlinkFails : Bool)

/-- One operation or event.  A callback request is only received while some
callback server is listening. -/
def step (s : Sys) : Event → Sys
  | .setMainWindow window => setMainWindow s window
  | .loadAuthState readFails => (loadAuthState s readFails).1
  | .validateStoredToken env => validateStoredToken s env
  | .fetchUsageInfoWithRetry maxRetries delayMs health usage =>
    (fetchUsageInfoWithRetry s maxRetries delayMs health usage).1
  | .initiateDesktopAuth env => initiateDesktopAuth s env
  | .callback req env => if s.servers.isEmpty then s else handleServerCallback s req env
  | .exchangeAuthorizationCode code state env => (exchangeAuthorizationCode s code state env).1
  | .exchangeTemporaryToken tempToken env => (exchangeTemporaryToken s tempToken env).1
  | .advance ms => { s with now := s.now + ms }
  | .fire i => fire s i
  | .signOut unlinkFails => signOut s unlinkFails

/-- Run a sequence of operations and events from a state. -/
def run (s : Sys) (events : List Event) : Sys :=
  events.foldl step s

/-- The requests sent with `fetch` among the given effects. -/
def fetches : List Effect → List Request
  | [] => []
  | .fetch req :: rest => req :: fetches rest
  | _ :: rest => fetches rest

/-- The payloads sent to the renderer on a channel among the given effects. -/
def sentOn (channel : String) : List Effect → List Payload
  | [] => []
  | .send ch payload :: rest =>
    if ch = channel then payload :: sentOn channel rest else sentOn channel rest
  | _ :: rest => sentOn channel rest

/-- The credential records written among the given effects. -/
def writes : List Effect → List SavedData
  | [] => []
  | .writeFile d :: rest => d :: writes rest
  | _ :: rest => writes rest

/-- The callback servers started (handle and port) among the given effects. -/
def serversStarted : List Effect → List (Nat × Nat)
  | [] => []
  | .listen srv port :: rest => (srv, port) :: serversStarted rest
  | _ :: rest => serversStarted rest

/-- The authorization URLs passed to `shell.openExternal` among the given
effects. -/
def urlsOpened : List Effect → List AuthUrl
  | [] => []
  | .openExternal url :: rest => url :: urlsOpened rest
  | _ :: rest => urlsOpened rest

/-- The effects of `t` that come after those of `s`, for a state `t`
obtained from `s`. -/
def effectsSince (s t : Sys) : List Effect :=
  t.log.drop s.log.length

/-- Append effects to the log, leaving everything else as it is. -/
def Sys.addLog (s : Sys) (l : List Effect) : Sys :=
  { s with log := s.log ++ l }

/-! ## Concrete outcomes used in examples -/

/-- Every probed port binds. -/
def allFree : Nat → Probe := fun _ => .free

/-- An initiation in which the server binds and the browser opens. -/
def initiateOk (csrf : String) : InitiateEnv where
  probe := allFree
  bind := .ok ()
  csrf := csrf
  openExternal := .ok ()

/-- A token body carrying only the given tokens. -/
def tokenBody (access refresh : JsVal) : TokenBody where
  access_token := access
  refresh_token := refresh
  error_description := .undefined
  error := .undefined

/-- The userinfo body with `sub` "u1" and `name` "Ann". -/
def annData : UserData where
  id := .undefined
  sub := .str "u1"
  name := .str "Ann"
  email := .undefined
  given_name := .undefined
  family_name := .undefined
  picture := .undefined

/-- An exchange in which the token endpoint answers 2xx with the given
access token, userinfo answers 2xx with `annData`, the credential file is
written, and the backend health probe fails. -/
def exchangeOk (access : JsVal) : ExchangeEnv where
  token := .resp true (.ok (tokenBody access .undefined))
  userinfo := .resp true (.ok annData)
  savedAt := "2025-01-01T00:00:00.000Z"
  writeFails := false
  health := .throws "connect ECONNREFUSED"
  usage := fun _ => .throws "connect ECONNREFUSED"


/-- An exchange in which the token endpoint answers 400 with
`invalid_grant`. -/
def exchangeDenied : ExchangeEnv where
  token := .resp false (.ok
    { access_token := .undefined
      refresh_token := .undefined
      error_description := .undefined
      error := .str "invalid_grant" })
  userinfo := .throws "not requested"
  savedAt := "2025-01-01T00:00:00.000Z"
  writeFails := false
  health := .throws "connect ECONNREFUSED"
  usage := fun _ => .throws "connect ECONNREFUSED"

/-- A callback query carrying a code and a state. -/
def codeQuery (code state : String) : List (String × String) :=
  [("code", code), ("state", state)]

/-- The state in which an attempt with CSRF state "s1" waits for its
callback. -/
def waiting : Sys :=
  run (init none) [.initiateDesktopAuth (initiateOk "s1")]

/-- The provider answers of an event carry a token: a 2xx token response
has a non-null `access_token`, a 2xx legacy exchange response a non-null
`sessionToken`. -/
def Event.carriesToken : Event → Prop
  | .callback _ env =>
    ∀ tokenData, env.token = .resp true (.ok tokenData) → tokenData.access_token.nullish = false
  | .exchangeAuthorizationCode _ _ env =>
    ∀ tokenData, env.token = .resp true (.ok tokenData) → tokenData.access_token.nullish = false
  | .exchangeTemporaryToken _ env =>
    ∀ data, env.response = .resp true (.ok data) → data.sessionToken.nullish = false
  | _ => True

/-- The invariant of the data model: an authenticated state has a session
token. -/
def TokenInv (s : Sys) : Prop :=
  s.authState.isAuthenticated.truthy = true → s.authState.sessionToken.nullish = false

/-- An initiation in which the server binds but the browser cannot be
opened. -/
def initiateNoBrowser (csrf : String) : InitiateEnv where
  probe := allFree
  bind := .ok ()
  csrf := csrf
  openExternal := .error "spawn xdg-open ENOENT"

/-- A legacy exchange answered 2xx with the given session token and user. -/
def legacyOk (sessionToken : JsVal) (user : UserVal) : LegacyEnv where
  response := .resp true (.ok { sessionToken := sessionToken, user := user, message := .undefined })
  savedAt := "2025-01-01T00:00:00.000Z"
  writeFails := false

/-- The callback query of a provider that declined:
`?error=access_denied&error_description=User%20cancelled`, decoded. -/
def declinedQuery : List (String × String) :=
  [("error", "access_denied"), ("error_description", "User cancelled")]

/-- The payload `errorDescription || error` of the `auth-error`
notification for a query whose `error` parameter is truthy. -/
def providerErrorText (query : List (String × String)) : String :=
  if strTruthy (searchGet query "error_description") then
    (searchGet query "error_description").getD ""
  else (searchGet query "error").getD ""

/-- The state in which an attempt with CSRF state "s1" waits for its
callback and a main window is attached. -/
def waitingWithWindow : Sys :=
  run (init none) [.setMainWindow true, .initiateDesktopAuth (initiateOk "s1")]

/-- The state after a complete sign-in with access token "T1" and the
profile of `annData`, a main window being attached. -/
def signedIn : Sys :=
  run waitingWithWindow [.callback (some (codeQuery "abc" "s1")) (exchangeOk (.str "T1"))]

/-- The state after a legacy exchange whose response carries a session
token but no user. -/
def signedInNoUser : Sys :=
  run (init none) [.setMainWindow true,
    .exchangeTemporaryToken "tmp" (legacyOk (.str "T1") (.val .undefined))]

/-- A port is recorded only while a server is referenced. -/
def PortInv (s : Sys) : Prop :=
  s.localServer = none → s.serverPort = none

/-- How an operation may change the server reference: not at all, by
dropping server and port together, or by setting both. -/
def SrvStep (s t : Sys) : Prop :=
  (t.localServer = s.localServer ∧ t.serverPort = s.serverPort) ∨
  (t.localServer = none ∧ t.serverPort = none) ∨
  (∃ srv port, t.localServer = some srv ∧ t.serverPort = some port)

/-- A backend whose every usage request is answered 2xx with ten requests
remaining. -/
def usageOk : Nat → Fetch UsageBody :=
  fun _ =>
    .resp true (.ok (.obj { requests_remaining := .num "10", monthly_api_calls := .num "50" }))

/-- The awaited retry delays among the given effects. -/
def delays : List Effect → List Nat
  | [] => []
  | .delay ms :: rest => ms :: delays rest
  | _ :: rest => delays rest

/-- The responses written to the browser (status and page) among the given
effects. -/
def responses : List Effect → List (Nat × Page)
  | [] => []
  | .respond status page :: rest => (status, page) :: responses rest
  | _ :: rest => responses rest

/-- The effects that the usage fetch produces: the health probe, usage
requests, retry delays and `api-response-data` notifications. -/
def Effect.isUsage : Effect → Bool
  | .fetch .health => true
  | .fetch (.usage _) => true
  | .delay _ => true
  | .send channel _ => channel == "api-response-data"
  | _ => false

/-- The liveness probe fails: the request rejects or the response is not
`ok`. -/
def healthFails : Fetch Unit → Bool
  | .throws _ => true
  | .resp ok _ => !ok

/-- The condition under which `fetchUsageInfo` sends its request:
`isAuthenticated` and `sessionToken` are both truthy. -/
def Sys.authenticated (s : Sys) : Bool :=
  s.authState.isAuthenticated.truthy && s.authState.sessionToken.truthy

/-- A usage attempt succeeds when its request is answered 2xx with a body
that parses to a truthy value; this is the test `if (usageData)` of the
retry loop on what `fetchUsageInfo` returns. -/
def usageSucceeds : Fetch UsageBody → Bool
  | .resp true (.ok body) => body.truthy
  | _ => false

/-- The ports on which the closure `tryPort` calls `listen`, in the order of
the calls; the recursion is that of `tryPort`. -/
def probedPorts (probe : Nat → Probe) (maxPort : Nat) : Nat → Nat → List Nat
  | 0, currentPort => [currentPort]
  | fuel + 1, currentPort =>
    match probe currentPort with
    | .free => [currentPort]
    | .fails _ => [currentPort]
    | .inUse =>
      if currentPort + 1 > maxPort then [currentPort]
      else currentPort :: probedPorts probe maxPort fuel (currentPort + 1)

/-- Ports below the bound are in use, the others bind. -/
def inUseBelow (bound : Nat) : Nat → Probe :=
  fun port => if port < bound then .inUse else .free

/-- Every probed port is in use. -/
def allInUse : Nat → Probe := fun _ => .inUse

/-- The usage body with ten requests remaining of fifty. -/
def tenOfFifty : UsageBody :=
  .obj { requests_remaining := .num "10", monthly_api_calls := .num "50" }

/-- A backend whose usage endpoint times out on the first request and
answers the second one. -/
def usageSecond : Nat → Fetch UsageBody :=
  fun attempt =>
    if attempt = 2 then .resp true (.ok tenOfFifty)
    else .throws "Request timeout - backend may not be running"

/-- A backend whose usage endpoint answers every request with status 500. -/
def usageDown : Nat → Fetch UsageBody :=
  fun _ => .resp false (.error "Unexpected token")

/-- The authentication state written by the success block of
`exchangeAuthorizationCode` for a token body and a userinfo body. -/
def committedState (tokenData : TokenBody) (userData : UserData) : AuthState where
  isAuthenticated := .bool true
  sessionToken := tokenData.access_token
  refreshToken := tokenData.refresh_token
  user := .profile (mkProfile userData)
  tempToken := .null
  isAuthenticating := false
  oauthState := none

/-- The record that `saveAuthState` writes for an authentication state. -/
def savedRecord (a : AuthState) (savedAt : String) : SavedData where
  sessionToken := a.sessionToken
  refreshToken := a.refreshToken
  user := a.user
  isAuthenticated := a.isAuthenticated
  savedAt := savedAt

/-- An exchange that succeeds at both endpoints while the credential file
cannot be written. -/
def exchangeNoWrite (access : JsVal) : ExchangeEnv where
  token := .resp true (.ok (tokenBody access .undefined))
  userinfo := .resp true (.ok annData)
  savedAt := "2025-01-01T00:00:00.000Z"
  writeFails := true
  health := .throws "connect ECONNREFUSED"
  usage := fun _ => .throws "connect ECONNREFUSED"

/-- A userinfo body without any of the fields the module reads. -/
def emptyUserData : UserData where
  id := .undefined
  sub := .undefined
  name := .undefined
  email := .undefined
  given_name := .undefined
  family_name := .undefined
  picture := .undefined

/-- An exchange in which the token endpoint answers 2xx with the given
access token and the userinfo endpoint answers 401 with a JSON body. -/
def exchangeUserDenied (access : JsVal) : ExchangeEnv where
  token := .resp true (.ok (tokenBody access .undefined))
  userinfo := .resp false (.ok emptyUserData)
  savedAt := "2025-01-01T00:00:00.000Z"
  writeFails := false
  health := .throws "connect ECONNREFUSED"
  usage := fun _ => .throws "connect ECONNREFUSED"

/-- An exchange in which the token endpoint answers 2xx with the given
access token and the userinfo endpoint answers 502 with an HTML body. -/
def exchangeUserHtml (access : JsVal) : ExchangeEnv where
  token := .resp true (.ok (tokenBody access .undefined))
  userinfo := .resp false (.error "Unexpected token < in JSON at position 0")
  savedAt := "2025-01-01T00:00:00.000Z"
  writeFails := false
  health := .throws "connect ECONNREFUSED"
  usage := fun _ => .throws "connect ECONNREFUSED"

/-- The error body `{"error_description": "", "error": "invalid_grant"}`. -/
def emptyDescription : TokenBody where
  access_token := .undefined
  refresh_token := .undefined
  error_description := .str ""
  error := .str "invalid_grant"

/-- The error body `{"error": "invalid_grant", "error_description": "Code
expired"}`. -/
def codeExpired : TokenBody where
  access_token := .undefined
  refresh_token := .undefined
  error_description := .str "Code expired"
  error := .str "invalid_grant"

/-- The error body `{"error_description": ["bad", "code"]}`: the description
is an array, whose string conversion joins its elements. -/
def arrayDescription : TokenBody where
  access_token := .undefined
  refresh_token := .undefined
  error_description := .object 1 (some "bad,code")
  error := .undefined

/-- The error body `{"error": 1e21}`: the error field is a number, whose
string conversion is "1e+21". -/
def hugeError : TokenBody where
  access_token := .undefined
  refresh_token := .undefined
  error_description := .undefined
  error := .num "1e+21"

/-- An exchange in which the token endpoint answers 400 with the given
JSON body. -/
def exchangeRefused (errorData : TokenBody) : ExchangeEnv where
  token := .resp false (.ok errorData)
  userinfo := .throws "not requested"
  savedAt := "2025-01-01T00:00:00.000Z"
  writeFails := false
  health := .throws "connect ECONNREFUSED"
  usage := fun _ => .throws "connect ECONNREFUSED"

/-- The state in which a session that is authenticated but has no user
waits for the callback of a new attempt with CSRF state "s2". -/
def waitingAuthenticated : Sys :=
  run signedInNoUser [.initiateDesktopAuth (initiateOk "s2")]

/-- The introspection does not confirm the token: the request rejects, the
response is not `ok`, its body does not parse, or `active` is falsy. -/
def introspectInvalid : Fetch IntrospectBody → Bool
  | .throws _ => true
  | .resp false _ => true
  | .resp true (.error _) => true
  | .resp true (.ok data) => !data.active.truthy

/-- A credential record as written after the sign-in with access token "T1"
and the profile of `annData`. -/
def storedT1 : SavedData where
  sessionToken := .str "T1"
  refreshToken := .undefined
  user := .profile (mkProfile annData)
  isAuthenticated := .bool true
  savedAt := "2025-01-01T00:00:00.000Z"

/-- The state at startup with the credential `storedT1` on disk. -/
def startup : Sys :=
  init (some (.record storedT1))

/-- A validation in which introspection answers 2xx with the given `active`
value, userinfo answers as given, the file can be deleted and the backend
health probe fails. -/
def validateWith (active : JsVal) (userinfo : Fetch UserData) : ValidateEnv where
  introspect := .resp true (.ok { active := active })
  userinfo := userinfo
  unlinkFails := false
  health := .throws "connect ECONNREFUSED"
  usage := fun _ => .throws "connect ECONNREFUSED"

/-- A validation in which introspection answers 401 and the credential file
cannot be deleted. -/
def validateNoUnlink : ValidateEnv where
  introspect := .resp false (.error "Unauthorized")
  userinfo := .throws "not requested"
  unlinkFails := true
  health := .throws "connect ECONNREFUSED"
  usage := fun _ => .throws "connect ECONNREFUSED"

/-- The userinfo body with `sub` "u1" and `name` "Ann Lee". -/
def annLeeData : UserData where
  id := .undefined
  sub := .str "u1"
  name := .str "Ann Lee"
  email := .undefined
  given_name := .undefined
  family_name := .undefined
  picture := .undefined

/-- An initiation in which port 8000 is in use, port 8001 binds and the
browser opens. -/
def initiateNext (csrf : String) : InitiateEnv where
  probe := inUseBelow 8001
  bind := .ok ()
  csrf := csrf
  openExternal := .ok ()

/-- An initiation in which the probe of port 8000 succeeds but the port is
taken by another process before the server binds to it. -/
def initiateBindLost (csrf : String) : InitiateEnv where
  probe := allFree
  bind := .error "listen EADDRINUSE: address already in use 127.0.0.1:8000"
  csrf := csrf
  openExternal := .ok ()

/-- The state nine minutes after the start of a first attempt whose
callback arrived after one minute and whose code was refused by the token
endpoint (the server of that attempt was closed by its shutdown timer five
seconds later), at the moment a second attempt with CSRF state "s2" has just
been started. -/
def secondAttempt : Sys :=
  run (init none) [.initiateDesktopAuth (initiateOk "s1"), .advance 60000,
    .callback (some (codeQuery "abc" "s1")) exchangeDenied, .advance 5000, .fire 1,
    .advance 475000, .initiateDesktopAuth (initiateOk "s2")]

/-! ## The callback handler and the exchange it starts, step by step

`handleServerCallback` does not await the exchange it starts, so a second
request can be handled while the exchange of the first is waiting for the
token endpoint.  The definitions below cut both methods at the first `await`
of `exchangeAuthorizationCode`. -/

/-- The statements of `exchangeAuthorizationCode(code, state)` that run
before its first `await`: the check of the code, the CSRF check, whose
failure runs the `catch` block at once, and the call of `fetch` that sends
the token request.  `.ok` means that the token request is in flight;
`.error` carries the message of the error the returned promise is rejected
with. -/
def exchangeAuthorizationCodeSync (s : Sys) (code : String) (state : Option String) :
    Sys × Except String Unit :=
  if code = "" then (s, .error "Authorization code is required")
  else if strTruthy s.authState.oauthState && state != s.authState.oauthState then
    ((exchangeFailed s "Invalid state parameter - potential CSRF attack").1,
      .error "Invalid state parameter - potential CSRF attack")
  else (s.emit (.fetch (.token code s.serverPort)), .ok ())

/-- The rest of `exchangeAuthorizationCode`, from the answer of the token
endpoint on, run to completion. -/
def exchangeAuthorizationCodeResume (s : Sys) (env : ExchangeEnv) :
    Sys × Except String (UserVal × TokenBody) :=
  match env.token with
  | .throws msg => exchangeFailed s msg
  | .resp false (.error msg) => exchangeFailed s msg
  | .resp false (.ok errorData) =>
    exchangeFailed s
      ((errorData.error_description.or errorData.error).or (.str "Token exchange failed")).toMessage
  | .resp true (.error msg) => exchangeFailed s msg
  | .resp true (.ok tokenData) =>
    let s2 := s.emit (.fetch (.userinfo tokenData.access_token))
    match env.userinfo with
    | .throws msg => exchangeFailed s2 msg
    | .resp false (.error msg) => exchangeFailed s2 msg
    | .resp false (.ok _) => exchangeFailed s2 "Failed to get user information"
    | .resp true (.error msg) => exchangeFailed s2 msg
    | .resp true (.ok userData) =>
      let s3 := { s2 with authState :=
        { s2.authState with
          isAuthenticated := .bool true
          sessionToken := tokenData.access_token
          user := .profile (mkProfile userData)
          refreshToken := tokenData.refresh_token
          tempToken := .null
          isAuthenticating := false
          oauthState := none } }
      let s4 := saveAuthState s3 env.savedAt env.writeFails
      let s5 := updateAuthStatus s4
      let s6 := (fetchUsageInfoWithRetry s5 3 1000 env.health env.usage).1
      let s7 := s6.send "auth-success"
        (.success s6.authState.user "Successfully authenticated with OAuth2!")
      (s7, .ok (s7.authState.user, tokenData))

/-- The statements of `handleServerCallback(req, res)` that run until the
handler returns, in program order: for a request with a code the success
page is written, `exchangeAuthorizationCode` is called and runs up to its
first `await`, and the shutdown timer is armed; when the exchange was
rejected in that first part, its rejection handler then sends `auth-error`
before any other request is handled.  The second component tells whether a
token request is in flight when the handler is done. -/
def handleServerCallbackSync (s : Sys) (req : Option (List (String × String))) : Sys × Bool :=
  match req with
  | none =>
    (stopLocalServer
      ((s.emit (.respond 500 .serverError)).send "auth-error"
        (.text "Server error processing authentication")), false)
  | some query =>
    let code := searchGet query "code"
    let state := searchGet query "state"
    let error := searchGet query "error"
    let errorDescription := searchGet query "error_description"
    if strTruthy error then
      let s1 := s.emit (.respond 200
        (.failed (error.getD "") (if strTruthy errorDescription then errorDescription else none)))
      let s2 := s1.send "auth-error"
        (.text ((if strTruthy errorDescription then errorDescription else error).getD ""))
      (s2.setTimeout 5000 .shutdown, false)
    else if strTruthy code then
      let s1 := s.emit (.respond 200 .successful)
      let r := exchangeAuthorizationCodeSync s1 (code.getD "") state
      let s2 := r.1.setTimeout 5000 .shutdown
      match r.2 with
      | .ok _ => (s2, true)
      | .error msg => (s2.send "auth-error" (.text msg), false)
    else
      let s1 := s.emit (.respond 200 .noCode)
      let s2 := s1.send "auth-error" (.text "No authorization code received")
      (s2.setTimeout 5000 .shutdown, false)

/-- The CSRF check of `exchangeAuthorizationCode` passes for a `state`
parameter in a state: no CSRF value is pending, or the parameter equals
it. -/
def csrfPasses (s : Sys) (state : Option String) : Bool :=
  !(strTruthy s.authState.oauthState && state != s.authState.oauthState)

end AuthManager

/-!
# Cleaning code for typing: a model of `src/utils/CodeExtractor.js`

A JavaScript string is taken as the list of its characters.  The characters
the method looks at (carriage return, line feed, white space) are all in the
Basic Multilingual Plane, so working on characters and working on UTF-16
code units give the same result.
-/

namespace CodeExtractor

/-- The call `.replace(/\r\n/g, '\n')`: scanning from the left, every
carriage return directly followed by a line feed is replaced, together with
that line feed, by one line feed. -/
def replaceCRLF : List Char → List Char
  | [] => []
  | [c] => [c]
  | c :: d :: rest =>
    if c = '\r' ∧ d = '\n' then '\n' :: replaceCRLF rest
    else c :: replaceCRLF (d :: rest)

/-- The call `.replace(/\r/g, '\n')`. -/
def replaceCR (s : List Char) : List Char :=
  s.map (fun c => if c = '\r' then '\n' else c)

/-- The ECMAScript production `WhiteSpace`: TAB, VT, FF, ZWNBSP and the
characters of the Unicode category `Space_Separator`. -/
def isWhiteSpace (c : Char) : Bool :=
  [0x0009, 0x000B, 0x000C, 0xFEFF, 0x0020, 0x00A0, 0x1680, 0x202F, 0x205F, 0x3000].contains
    c.toNat || (decide (0x2000 ≤ c.toNat) && decide (c.toNat ≤ 0x200A))

/-- The ECMAScript production `LineTerminator`. -/
def isLineTerminator (c : Char) : Bool :=
  [0x000A, 0x000D, 0x2028, 0x2029].contains c.toNat

/-- The characters stripped by `String.prototype.trimEnd`: white space and
line terminators. -/
def isTrimmed (c : Char) : Bool :=
  isWhiteSpace c || isLineTerminator c

/-- The method `String.prototype.trimEnd`. -/
def trimEnd (line : List Char) : List Char :=
  line.rdropWhile isTrimmed

/-- The value `normalizedCode` of `cleanCodeForTyping`. -/
def normalizedCode (code : List Char) : List Char :=
  replaceCR (replaceCRLF code)

/-- The conversion of line endings in the words of the specification, to be
compared with `normalizedCode`: in one pass from the left, a carriage return
directly followed by a line feed becomes, together with that line feed, one
line feed; any other (lone) carriage return becomes a line feed; every other
character is kept. -/
def convertLineEndings : List Char → List Char
  | [] => []
  | [c] => [if c = '\r' then '\n' else c]
  | c :: d :: rest =>
    if c = '\r' ∧ d = '\n' then '\n' :: convertLineEndings rest
    else (if c = '\r' then '\n' else c) :: convertLineEndings (d :: rest)

/-- The method `cleanCodeForTyping(code)`; `none` stands for a missing
argument (`undefined` or `null`).  `split` and `join` on the line feed are
`List.splitOn` and `List.intercalate`. -/
def cleanCodeForTyping (code : Option String) : String :=
  match code with
  | none => ""
  | some code =>
    if code = "" then ""
    else
      let lines := ((normalizedCode code.data).splitOn '\n').map trimEnd
      String.mk (List.intercalate ['\n'] lines)

end CodeExtractor

/-!
# The key-blocking level: a model of `src/shortcuts/KeyBlockingConfig.js` and
of the key-blocking part of `src/shortcuts/ShortcutManager.js`
-/

namespace KeyBlockingConfig

/-- The values of `process.platform` the module distinguishes. -/
inductive Platform where
  | win32
  | darwin
  | linux
  | other
deriving DecidableEq, Repr

/-- The flags of the `aggressiveMode` object that differ between
platforms. -/
structure AggressiveMode where
  useLowLevelHooks : Bool
  useGlobalMonitor : Bool
  useX11Grabs : Bool
deriving DecidableEq, Repr

/-- The configuration object, with the fields the shortcut manager reads and
the field the platform overrides replace. -/
structure Config where
  level : String
  enableNativeHooks : Bool
  aggressiveMode : AggressiveMode
deriving DecidableEq, Repr

/-- An object of overrides: a field is either absent or given. -/
structure Overrides where
  level : Option String
  enableNativeHooks : Option Bool
  aggressiveMode : Option AggressiveMode
deriving DecidableEq, Repr

/-- The object `this.defaultConfig` of the constructor. -/
def defaultConfig : Config where
  level := "standard"
  enableNativeHooks := false
  aggressiveMode :=
    { useLowLevelHooks := false, useGlobalMonitor := false, useX11Grabs := false }

/-- The method `getPlatformOverrides()`. -/
def getPlatformOverrides (platform : Platform) : Overrides :=
  match platform with
  | .win32 =>
    { level := none, enableNativeHooks := none,
      aggressiveMode := some { defaultConfig.aggressiveMode with useLowLevelHooks := true } }
  | .darwin =>
    { level := none, enableNativeHooks := none,
      aggressiveMode := some { defaultConfig.aggressiveMode with useGlobalMonitor := true } }
  | .linux =>
    { level := none, enableNativeHooks := none,
      aggressiveMode := some { defaultConfig.aggressiveMode with useX11Grabs := true } }
  | .other => { level := none, enableNativeHooks := none, aggressiveMode := none }

/-- The object spread `{ ...config, ...overrides }`. -/
def spread (config : Config) (overrides : Overrides) : Config where
  level := overrides.level.getD config.level
  enableNativeHooks := overrides.enableNativeHooks.getD config.enableNativeHooks
  aggressiveMode := overrides.aggressiveMode.getD config.aggressiveMode

/-- The method `loadConfig()`: the new value of `this.config`.  The value
held before is not read. -/
def loadConfig (platform : Platform) (_config : Config) : Config :=
  spread defaultConfig (getPlatformOverrides platform)

end KeyBlockingConfig

namespace ShortcutManager

open KeyBlockingConfig

/-- The fields of a `ShortcutManager` that the key-blocking methods read and
write; `config` is `this.keyBlockingConfig.config`, `validationInterval`
records whether the validation interval is set. -/
structure State where
  platform : Platform
  keyBlockingLevel : String
  keyBlockingActive : Bool
  configLoaded : Bool
  config : Config
  validationInterval : Bool
deriving DecidableEq, Repr

/-- The state after the constructor. -/
def init (platform : Platform) : State where
  platform := platform
  keyBlockingLevel := "standard"
  keyBlockingActive := false
  configLoaded := false
  config := defaultConfig
  validationInterval := false

/-- The method `deinitializeKeyBlocking()`; `this.nativeHook` is never
assigned, so no hook is cleaned up. -/
def deinitializeKeyBlocking (s : State) : State :=
  { s with validationInterval := false, keyBlockingActive := false }

/-- The method `initializeKeyBlocking()`, run to completion.  `setupThrows`
tells whether `updateBlockedKeys`, `initializeNativeHooks` or
`initializeEnhancedMonitoring` throws, and if so whether the interval was
already set; the `catch` block only logs. -/
def initializeKeyBlocking (s : State) (setupThrows : Option Bool) : State :=
  let s1 := { s with config := loadConfig s.platform s.config, configLoaded := true }
  let config := s1.config
  let s2 := { s1 with keyBlockingLevel := config.level }
  if s2.keyBlockingLevel = "none" then s2
  else
    match setupThrows with
    | some intervalSet => { s2 with validationInterval := s2.validationInterval || intervalSet }
    | none => { s2 with validationInterval := true, keyBlockingActive := true }

/-- The array `validLevels` of `setKeyBlockingLevel`. -/
def validLevels : List String :=
  ["none", "standard", "aggressive"]

/-- The statements of `setKeyBlockingLevel(level)` that run before it
returns: the check, the assignment, the deinitialisation, and the part of
`initializeKeyBlocking` before its first `await` (which changes none of the
fields of `State`).  `.error` carries the message of the error thrown. -/
def setKeyBlockingLevelSync (s : State) (level : String) : Except String State :=
  if !validLevels.contains level then
    .error ("Invalid key blocking level: " ++ level ++ ". Must be one of: " ++
      ", ".intercalate validLevels)
  else
    .ok (deinitializeKeyBlocking { s with keyBlockingLevel := level })

/-- The method `setKeyBlockingLevel(level)` followed by the completion of
the `initializeKeyBlocking()` it starts without awaiting it. -/
def setKeyBlockingLevel (s : State) (level : String) (setupThrows : Option Bool) :
    Except String State :=
  match setKeyBlockingLevelSync s level with
  | .error msg => .error msg
  | .ok s1 => .ok (initializeKeyBlocking s1 setupThrows)

/-- The fields `level` and `active` of the object returned by
`getKeyBlockingStatus()`. -/
structure Status where
  level : String
  active : Bool
deriving DecidableEq, Repr

/-- The method `getKeyBlockingStatus()`, restricted to `level` and
`active`. -/
def getKeyBlockingStatus (s : State) : Status where
  level := s.keyBlockingLevel
  active := s.keyBlockingActive

end ShortcutManager

namespace AuthManager

/-! ## Frame lemmas: what the helper operations leave unchanged -/

@[simp] theorem addLog_authState (s : Sys) (l : List Effect) :
    (s.addLog l).authState = s.authState := by
  rfl

@[simp] theorem addLog_mainWindow (s : Sys) (l : List Effect) :
    (s.addLog l).mainWindow = s.mainWindow := by
  rfl

@[simp] theorem addLog_localServer (s : Sys) (l : List Effect) :
    (s.addLog l).localServer = s.localServer := by
  rfl

@[simp] theorem addLog_serverPort (s : Sys) (l : List Effect) :
    (s.addLog l).serverPort = s.serverPort := by
  rfl

@[simp] theorem addLog_file (s : Sys) (l : List Effect) :
    (s.addLog l).file = s.file := by
  rfl

@[simp] theorem addLog_nextServer (s : Sys) (l : List Effect) :
    (s.addLog l).nextServer = s.nextServer := by
  rfl

@[simp] theorem addLog_servers (s : Sys) (l : List Effect) :
    (s.addLog l).servers = s.servers := by
  rfl

@[simp] theorem addLog_now (s : Sys) (l : List Effect) :
    (s.addLog l).now = s.now := by
  rfl

@[simp] theorem addLog_timers (s : Sys) (l : List Effect) :
    (s.addLog l).timers = s.timers := by
  rfl

@[simp] theorem addLog_log (s : Sys) (l : List Effect) :
    (s.addLog l).log = s.log ++ l := by
  rfl

@[simp] theorem addLog_addLog (s : Sys) (a b : List Effect) :
    (s.addLog a).addLog b = s.addLog (a ++ b) := by
  simp [Sys.addLog, List.append_assoc]

@[simp] theorem addLog_nil (s : Sys) : s.addLog [] = s := by
  simp [Sys.addLog]

theorem emit_eq (s : Sys) (e : Effect) : s.emit e = s.addLog [e] := by
  rfl

theorem send_eq (s : Sys) (channel : String) (payload : Payload) :
    s.send channel payload = s.addLog (if s.mainWindow then [.send channel payload] else []) := by
  unfold Sys.send
  split <;> simp [emit_eq]

@[simp] theorem emit_authState (s : Sys) (e : Effect) :
    (s.emit e).authState = s.authState := by
  rfl

@[simp] theorem emit_mainWindow (s : Sys) (e : Effect) :
    (s.emit e).mainWindow = s.mainWindow := by
  rfl

@[simp] theorem emit_localServer (s : Sys) (e : Effect) :
    (s.emit e).localServer = s.localServer := by
  rfl

@[simp] theorem emit_serverPort (s : Sys) (e : Effect) :
    (s.emit e).serverPort = s.serverPort := by
  rfl

@[simp] theorem emit_file (s : Sys) (e : Effect) :
    (s.emit e).file = s.file := by
  rfl

@[simp] theorem emit_nextServer (s : Sys) (e : Effect) :
    (s.emit e).nextServer = s.nextServer := by
  rfl

@[simp] theorem emit_servers (s : Sys) (e : Effect) :
    (s.emit e).servers = s.servers := by
  rfl

@[simp] theorem emit_now (s : Sys) (e : Effect) :
    (s.emit e).now = s.now := by
  rfl

@[simp] theorem emit_timers (s : Sys) (e : Effect) :
    (s.emit e).timers = s.timers := by
  rfl

@[simp] theorem emit_log (s : Sys) (e : Effect) :
    (s.emit e).log = s.log ++ [e] := by
  rfl

@[simp] theorem send_authState (s : Sys) (channel : String) (payload : Payload) :
    (s.send channel payload).authState = s.authState := by
  rw [send_eq]; rfl

@[simp] theorem send_mainWindow (s : Sys) (channel : String) (payload : Payload) :
    (s.send channel payload).mainWindow = s.mainWindow := by
  rw [send_eq]; rfl

@[simp] theorem send_localServer (s : Sys) (channel : String) (payload : Payload) :
    (s.send channel payload).localServer = s.localServer := by
  rw [send_eq]; rfl

@[simp] theorem send_serverPort (s : Sys) (channel : String) (payload : Payload) :
    (s.send channel payload).serverPort = s.serverPort := by
  rw [send_eq]; rfl

@[simp] theorem send_file (s : Sys) (channel : String) (payload : Payload) :
    (s.send channel payload).file = s.file := by
  rw [send_eq]; rfl

@[simp] theorem send_nextServer (s : Sys) (channel : String) (payload : Payload) :
    (s.send channel payload).nextServer = s.nextServer := by
  rw [send_eq]; rfl

@[simp] theorem send_servers (s : Sys) (channel : String) (payload : Payload) :
    (s.send channel payload).servers = s.servers := by
  rw [send_eq]; rfl

@[simp] theorem send_now (s : Sys) (channel : String) (payload : Payload) :
    (s.send channel payload).now = s.now := by
  rw [send_eq]; rfl

@[simp] theorem send_timers (s : Sys) (channel : String) (payload : Payload) :
    (s.send channel payload).timers = s.timers := by
  rw [send_eq]; rfl

@[simp] theorem setTimeout_authState (s : Sys) (ms : Nat) (kind : TimerKind) :
    (s.setTimeout ms kind).authState = s.authState := by
  rfl

@[simp] theorem setTimeout_mainWindow (s : Sys) (ms : Nat) (kind : TimerKind) :
    (s.setTimeout ms kind).mainWindow = s.mainWindow := by
  rfl

@[simp] theorem setTimeout_localServer (s : Sys) (ms : Nat) (kind : TimerKind) :
    (s.setTimeout ms kind).localServer = s.localServer := by
  rfl

@[simp] theorem setTimeout_serverPort (s : Sys) (ms : Nat) (kind : TimerKind) :
    (s.setTimeout ms kind).serverPort = s.serverPort := by
  rfl

@[simp] theorem setTimeout_file (s : Sys) (ms : Nat) (kind : TimerKind) :
    (s.setTimeout ms kind).file = s.file := by
  rfl

@[simp] theorem setTimeout_nextServer (s : Sys) (ms : Nat) (kind : TimerKind) :
    (s.setTimeout ms kind).nextServer = s.nextServer := by
  rfl

@[simp] theorem setTimeout_servers (s : Sys) (ms : Nat) (kind : TimerKind) :
    (s.setTimeout ms kind).servers = s.servers := by
  rfl

@[simp] theorem setTimeout_now (s : Sys) (ms : Nat) (kind : TimerKind) :
    (s.setTimeout ms kind).now = s.now := by
  rfl

@[simp] theorem updateAuthStatus_authState (s : Sys) :
    (updateAuthStatus s).authState = s.authState := by
  simp [updateAuthStatus]

@[simp] theorem updateAuthStatus_mainWindow (s : Sys) :
    (updateAuthStatus s).mainWindow = s.mainWindow := by
  simp [updateAuthStatus]

@[simp] theorem updateAuthStatus_localServer (s : Sys) :
    (updateAuthStatus s).localServer = s.localServer := by
  simp [updateAuthStatus]

@[simp] theorem updateAuthStatus_serverPort (s : Sys) :
    (updateAuthStatus s).serverPort = s.serverPort := by
  simp [updateAuthStatus]

@[simp] theorem updateAuthStatus_file (s : Sys) :
    (updateAuthStatus s).file = s.file := by
  simp [updateAuthStatus]

@[simp] theorem updateAuthStatus_nextServer (s : Sys) :
    (updateAuthStatus s).nextServer = s.nextServer := by
  simp [updateAuthStatus]

@[simp] theorem updateAuthStatus_servers (s : Sys) :
    (updateAuthStatus s).servers = s.servers := by
  simp [updateAuthStatus]

@[simp] theorem updateAuthStatus_now (s : Sys) :
    (updateAuthStatus s).now = s.now := by
  simp [updateAuthStatus]

@[simp] theorem updateAuthStatus_timers (s : Sys) :
    (updateAuthStatus s).timers = s.timers := by
  simp [updateAuthStatus]

@[simp] theorem saveAuthState_authState (s : Sys) (savedAt : String) (writeFails : Bool) :
    (saveAuthState s savedAt writeFails).authState = s.authState := by
  unfold saveAuthState; split <;> rfl

@[simp] theorem saveAuthState_mainWindow (s : Sys) (savedAt : String) (writeFails : Bool) :
    (saveAuthState s savedAt writeFails).mainWindow = s.mainWindow := by
  unfold saveAuthState; split <;> rfl

@[simp] theorem saveAuthState_localServer (s : Sys) (savedAt : String) (writeFails : Bool) :
    (saveAuthState s savedAt writeFails).localServer = s.localServer := by
  unfold saveAuthState; split <;> rfl

@[simp] theorem saveAuthState_serverPort (s : Sys) (savedAt : String) (writeFails : Bool) :
    (saveAuthState s savedAt writeFails).serverPort = s.serverPort := by
  unfold saveAuthState; split <;> rfl

@[simp] theorem saveAuthState_nextServer (s : Sys) (savedAt : String) (writeFails : Bool) :
    (saveAuthState s savedAt writeFails).nextServer = s.nextServer := by
  unfold saveAuthState; split <;> rfl

@[simp] theorem saveAuthState_servers (s : Sys) (savedAt : String) (writeFails : Bool) :
    (saveAuthState s savedAt writeFails).servers = s.servers := by
  unfold saveAuthState; split <;> rfl

@[simp] theorem saveAuthState_now (s : Sys) (savedAt : String) (writeFails : Bool) :
    (saveAuthState s savedAt writeFails).now = s.now := by
  unfold saveAuthState; split <;> rfl

@[simp] theorem saveAuthState_timers (s : Sys) (savedAt : String) (writeFails : Bool) :
    (saveAuthState s savedAt writeFails).timers = s.timers := by
  unfold saveAuthState; split <;> rfl

@[simp] theorem stopLocalServer_authState (s : Sys) :
    (stopLocalServer s).authState = s.authState := by
  unfold stopLocalServer; split <;> rfl

@[simp] theorem stopLocalServer_mainWindow (s : Sys) :
    (stopLocalServer s).mainWindow = s.mainWindow := by
  unfold stopLocalServer; split <;> rfl

@[simp] theorem stopLocalServer_file (s : Sys) :
    (stopLocalServer s).file = s.file := by
  unfold stopLocalServer; split <;> rfl

@[simp] theorem stopLocalServer_nextServer (s : Sys) :
    (stopLocalServer s).nextServer = s.nextServer := by
  unfold stopLocalServer; split <;> rfl

@[simp] theorem stopLocalServer_now (s : Sys) :
    (stopLocalServer s).now = s.now := by
  unfold stopLocalServer; split <;> rfl

@[simp] theorem stopLocalServer_timers (s : Sys) :
    (stopLocalServer s).timers = s.timers := by
  unfold stopLocalServer; split <;> rfl

theorem fetchUsageInfo_frame (s : Sys) (out : Fetch UsageBody) :
    ∃ l, (fetchUsageInfo s out).1 = s.addLog l := by
  unfold fetchUsageInfo
  split
  · exact ⟨[], by simp⟩
  · split
    · exact ⟨_, emit_eq _ _⟩
    · exact ⟨_, emit_eq _ _⟩
    · exact ⟨_, emit_eq _ _⟩
    · exact ⟨_, by simp only [send_eq, emit_eq, addLog_addLog, addLog_mainWindow]; rfl⟩
    · split
      · exact ⟨_, emit_eq _ _⟩
      · exact ⟨_, by simp only [send_eq, emit_eq, addLog_addLog, addLog_mainWindow]; rfl⟩

theorem retryLoop_frame (usage : Nat → Fetch UsageBody) (maxRetries : Int) (delayMs : Nat)
    (remaining : Nat) :
    ∀ (attempt : Nat) (s : Sys),
      ∃ l, (retryLoop usage maxRetries delayMs remaining attempt s).1 = s.addLog l := by
  induction remaining with
  | zero => intro attempt s; exact ⟨[], by simp [retryLoop]⟩
  | succ k ih =>
    intro attempt s
    obtain ⟨l1, h1⟩ := fetchUsageInfo_frame s (usage attempt)
    have next : ∃ l, (retryLoop usage maxRetries delayMs k (attempt + 1)
        (if (attempt : Int) < maxRetries then (fetchUsageInfo s (usage attempt)).1.emit
          (.delay delayMs) else (fetchUsageInfo s (usage attempt)).1)).1 = s.addLog l := by
      split
      · obtain ⟨l2, h2⟩ := ih (attempt + 1)
          ((fetchUsageInfo s (usage attempt)).1.emit (.delay delayMs))
        exact ⟨_, by rw [h2, h1, emit_eq, addLog_addLog, addLog_addLog]⟩
      · obtain ⟨l2, h2⟩ := ih (attempt + 1) (fetchUsageInfo s (usage attempt)).1
        exact ⟨_, by rw [h2, h1, addLog_addLog]⟩
    unfold retryLoop
    simp only []
    split
    · split
      · exact ⟨l1, h1⟩
      · exact next
    · exact next

theorem fetchUsageInfoWithRetry_frame (s : Sys) (maxRetries : Int) (delayMs : Nat)
    (health : Fetch Unit) (usage : Nat → Fetch UsageBody) :
    ∃ l, (fetchUsageInfoWithRetry s maxRetries delayMs health usage).1 = s.addLog l := by
  unfold fetchUsageInfoWithRetry
  simp only []
  split
  · exact ⟨_, emit_eq _ _⟩
  · exact ⟨_, emit_eq _ _⟩
  · obtain ⟨l, h⟩ := retryLoop_frame usage maxRetries delayMs maxRetries.toNat 1
      (s.emit (.fetch .health))
    exact ⟨_, by rw [h, emit_eq, addLog_addLog]⟩

@[simp] theorem fetchUsageInfoWithRetry_authState (s : Sys) (maxRetries : Int) (delayMs : Nat)
    (health : Fetch Unit) (usage : Nat → Fetch UsageBody) :
    (fetchUsageInfoWithRetry s maxRetries delayMs health usage).1.authState = s.authState := by
  obtain ⟨l, h⟩ := fetchUsageInfoWithRetry_frame s maxRetries delayMs health usage
  rw [h]; rfl

@[simp] theorem fetchUsageInfoWithRetry_mainWindow (s : Sys) (maxRetries : Int) (delayMs : Nat)
    (health : Fetch Unit) (usage : Nat → Fetch UsageBody) :
    (fetchUsageInfoWithRetry s maxRetries delayMs health usage).1.mainWindow = s.mainWindow := by
  obtain ⟨l, h⟩ := fetchUsageInfoWithRetry_frame s maxRetries delayMs health usage
  rw [h]; rfl

@[simp] theorem fetchUsageInfoWithRetry_localServer (s : Sys) (maxRetries : Int) (delayMs : Nat)
    (health : Fetch Unit) (usage : Nat → Fetch UsageBody) :
    (fetchUsageInfoWithRetry s maxRetries delayMs health usage).1.localServer = s.localServer := by
  obtain ⟨l, h⟩ := fetchUsageInfoWithRetry_frame s maxRetries delayMs health usage
  rw [h]; rfl

@[simp] theorem fetchUsageInfoWithRetry_serverPort (s : Sys) (maxRetries : Int) (delayMs : Nat)
    (health : Fetch Unit) (usage : Nat → Fetch UsageBody) :
    (fetchUsageInfoWithRetry s maxRetries delayMs health usage).1.serverPort = s.serverPort := by
  obtain ⟨l, h⟩ := fetchUsageInfoWithRetry_frame s maxRetries delayMs health usage
  rw [h]; rfl

@[simp] theorem fetchUsageInfoWithRetry_file (s : Sys) (maxRetries : Int) (delayMs : Nat)
    (health : Fetch Unit) (usage : Nat → Fetch UsageBody) :
    (fetchUsageInfoWithRetry s maxRetries delayMs health usage).1.file = s.file := by
  obtain ⟨l, h⟩ := fetchUsageInfoWithRetry_frame s maxRetries delayMs health usage
  rw [h]; rfl

@[simp] theorem fetchUsageInfoWithRetry_nextServer (s : Sys) (maxRetries : Int) (delayMs : Nat)
    (health : Fetch Unit) (usage : Nat → Fetch UsageBody) :
    (fetchUsageInfoWithRetry s maxRetries delayMs health usage).1.nextServer = s.nextServer := by
  obtain ⟨l, h⟩ := fetchUsageInfoWithRetry_frame s maxRetries delayMs health usage
  rw [h]; rfl

@[simp] theorem fetchUsageInfoWithRetry_servers (s : Sys) (maxRetries : Int) (delayMs : Nat)
    (health : Fetch Unit) (usage : Nat → Fetch UsageBody) :
    (fetchUsageInfoWithRetry s maxRetries delayMs health usage).1.servers = s.servers := by
  obtain ⟨l, h⟩ := fetchUsageInfoWithRetry_frame s maxRetries delayMs health usage
  rw [h]; rfl

@[simp] theorem fetchUsageInfoWithRetry_now (s : Sys) (maxRetries : Int) (delayMs : Nat)
    (health : Fetch Unit) (usage : Nat → Fetch UsageBody) :
    (fetchUsageInfoWithRetry s maxRetries delayMs health usage).1.now = s.now := by
  obtain ⟨l, h⟩ := fetchUsageInfoWithRetry_frame s maxRetries delayMs health usage
  rw [h]; rfl

@[simp] theorem fetchUsageInfoWithRetry_timers (s : Sys) (maxRetries : Int) (delayMs : Nat)
    (health : Fetch Unit) (usage : Nat → Fetch UsageBody) :
    (fetchUsageInfoWithRetry s maxRetries delayMs health usage).1.timers = s.timers := by
  obtain ⟨l, h⟩ := fetchUsageInfoWithRetry_frame s maxRetries delayMs health usage
  rw [h]; rfl


@[simp] theorem send_log (s : Sys) (channel : String) (payload : Payload) :
    (s.send channel payload).log
      = s.log ++ (if s.mainWindow then [.send channel payload] else []) := by
  rw [send_eq]; rfl

@[simp] theorem setTimeout_log (s : Sys) (ms : Nat) (kind : TimerKind) :
    (s.setTimeout ms kind).log = s.log ++ [.setTimeout ms kind] := by
  rfl

@[simp] theorem setTimeout_timers (s : Sys) (ms : Nat) (kind : TimerKind) :
    (s.setTimeout ms kind).timers = s.timers ++ [(s.now + ms, kind)] := by
  rfl

@[simp] theorem updateAuthStatus_log (s : Sys) :
    (updateAuthStatus s).log
      = s.log ++ (if s.mainWindow then
          [.send "auth-status-updated" (.status s.authState.isAuthenticated s.authState.user
            s.authState.isAuthenticating none)] else []) := by
  simp [updateAuthStatus]

theorem effectsSince_of_log {s t : Sys} {l : List Effect} (h : t.log = s.log ++ l) :
    effectsSince s t = l := by
  simp [effectsSince, h]

@[simp] theorem fetches_append (a b : List Effect) : fetches (a ++ b) = fetches a ++ fetches b := by
  induction a with
  | nil => rfl
  | cons e rest ih => cases e <;> simp [fetches, ih]

@[simp] theorem writes_append (a b : List Effect) : writes (a ++ b) = writes a ++ writes b := by
  induction a with
  | nil => rfl
  | cons e rest ih => cases e <;> simp [writes, ih]

@[simp] theorem sentOn_append (channel : String) (a b : List Effect) :
    sentOn channel (a ++ b) = sentOn channel a ++ sentOn channel b := by
  induction a with
  | nil => rfl
  | cons e rest ih =>
    cases e <;> simp [sentOn, ih]
    split <;> simp

@[simp] theorem serversStarted_append (a b : List Effect) :
    serversStarted (a ++ b) = serversStarted a ++ serversStarted b := by
  induction a with
  | nil => rfl
  | cons e rest ih => cases e <;> simp [serversStarted, ih]

@[simp] theorem urlsOpened_append (a b : List Effect) :
    urlsOpened (a ++ b) = urlsOpened a ++ urlsOpened b := by
  induction a with
  | nil => rfl
  | cons e rest ih => cases e <;> simp [urlsOpened, ih]

theorem exchange_csrf_mismatch (s : Sys) (code : String) (state : Option String)
    (env : ExchangeEnv) (hcode : code ≠ "")
    (pending : strTruthy s.authState.oauthState = true)
    (mismatch : state ≠ s.authState.oauthState) :
    exchangeAuthorizationCode s code state env
      = exchangeFailed s "Invalid state parameter - potential CSRF attack" := by
  unfold exchangeAuthorizationCode
  simp [hcode, pending, mismatch]

theorem exchangeFailed_log (s : Sys) (msg : String) :
    (exchangeFailed s msg).1.log = s.log ++ (if s.mainWindow then
      [.send "auth-status-updated" (.status s.authState.isAuthenticated s.authState.user
        false none)] else []) := by
  simp [exchangeFailed]

theorem strTruthy_getD {o : Option String} (h : strTruthy o = true) : o.getD "" ≠ "" := by
  cases o with
  | none => simp [strTruthy] at h
  | some v => simpa [strTruthy] using h

/-- C1 (as amended): when a CSRF value is pending and the `state` of the
callback differs from it, `exchangeAuthorizationCode` fails, leaves
`isAuthenticated` and `sessionToken` as they were, sends no request and
writes no credential file; the same holds for the callback handled by
`handleServerCallback`. -/
theorem csrf_mismatch_rejected (s : Sys) (code : String) (query : List (String × String))
    (env : ExchangeEnv)
    (pending : strTruthy s.authState.oauthState = true)
    (mismatch : searchGet query "state" ≠ s.authState.oauthState) :
    ((exchangeAuthorizationCode s code (searchGet query "state") env).1.authState.isAuthenticated
        = s.authState.isAuthenticated ∧
      (exchangeAuthorizationCode s code (searchGet query "state") env).1.authState.sessionToken
        = s.authState.sessionToken ∧
      (exchangeAuthorizationCode s code (searchGet query "state") env).1.file = s.file ∧
      writes (effectsSince s (exchangeAuthorizationCode s code (searchGet query "state") env).1)
        = [] ∧
      fetches (effectsSince s (exchangeAuthorizationCode s code (searchGet query "state") env).1)
        = [] ∧
      ∃ msg, (exchangeAuthorizationCode s code (searchGet query "state") env).2 = .error msg) ∧
    ((handleServerCallback s (some query) env).authState.isAuthenticated
        = s.authState.isAuthenticated ∧
      (handleServerCallback s (some query) env).authState.sessionToken
        = s.authState.sessionToken ∧
      (handleServerCallback s (some query) env).file = s.file ∧
      writes (effectsSince s (handleServerCallback s (some query) env)) = [] ∧
      fetches (effectsSince s (handleServerCallback s (some query) env)) = []) := by
  constructor
  · by_cases hcode : code = ""
    · subst hcode
      simp [exchangeAuthorizationCode, effectsSince, writes, fetches]
    · rw [exchange_csrf_mismatch s code _ env hcode pending mismatch]
      rw [effectsSince_of_log (exchangeFailed_log s _)]
      refine ⟨by simp [exchangeFailed], by simp [exchangeFailed], by simp [exchangeFailed],
        ?_, ?_, ⟨_, rfl⟩⟩
      · cases s.mainWindow <;> simp [writes]
      · cases s.mainWindow <;> simp [fetches]
  · unfold handleServerCallback
    simp only []
    split
    · refine ⟨by simp, by simp, by simp, ?_, ?_⟩
      · rw [effectsSince_of_log (l := _) (by simp; rfl)]
        split_ifs <;> simp [writes]
      · rw [effectsSince_of_log (l := _) (by simp; rfl)]
        split_ifs <;> simp [fetches]
    · split
      · rename_i hc
        rw [exchange_csrf_mismatch _ _ _ env (strTruthy_getD hc) (by simpa using pending)
          (by simpa using mismatch)]
        simp only [exchangeFailed]
        refine ⟨by simp, by simp, by simp, ?_, ?_⟩
        · rw [effectsSince_of_log (l := _) (by simp; rfl)]
          split_ifs <;> simp [writes]
        · rw [effectsSince_of_log (l := _) (by simp; rfl)]
          split_ifs <;> simp [fetches]
      · refine ⟨by simp, by simp, by simp, ?_, ?_⟩
        · rw [effectsSince_of_log (l := _) (by simp; rfl)]
          split_ifs <;> simp [writes]
        · rw [effectsSince_of_log (l := _) (by simp; rfl)]
          split_ifs <;> simp [fetches]

theorem csrf_mismatch_rejected_witness :
    strTruthy waiting.authState.oauthState = true ∧
    searchGet (codeQuery "abc" "evil") "state" ≠ waiting.authState.oauthState ∧
    ((exchangeAuthorizationCode waiting "abc" (searchGet (codeQuery "abc" "evil") "state")
          (exchangeOk (.str "T1"))).1.authState.isAuthenticated
        = waiting.authState.isAuthenticated ∧
      (exchangeAuthorizationCode waiting "abc" (searchGet (codeQuery "abc" "evil") "state")
          (exchangeOk (.str "T1"))).1.authState.sessionToken
        = waiting.authState.sessionToken ∧
      (exchangeAuthorizationCode waiting "abc" (searchGet (codeQuery "abc" "evil") "state")
          (exchangeOk (.str "T1"))).1.file = waiting.file ∧
      writes (effectsSince waiting (exchangeAuthorizationCode waiting "abc"
          (searchGet (codeQuery "abc" "evil") "state") (exchangeOk (.str "T1"))).1) = [] ∧
      fetches (effectsSince waiting (exchangeAuthorizationCode waiting "abc"
          (searchGet (codeQuery "abc" "evil") "state") (exchangeOk (.str "T1"))).1) = [] ∧
      ∃ msg, (exchangeAuthorizationCode waiting "abc"
          (searchGet (codeQuery "abc" "evil") "state") (exchangeOk (.str "T1"))).2
        = .error msg) ∧
    ((handleServerCallback waiting (some (codeQuery "abc" "evil"))
          (exchangeOk (.str "T1"))).authState.isAuthenticated
        = waiting.authState.isAuthenticated ∧
      (handleServerCallback waiting (some (codeQuery "abc" "evil"))
          (exchangeOk (.str "T1"))).authState.sessionToken
        = waiting.authState.sessionToken ∧
      (handleServerCallback waiting (some (codeQuery "abc" "evil"))
          (exchangeOk (.str "T1"))).file = waiting.file ∧
      writes (effectsSince waiting (handleServerCallback waiting
          (some (codeQuery "abc" "evil")) (exchangeOk (.str "T1")))) = [] ∧
      fetches (effectsSince waiting (handleServerCallback waiting
          (some (codeQuery "abc" "evil")) (exchangeOk (.str "T1")))) = []) :=
  ⟨by decide, by decide,
    csrf_mismatch_rejected waiting "abc" (codeQuery "abc" "evil") (exchangeOk (.str "T1"))
      (by decide) (by decide)⟩

/-- C1 (counterexample): once a failed exchange has cleared the pending CSRF
value, a second callback with an arbitrary `state`, received while the
callback server is still listening, is exchanged without any check: the
session becomes authenticated and the credential file is written. -/
theorem csrf_unchecked_when_nothing_pending :
    (run waiting [.callback (some (codeQuery "abc" "s1")) exchangeDenied]).authState.oauthState
      = none ∧
    (run waiting [.callback (some (codeQuery "abc" "s1")) exchangeDenied]).servers ≠ [] ∧
    searchGet (codeQuery "xyz" "evil") "state"
      ≠ (run waiting [.callback (some (codeQuery "abc" "s1")) exchangeDenied]).authState.oauthState ∧
    (handleServerCallback (run waiting [.callback (some (codeQuery "abc" "s1")) exchangeDenied])
        (some (codeQuery "xyz" "evil")) (exchangeOk (.str "T1"))).authState.isAuthenticated
      = .bool true ∧
    (run waiting [.callback (some (codeQuery "abc" "s1")) exchangeDenied]).file = none ∧
    (handleServerCallback (run waiting [.callback (some (codeQuery "abc" "s1")) exchangeDenied])
        (some (codeQuery "xyz" "evil")) (exchangeOk (.str "T1"))).file
      = some (.record
          { sessionToken := .str "T1"
            refreshToken := .undefined
            user := .profile (mkProfile annData)
            isAuthenticated := .bool true
            savedAt := "2025-01-01T00:00:00.000Z" }) := by
  decide

/-! ## Effect of every operation on the authentication state -/

@[simp] theorem clearAuthState_authState (s : Sys) (unlinkFails : Bool) :
    (clearAuthState s unlinkFails).authState = emptyAuthState := by
  unfold clearAuthState
  simp only [updateAuthStatus_authState]
  split
  · simp
  · split <;> simp

theorem truthy_not_nullish {v : JsVal} (h : v.truthy = true) : v.nullish = false := by
  cases v <;> simp_all [JsVal.truthy, JsVal.nullish]

theorem tokenInv_of_authState {s t : Sys} (h : TokenInv s) (e : t.authState = s.authState) :
    TokenInv t := by
  unfold TokenInv at *
  rw [e]; exact h

theorem tokenInv_empty {t : Sys} (e : t.authState = emptyAuthState) : TokenInv t := by
  unfold TokenInv
  rw [e]; simp [emptyAuthState, JsVal.truthy]

theorem tokenInv_loadAuthState (s : Sys) (readFails : Bool) (h : TokenInv s) :
    TokenInv (loadAuthState s readFails).1 := by
  unfold loadAuthState
  split
  · exact h
  · split
    · exact h
    · split
      · exact h
      · split
        · rename_i hg
          simp only [Bool.and_eq_true] at hg
          intro _
          exact truthy_not_nullish hg.1
        · exact h

theorem tokenInv_validateStoredToken (s : Sys) (env : ValidateEnv) (h : TokenInv s) :
    TokenInv (validateStoredToken s env) := by
  unfold validateStoredToken
  simp only []
  split
  · exact h
  · split
    · exact tokenInv_empty (by simp)
    · exact tokenInv_empty (by simp)
    · exact tokenInv_empty (by simp)
    · split
      · split
        · exact tokenInv_empty (by simp)
        · exact tokenInv_of_authState h (by simp)
        · exact tokenInv_empty (by simp)
        · intro ha
          have := h (by simpa using ha)
          simpa using this
      · exact tokenInv_empty (by simp)

@[simp] theorem startLocalServer_authState (s : Sys) (env : ServerEnv) :
    (startLocalServer s env).1.authState = s.authState := by
  unfold startLocalServer
  split
  · rfl
  · simp only []
    split <;> rfl

@[simp] theorem initiateFailed_authState (s : Sys) (msg : String) :
    (initiateFailed s msg).authState = { s.authState with isAuthenticating := false } := by
  simp [initiateFailed]

theorem initiateRun_authState (s : Sys) (env : InitiateEnv) :
    ∃ a o, (initiateRun s env).authState
      = { s.authState with isAuthenticating := a, oauthState := o } := by
  unfold initiateRun
  have hs := startLocalServer_authState s { probe := env.probe, bind := env.bind }
  split
  · rename_i s1 msg heq
    rw [heq] at hs
    exact ⟨false, s.authState.oauthState, by simp at hs; simp [hs]⟩
  · rename_i s1 port heq
    rw [heq] at hs
    simp only [] at hs
    split
    · exact ⟨false, some env.csrf, by simp [hs]⟩
    · exact ⟨s.authState.isAuthenticating, some env.csrf, by simp [hs]⟩

theorem initiateDesktopAuth_authState (s : Sys) (env : InitiateEnv) :
    ∃ a o, (initiateDesktopAuth s env).authState
      = { s.authState with isAuthenticating := a, oauthState := o } := by
  unfold initiateDesktopAuth
  split
  · exact ⟨s.authState.isAuthenticating, s.authState.oauthState, by simp⟩
  · split
    · exact ⟨s.authState.isAuthenticating, s.authState.oauthState, rfl⟩
    · obtain ⟨a, o, h⟩ := initiateRun_authState (initiateEnter s) env
      exact ⟨a, o, by rw [h]; simp [initiateEnter]⟩

theorem tokenInv_flags {s t : Sys} {a : Bool} {o : Option String} (h : TokenInv s)
    (e : t.authState = { s.authState with isAuthenticating := a, oauthState := o }) :
    TokenInv t := by
  unfold TokenInv at *
  rw [e]; exact h

theorem exchangeFailed_authState (s : Sys) (msg : String) :
    (exchangeFailed s msg).1.authState
      = { s.authState with isAuthenticating := false, oauthState := none } := by
  simp [exchangeFailed]

/-- Every run of `exchangeAuthorizationCode` either leaves the state as it
is (empty code), or ends in its `catch` block, or commits the token and the
profile of a 2xx token response and a 2xx userinfo response. -/
theorem exchangeAuthorizationCode_authState (s : Sys) (code : String) (state : Option String)
    (env : ExchangeEnv) :
    (code = "" ∧ (exchangeAuthorizationCode s code state env).1 = s) ∨
    (exchangeAuthorizationCode s code state env).1.authState
      = { s.authState with isAuthenticating := false, oauthState := none } ∨
    ∃ tokenData userData,
      env.token = .resp true (.ok tokenData) ∧ env.userinfo = .resp true (.ok userData) ∧
      (exchangeAuthorizationCode s code state env).1.authState
        = { isAuthenticated := .bool true
            sessionToken := tokenData.access_token
            refreshToken := tokenData.refresh_token
            user := .profile (mkProfile userData)
            tempToken := .null
            isAuthenticating := false
            oauthState := none } := by
  unfold exchangeAuthorizationCode
  split
  · rename_i hcode
    exact Or.inl ⟨hcode, rfl⟩
  · split
    · exact Or.inr (Or.inl (exchangeFailed_authState _ _))
    · simp only []
      split
      · exact Or.inr (Or.inl (by rw [exchangeFailed_authState]; rfl))
      · exact Or.inr (Or.inl (by rw [exchangeFailed_authState]; rfl))
      · exact Or.inr (Or.inl (by rw [exchangeFailed_authState]; rfl))
      · exact Or.inr (Or.inl (by rw [exchangeFailed_authState]; rfl))
      · rename_i tokenData htok
        split
        · exact Or.inr (Or.inl (by rw [exchangeFailed_authState]; rfl))
        · exact Or.inr (Or.inl (by rw [exchangeFailed_authState]; rfl))
        · exact Or.inr (Or.inl (by rw [exchangeFailed_authState]; rfl))
        · exact Or.inr (Or.inl (by rw [exchangeFailed_authState]; rfl))
        · rename_i userData huser
          exact Or.inr (Or.inr ⟨tokenData, userData, htok, huser, by simp⟩)

theorem legacyFailed_authState (s : Sys) (msg : String) :
    (legacyFailed s msg).1.authState = { s.authState with isAuthenticating := false } := by
  simp [legacyFailed]

/-- Every run of `exchangeTemporaryToken` either leaves the state as it is
(empty token), or ends in its `catch` block, or commits the session token and
user of a 2xx response. -/
theorem exchangeTemporaryToken_authState (s : Sys) (tempToken : String) (env : LegacyEnv) :
    (exchangeTemporaryToken s tempToken env).1.authState = s.authState ∨
    (exchangeTemporaryToken s tempToken env).1.authState
      = { s.authState with isAuthenticating := false } ∨
    ∃ data,
      env.response = .resp true (.ok data) ∧
      (exchangeTemporaryToken s tempToken env).1.authState
        = { s.authState with
            isAuthenticated := .bool true
            sessionToken := data.sessionToken
            user := data.user
            tempToken := .null
            isAuthenticating := false } := by
  unfold exchangeTemporaryToken
  split
  · exact Or.inl rfl
  · simp only []
    split
    · exact Or.inr (Or.inl (by rw [legacyFailed_authState]; rfl))
    · exact Or.inr (Or.inl (by rw [legacyFailed_authState]; rfl))
    · exact Or.inr (Or.inl (by rw [legacyFailed_authState]; rfl))
    · exact Or.inr (Or.inl (by rw [legacyFailed_authState]; rfl))
    · rename_i data hresp
      exact Or.inr (Or.inr ⟨data, hresp, by simp⟩)

/-- The callback handler changes the authentication state only through the
exchange it starts. -/
theorem handleServerCallback_authState (s : Sys) (req : Option (List (String × String)))
    (env : ExchangeEnv) :
    (handleServerCallback s req env).authState = s.authState ∨
    ∃ code state s1, s1.authState = s.authState ∧
      (handleServerCallback s req env).authState
        = (exchangeAuthorizationCode s1 code state env).1.authState := by
  unfold handleServerCallback
  split
  · exact Or.inl (by simp)
  · simp only []
    split
    · exact Or.inl (by simp)
    · split
      · rename_i query _ _
        refine Or.inr ⟨(searchGet query "code").getD "", searchGet query "state",
          (s.emit (.respond 200 .successful)).setTimeout 5000 .shutdown, by simp, ?_⟩
        split <;> simp
      · exact Or.inl (by simp)

theorem onAuthTimeout_authState (s : Sys) :
    (onAuthTimeout s).authState = s.authState ∨
    (onAuthTimeout s).authState = { s.authState with isAuthenticating := false } := by
  unfold onAuthTimeout
  split
  · exact Or.inr (by simp)
  · exact Or.inl rfl

theorem fire_authState (s : Sys) (i : Nat) :
    (fire s i).authState = s.authState ∨
    (fire s i).authState = { s.authState with isAuthenticating := false } := by
  unfold fire
  split
  · exact Or.inl rfl
  · split
    · simp only []
      split
      · exact onAuthTimeout_authState _
      · exact Or.inl (by simp [onShutdown])
    · exact Or.inl rfl

@[simp] theorem signOut_authState (s : Sys) (unlinkFails : Bool) :
    (signOut s unlinkFails).authState = emptyAuthState := by
  simp [signOut]

theorem tokenInv_exchange (s : Sys) (code : String) (state : Option String)
    (env : ExchangeEnv) (h : TokenInv s)
    (tok : ∀ tokenData, env.token = .resp true (.ok tokenData) →
      tokenData.access_token.nullish = false) :
    TokenInv (exchangeAuthorizationCode s code state env).1 := by
  rcases exchangeAuthorizationCode_authState s code state env with e | e | ⟨td, ud, ht, _, e⟩
  · exact tokenInv_of_authState h (congrArg Sys.authState e.2)
  · exact tokenInv_flags h e
  · intro _
    rw [e]
    exact tok td ht

theorem tokenInv_step (s : Sys) (e : Event) (h : TokenInv s) (he : e.carriesToken) :
    TokenInv (step s e) := by
  cases e with
  | setMainWindow window => exact h
  | loadAuthState readFails => exact tokenInv_loadAuthState s readFails h
  | validateStoredToken env => exact tokenInv_validateStoredToken s env h
  | fetchUsageInfoWithRetry maxRetries delayMs health usage =>
    exact tokenInv_of_authState h (by simp [step])
  | initiateDesktopAuth env =>
    obtain ⟨a, o, e⟩ := initiateDesktopAuth_authState s env
    exact tokenInv_flags h e
  | callback req env =>
    simp only [step]
    split
    · exact h
    · rcases handleServerCallback_authState s req env with e | ⟨code, state, s1, e1, e⟩
      · exact tokenInv_of_authState h e
      · exact tokenInv_of_authState
          (tokenInv_exchange s1 code state env (tokenInv_of_authState h e1) he) e
  | exchangeAuthorizationCode code state env => exact tokenInv_exchange s code state env h he
  | exchangeTemporaryToken tempToken env =>
    rcases exchangeTemporaryToken_authState s tempToken env with e | e | ⟨data, hd, e⟩
    · exact tokenInv_of_authState h e
    · exact tokenInv_flags (o := s.authState.oauthState) h e
    · intro _
      simp only [step]
      rw [e]
      exact he data hd
  | advance ms => exact h
  | fire i =>
    rcases fire_authState s i with e | e
    · exact tokenInv_of_authState h e
    · exact tokenInv_flags (o := s.authState.oauthState) h e
  | signOut unlinkFails => exact tokenInv_empty (by simp [step])

theorem tokenInv_run (events : List Event) :
    ∀ s : Sys, TokenInv s → (∀ e ∈ events, e.carriesToken) → TokenInv (run s events) := by
  induction events with
  | nil => intro s h _; exact h
  | cons e rest ih =>
    intro s h hall
    exact ih (step s e) (tokenInv_step s e h (hall e (List.mem_cons_self _ _)))
      (fun e' he' => hall e' (List.mem_cons_of_mem _ he'))

/-- C2 (as amended): in every state reached from the initial state by a
sequence of operations whose 2xx token responses carry a non-null
`access_token` (and whose 2xx legacy exchange responses carry a non-null
`sessionToken`), a truthy `isAuthenticated` implies a non-null
`sessionToken`. -/
theorem authenticated_has_session_token (file : Option FileContent) (events : List Event)
    (tokens : ∀ e ∈ events, e.carriesToken)
    (authenticated : (run (init file) events).authState.isAuthenticated.truthy = true) :
    (run (init file) events).authState.sessionToken.nullish = false :=
  tokenInv_run events (init file) (tokenInv_empty rfl) tokens authenticated

/-- The invariant at a concrete sign-in: the token endpoint answers with
access token "T1". -/
theorem authenticated_has_session_token_witness :
    (∀ e ∈ [Event.initiateDesktopAuth (initiateOk "s1"),
        Event.callback (some (codeQuery "abc" "s1")) (exchangeOk (.str "T1"))],
      e.carriesToken) ∧
    (run (init none) [Event.initiateDesktopAuth (initiateOk "s1"),
        Event.callback (some (codeQuery "abc" "s1")) (exchangeOk (.str "T1"))]
      ).authState.isAuthenticated.truthy = true ∧
    (run (init none) [Event.initiateDesktopAuth (initiateOk "s1"),
        Event.callback (some (codeQuery "abc" "s1")) (exchangeOk (.str "T1"))]
      ).authState.sessionToken.nullish = false :=
  have tokens : ∀ e ∈ [Event.initiateDesktopAuth (initiateOk "s1"),
      Event.callback (some (codeQuery "abc" "s1")) (exchangeOk (.str "T1"))],
      e.carriesToken := by
    intro e he
    simp only [List.mem_cons, List.mem_singleton, List.not_mem_nil, or_false] at he
    rcases he with rfl | rfl
    · trivial
    · intro tokenData h
      simp only [exchangeOk, Fetch.resp.injEq, Except.ok.injEq, true_and] at h
      rw [← h]
      rfl
  ⟨tokens, by decide,
    authenticated_has_session_token none _ tokens (by decide)⟩

/-- C2 (counterexample): a 2xx token response whose `access_token` is
`null`, followed by a 2xx userinfo response, leaves the session
authenticated with a null session token. -/
theorem authenticated_without_session_token :
    (run (init none) [Event.initiateDesktopAuth (initiateOk "s1"),
        Event.callback (some (codeQuery "abc" "s1")) (exchangeOk .null)]
      ).authState.isAuthenticated = .bool true ∧
    (run (init none) [Event.initiateDesktopAuth (initiateOk "s1"),
        Event.callback (some (codeQuery "abc" "s1")) (exchangeOk .null)]
      ).authState.sessionToken = .null := by
  decide

/-- C3 (failing inputs): the pending CSRF state outlives the attempt on three
paths that clear `isAuthenticating` without clearing `oauthState`: the
authentication timeout, a failure to open the browser, and the legacy token
exchange. -/
theorem csrf_state_pending_while_not_authenticating :
    ((run (init none) [Event.initiateDesktopAuth (initiateOk "s1"), Event.advance 600000,
        Event.fire 0]).authState.oauthState = some "s1" ∧
      (run (init none) [Event.initiateDesktopAuth (initiateOk "s1"), Event.advance 600000,
        Event.fire 0]).authState.isAuthenticating = false) ∧
    ((run (init none) [Event.initiateDesktopAuth (initiateNoBrowser "s1")]
        ).authState.oauthState = some "s1" ∧
      (run (init none) [Event.initiateDesktopAuth (initiateNoBrowser "s1")]
        ).authState.isAuthenticating = false) ∧
    ((run (init none) [Event.initiateDesktopAuth (initiateOk "s1"),
        Event.exchangeTemporaryToken "tmp" (legacyOk (.str "T1") (.val (plainObject 0)))]
        ).authState.oauthState = some "s1" ∧
      (run (init none) [Event.initiateDesktopAuth (initiateOk "s1"),
        Event.exchangeTemporaryToken "tmp" (legacyOk (.str "T1") (.val (plainObject 0)))]
        ).authState.isAuthenticating = false) := by
  decide

/-- C4: every run of `exchangeAuthorizationCode` with a non-empty code,
whatever the token endpoint, the userinfo endpoint, the file system and the
backend answer, ends with `isAuthenticating` false and `oauthState` null,
both when it returns and when it throws. -/
theorem exchange_clears_attempt (s : Sys) (code : String) (state : Option String)
    (env : ExchangeEnv) (nonempty : code ≠ "") :
    (exchangeAuthorizationCode s code state env).1.authState.isAuthenticating = false ∧
    (exchangeAuthorizationCode s code state env).1.authState.oauthState = none := by
  rcases exchangeAuthorizationCode_authState s code state env with e | e | ⟨td, ud, _, _, e⟩
  · exact absurd e.1 nonempty
  · rw [e]; exact ⟨rfl, rfl⟩
  · rw [e]; exact ⟨rfl, rfl⟩

/-- The attempt is cleared both on the CSRF violation and on the successful
exchange of a waiting attempt. -/
theorem exchange_clears_attempt_witness :
    "abc" ≠ "" ∧
    ((exchangeAuthorizationCode waiting "abc" (some "evil") (exchangeOk (.str "T1"))
        ).1.authState.isAuthenticating = false ∧
      (exchangeAuthorizationCode waiting "abc" (some "evil") (exchangeOk (.str "T1"))
        ).1.authState.oauthState = none) ∧
    ((exchangeAuthorizationCode waiting "abc" (some "s1") (exchangeOk (.str "T1"))
        ).1.authState.isAuthenticating = false ∧
      (exchangeAuthorizationCode waiting "abc" (some "s1") (exchangeOk (.str "T1"))
        ).1.authState.oauthState = none) :=
  ⟨by decide,
    exchange_clears_attempt waiting "abc" (some "evil") (exchangeOk (.str "T1")) (by decide),
    exchange_clears_attempt waiting "abc" (some "s1") (exchangeOk (.str "T1")) (by decide)⟩

/-- C5 (failing input): a provider error received while an attempt is
waiting leaves `isAuthenticating` true and the CSRF state pending; after the
shutdown timer has closed the server the timeout no longer clears the flag,
and a new `initiateDesktopAuth` is rejected as already in progress. -/
theorem provider_error_leaves_attempt_pending :
    waiting.authState.isAuthenticating = true ∧
    (run waiting [Event.callback (some declinedQuery) (exchangeOk (.str "T1"))]
      ).authState.isAuthenticating = true ∧
    (run waiting [Event.callback (some declinedQuery) (exchangeOk (.str "T1"))]
      ).authState.oauthState = some "s1" ∧
    (run waiting [Event.callback (some declinedQuery) (exchangeOk (.str "T1")),
        Event.advance 5000, Event.fire 1, Event.advance 600000, Event.fire 0]
      ).authState.isAuthenticating = true ∧
    (run waiting [Event.callback (some declinedQuery) (exchangeOk (.str "T1")),
        Event.advance 5000, Event.fire 1, Event.advance 600000, Event.fire 0]
      ).timers = [] ∧
    run waiting [Event.callback (some declinedQuery) (exchangeOk (.str "T1")),
        Event.advance 5000, Event.fire 1, Event.advance 600000, Event.fire 0,
        Event.initiateDesktopAuth (initiateOk "s2")]
      = run waiting [Event.callback (some declinedQuery) (exchangeOk (.str "T1")),
        Event.advance 5000, Event.fire 1, Event.advance 600000, Event.fire 0] := by
  decide

theorem handleServerCallback_error (s : Sys) (query : List (String × String))
    (env : ExchangeEnv) (present : strTruthy (searchGet query "error") = true) :
    handleServerCallback s (some query) env
      = (((s.emit (.respond 200
          (.failed ((searchGet query "error").getD "")
            (if strTruthy (searchGet query "error_description") then
              searchGet query "error_description" else none)))).send "auth-error"
          (.text (providerErrorText query))).setTimeout 5000 .shutdown) := by
  unfold handleServerCallback providerErrorText
  simp only [present, if_true]
  split <;> rfl

/-- C6 (as amended): for every callback whose `error` parameter is present
and non-empty, `handleServerCallback` sends, when a main window is attached,
exactly one `auth-error` notification (none otherwise) whose payload is the
decoded `error_description` when that is present and non-empty and the error
code otherwise; it sends no request, so no code exchange is attempted; it
leaves `isAuthenticated`, `sessionToken` and `user` unchanged and writes no
credential file. -/
theorem provider_error_reported (s : Sys) (query : List (String × String))
    (env : ExchangeEnv) (present : strTruthy (searchGet query "error") = true) :
    sentOn "auth-error" (effectsSince s (handleServerCallback s (some query) env))
      = (if s.mainWindow then [.text (providerErrorText query)] else []) ∧
    fetches (effectsSince s (handleServerCallback s (some query) env)) = [] ∧
    (handleServerCallback s (some query) env).authState.isAuthenticated
      = s.authState.isAuthenticated ∧
    (handleServerCallback s (some query) env).authState.sessionToken
      = s.authState.sessionToken ∧
    (handleServerCallback s (some query) env).authState.user = s.authState.user ∧
    writes (effectsSince s (handleServerCallback s (some query) env)) = [] ∧
    (handleServerCallback s (some query) env).file = s.file := by
  rw [handleServerCallback_error s query env present]
  rw [effectsSince_of_log (l := _) (by simp; rfl)]
  refine ⟨?_, ?_, by simp, by simp, by simp, ?_, by simp⟩
  · split_ifs <;> simp [sentOn]
  · split_ifs <;> simp [fetches]
  · split_ifs <;> simp [writes]

/-- The scenario `?error=access_denied&error_description=User%20cancelled`
with a main window attached: the payload is "User cancelled". -/
theorem provider_error_reported_witness :
    strTruthy (searchGet declinedQuery "error") = true ∧
    providerErrorText declinedQuery = "User cancelled" ∧
    sentOn "auth-error" (effectsSince waitingWithWindow
        (handleServerCallback waitingWithWindow (some declinedQuery) (exchangeOk (.str "T1"))))
      = (if waitingWithWindow.mainWindow then [.text (providerErrorText declinedQuery)]
          else []) ∧
    fetches (effectsSince waitingWithWindow
        (handleServerCallback waitingWithWindow (some declinedQuery) (exchangeOk (.str "T1"))))
      = [] ∧
    (handleServerCallback waitingWithWindow (some declinedQuery)
        (exchangeOk (.str "T1"))).authState.isAuthenticated
      = waitingWithWindow.authState.isAuthenticated ∧
    (handleServerCallback waitingWithWindow (some declinedQuery)
        (exchangeOk (.str "T1"))).authState.sessionToken
      = waitingWithWindow.authState.sessionToken ∧
    (handleServerCallback waitingWithWindow (some declinedQuery)
        (exchangeOk (.str "T1"))).authState.user = waitingWithWindow.authState.user ∧
    writes (effectsSince waitingWithWindow
        (handleServerCallback waitingWithWindow (some declinedQuery) (exchangeOk (.str "T1"))))
      = [] ∧
    (handleServerCallback waitingWithWindow (some declinedQuery)
        (exchangeOk (.str "T1"))).file = waitingWithWindow.file :=
  ⟨by decide, by decide,
    provider_error_reported waitingWithWindow declinedQuery (exchangeOk (.str "T1"))
      (by decide)⟩

/-- C6 (counterexample): a callback carrying an empty `error` parameter
together with a code is treated as a code callback: no `auth-error` is sent,
the code is exchanged, the session becomes authenticated and the credential
file is written.  And with no main window attached, a provider error sends
no `auth-error` notification at all. -/
theorem empty_error_parameter_is_exchanged :
    searchGet [("error", ""), ("code", "abc"), ("state", "s1")] "error" = some "" ∧
    sentOn "auth-error" (effectsSince waitingWithWindow
        (handleServerCallback waitingWithWindow
          (some [("error", ""), ("code", "abc"), ("state", "s1")]) (exchangeOk (.str "T1"))))
      = [] ∧
    fetches (effectsSince waitingWithWindow
        (handleServerCallback waitingWithWindow
          (some [("error", ""), ("code", "abc"), ("state", "s1")]) (exchangeOk (.str "T1"))))
      = [.token "abc" (some 8000), .userinfo (.str "T1"), .health] ∧
    waitingWithWindow.authState.isAuthenticated = .bool false ∧
    (handleServerCallback waitingWithWindow
        (some [("error", ""), ("code", "abc"), ("state", "s1")])
        (exchangeOk (.str "T1"))).authState.isAuthenticated = .bool true ∧
    waitingWithWindow.file = none ∧
    (handleServerCallback waitingWithWindow
        (some [("error", ""), ("code", "abc"), ("state", "s1")])
        (exchangeOk (.str "T1"))).file ≠ none ∧
    sentOn "auth-error" (effectsSince waiting
        (handleServerCallback waiting (some declinedQuery) (exchangeOk (.str "T1")))) = [] := by
  decide

/-- The `try` block of `initiateDesktopAuth` either ends in the `catch`
block, which clears `isAuthenticating`, or starts one server and opens one
authorization URL. -/
theorem initiateRun_cases (s : Sys) (env : InitiateEnv) :
    (initiateRun s env).authState.isAuthenticating = false ∨
    ∃ port,
      (initiateRun s env).log
        = s.log ++ [.setTimeout (10 * 60 * 1000) .authTimeout, .listen s.nextServer port,
            .openExternal
              { client_id := "oa-coder-desktop"
                redirectPort := port
                response_type := "code"
                state := env.csrf
                scope := "profile" }]
          ++ (if s.mainWindow then
              [.send "auth-status-updated"
                (.status s.authState.isAuthenticated s.authState.user
                  s.authState.isAuthenticating
                  (some ("Authentication server running on port " ++ toString port ++
                    ". Complete sign-in in your browser.")))]
            else []) := by
  unfold initiateRun startLocalServer
  cases findAvailablePort env.probe 8000 8020 with
  | error msg => exact Or.inl (by simp)
  | ok port =>
    cases env.bind with
    | error msg => exact Or.inl (by simp)
    | ok u =>
      cases env.openExternal with
      | error msg => exact Or.inl (by simp)
      | ok v => exact Or.inr ⟨port, by simp⟩

theorem initiateDesktopAuth_busy (t : Sys) (env : InitiateEnv)
    (busy : t.authState.isAuthenticating = true) :
    initiateDesktopAuth t env = t ∨
    initiateDesktopAuth t env
      = t.send "auth-success" (.success t.authState.user "You are already signed in!") := by
  unfold initiateDesktopAuth
  split
  · exact Or.inr rfl
  · simp [busy]

theorem initiateDesktopAuth_signedOut_busy (t : Sys) (env : InitiateEnv)
    (signedOut : (t.authState.isAuthenticated.truthy && t.authState.user.truthy) = false)
    (busy : t.authState.isAuthenticating = true) :
    initiateDesktopAuth t env = t := by
  unfold initiateDesktopAuth
  simp [signedOut, busy]

/-- C7: a call of `initiateDesktopAuth` made while `isAuthenticating` is true
(state `t`) changes no field of the authentication state, references, starts
and closes no server, arms no timer, and opens no URL.  Consequently, when a
first call is made from a signed-out idle state `s` and a second call is made
while that attempt is still authenticating, either right after the first
call has set the flag or after the first call has completed, the second call
changes nothing, and the two calls together start exactly one callback server
and open exactly one authorization URL. -/
theorem initiate_rejected_while_authenticating (t s : Sys) (env env2 : InitiateEnv)
    (busy : t.authState.isAuthenticating = true)
    (signedOut : (s.authState.isAuthenticated.truthy && s.authState.user.truthy) = false)
    (idle : s.authState.isAuthenticating = false)
    (still : (initiateDesktopAuth s env).authState.isAuthenticating = true) :
    ((initiateDesktopAuth t env).authState = t.authState ∧
      (initiateDesktopAuth t env).localServer = t.localServer ∧
      (initiateDesktopAuth t env).serverPort = t.serverPort ∧
      (initiateDesktopAuth t env).servers = t.servers ∧
      (initiateDesktopAuth t env).nextServer = t.nextServer ∧
      (initiateDesktopAuth t env).timers = t.timers ∧
      serversStarted (effectsSince t (initiateDesktopAuth t env)) = [] ∧
      urlsOpened (effectsSince t (initiateDesktopAuth t env)) = []) ∧
    initiateDesktopAuth (initiateEnter s) env2 = initiateEnter s ∧
    initiateRun (initiateDesktopAuth (initiateEnter s) env2) env = initiateDesktopAuth s env ∧
    initiateDesktopAuth (initiateDesktopAuth s env) env2 = initiateDesktopAuth s env ∧
    (serversStarted (effectsSince s
      (initiateDesktopAuth (initiateDesktopAuth s env) env2))).length = 1 ∧
    (urlsOpened (effectsSince s
      (initiateDesktopAuth (initiateDesktopAuth s env) env2))).length = 1 := by
  have enterOut : ((initiateEnter s).authState.isAuthenticated.truthy
      && (initiateEnter s).authState.user.truthy) = false := by
    simpa [initiateEnter] using signedOut
  have second : initiateDesktopAuth (initiateEnter s) env2 = initiateEnter s :=
    initiateDesktopAuth_signedOut_busy _ env2 enterOut (by simp [initiateEnter])
  have first : initiateDesktopAuth s env = initiateRun (initiateEnter s) env := by
    unfold initiateDesktopAuth
    simp [signedOut, idle]
  obtain ⟨a, o, hauth⟩ := initiateDesktopAuth_authState s env
  have doneOut : ((initiateDesktopAuth s env).authState.isAuthenticated.truthy
      && (initiateDesktopAuth s env).authState.user.truthy) = false := by
    rw [hauth]; exact signedOut
  have after : initiateDesktopAuth (initiateDesktopAuth s env) env2 = initiateDesktopAuth s env :=
    initiateDesktopAuth_signedOut_busy _ env2 doneOut still
  refine ⟨?_, second, by rw [second, first], after, ?_, ?_⟩
  · rcases initiateDesktopAuth_busy t env busy with e | e
    · rw [e]
      simp [effectsSince, serversStarted, urlsOpened]
    · rw [e, effectsSince_of_log (l := _) (send_log _ _ _)]
      refine ⟨by simp, by simp, by simp, by simp, by simp, by simp, ?_, ?_⟩
      · split_ifs <;> simp [serversStarted]
      · split_ifs <;> simp [urlsOpened]
  · rw [after, first]
    rw [first] at still
    rcases initiateRun_cases (initiateEnter s) env with e | ⟨port, e⟩
    · rw [e] at still; exact absurd still (by simp)
    · rw [effectsSince_of_log (l := _) (by rw [e]; simp [initiateEnter]; rfl)]
      split_ifs <;> simp [serversStarted]
  · rw [after, first]
    rw [first] at still
    rcases initiateRun_cases (initiateEnter s) env with e | ⟨port, e⟩
    · rw [e] at still; exact absurd still (by simp)
    · rw [effectsSince_of_log (l := _) (by rw [e]; simp [initiateEnter]; rfl)]
      split_ifs <;> simp [urlsOpened]

/-- Two calls from the initial state, the second with another environment,
and a call made while the attempt `waiting` is in progress. -/
theorem initiate_rejected_while_authenticating_witness :
    waiting.authState.isAuthenticating = true ∧
    ((init none).authState.isAuthenticated.truthy && (init none).authState.user.truthy) = false ∧
    (init none).authState.isAuthenticating = false ∧
    (initiateDesktopAuth (init none) (initiateOk "s1")).authState.isAuthenticating = true ∧
    ((initiateDesktopAuth waiting (initiateOk "s1")).authState = waiting.authState ∧
      (initiateDesktopAuth waiting (initiateOk "s1")).localServer = waiting.localServer ∧
      (initiateDesktopAuth waiting (initiateOk "s1")).serverPort = waiting.serverPort ∧
      (initiateDesktopAuth waiting (initiateOk "s1")).servers = waiting.servers ∧
      (initiateDesktopAuth waiting (initiateOk "s1")).nextServer = waiting.nextServer ∧
      (initiateDesktopAuth waiting (initiateOk "s1")).timers = waiting.timers ∧
      serversStarted (effectsSince waiting (initiateDesktopAuth waiting (initiateOk "s1"))) = [] ∧
      urlsOpened (effectsSince waiting (initiateDesktopAuth waiting (initiateOk "s1"))) = []) ∧
    initiateDesktopAuth (initiateEnter (init none)) (initiateOk "s2")
      = initiateEnter (init none) ∧
    initiateRun (initiateDesktopAuth (initiateEnter (init none)) (initiateOk "s2"))
        (initiateOk "s1")
      = initiateDesktopAuth (init none) (initiateOk "s1") ∧
    initiateDesktopAuth (initiateDesktopAuth (init none) (initiateOk "s1")) (initiateOk "s2")
      = initiateDesktopAuth (init none) (initiateOk "s1") ∧
    (serversStarted (effectsSince (init none)
      (initiateDesktopAuth (initiateDesktopAuth (init none) (initiateOk "s1"))
        (initiateOk "s2")))).length = 1 ∧
    (urlsOpened (effectsSince (init none)
      (initiateDesktopAuth (initiateDesktopAuth (init none) (initiateOk "s1"))
        (initiateOk "s2")))).length = 1 :=
  ⟨by decide, by decide, by decide, by decide,
    initiate_rejected_while_authenticating waiting (init none) (initiateOk "s1")
      (initiateOk "s2") (by decide) (by decide) (by decide) (by decide)⟩

/-- C8 (as amended): when `isAuthenticated` is truthy and a user is present,
`initiateDesktopAuth` does not enter Authenticating: it leaves the
authentication state unchanged, references, starts and closes no server, arms
no timer, opens no URL, and, when a main window is attached, sends one
`auth-success` notification with the already-signed-in message (none
otherwise). -/
theorem initiate_when_signed_in (s : Sys) (env : InitiateEnv)
    (authenticated : s.authState.isAuthenticated.truthy = true)
    (hasUser : s.authState.user.truthy = true) :
    (initiateDesktopAuth s env).authState = s.authState ∧
    (initiateDesktopAuth s env).localServer = s.localServer ∧
    (initiateDesktopAuth s env).serverPort = s.serverPort ∧
    (initiateDesktopAuth s env).servers = s.servers ∧
    (initiateDesktopAuth s env).nextServer = s.nextServer ∧
    (initiateDesktopAuth s env).timers = s.timers ∧
    serversStarted (effectsSince s (initiateDesktopAuth s env)) = [] ∧
    urlsOpened (effectsSince s (initiateDesktopAuth s env)) = [] ∧
    sentOn "auth-success" (effectsSince s (initiateDesktopAuth s env))
      = (if s.mainWindow then
          [.success s.authState.user "You are already signed in!"] else []) := by
  have e : initiateDesktopAuth s env
      = s.send "auth-success" (.success s.authState.user "You are already signed in!") := by
    unfold initiateDesktopAuth
    simp [authenticated, hasUser]
  rw [e, effectsSince_of_log (l := _) (send_log _ _ _)]
  refine ⟨by simp, by simp, by simp, by simp, by simp, by simp, ?_, ?_, ?_⟩
  · split_ifs <;> simp [serversStarted]
  · split_ifs <;> simp [urlsOpened]
  · split_ifs <;> simp [sentOn]

/-- The short circuit at the state reached by a complete sign-in. -/
theorem initiate_when_signed_in_witness :
    signedIn.authState.isAuthenticated.truthy = true ∧
    signedIn.authState.user.truthy = true ∧
    (initiateDesktopAuth signedIn (initiateOk "s2")).authState = signedIn.authState ∧
    (initiateDesktopAuth signedIn (initiateOk "s2")).localServer = signedIn.localServer ∧
    (initiateDesktopAuth signedIn (initiateOk "s2")).serverPort = signedIn.serverPort ∧
    (initiateDesktopAuth signedIn (initiateOk "s2")).servers = signedIn.servers ∧
    (initiateDesktopAuth signedIn (initiateOk "s2")).nextServer = signedIn.nextServer ∧
    (initiateDesktopAuth signedIn (initiateOk "s2")).timers = signedIn.timers ∧
    serversStarted (effectsSince signedIn (initiateDesktopAuth signedIn (initiateOk "s2"))) = [] ∧
    urlsOpened (effectsSince signedIn (initiateDesktopAuth signedIn (initiateOk "s2"))) = [] ∧
    sentOn "auth-success" (effectsSince signedIn (initiateDesktopAuth signedIn (initiateOk "s2")))
      = (if signedIn.mainWindow then
          [.success signedIn.authState.user "You are already signed in!"] else []) :=
  ⟨by decide, by decide,
    initiate_when_signed_in signedIn (initiateOk "s2") (by decide) (by decide)⟩

/-- C8 (counterexample): in a state that is authenticated but has no user
(reached by a legacy exchange whose response carries no user),
`initiateDesktopAuth` enters Authenticating, starts a callback server, opens
an authorization URL and sends no `auth-success`.  And with no main window
attached, the short circuit of a signed-in state sends no notification. -/
theorem initiate_when_authenticated_without_user :
    signedInNoUser.authState.isAuthenticated = .bool true ∧
    signedInNoUser.authState.isAuthenticating = false ∧
    (initiateDesktopAuth signedInNoUser (initiateOk "s2")).authState.isAuthenticating = true ∧
    serversStarted (effectsSince signedInNoUser
        (initiateDesktopAuth signedInNoUser (initiateOk "s2"))) = [(0, 8000)] ∧
    (urlsOpened (effectsSince signedInNoUser
        (initiateDesktopAuth signedInNoUser (initiateOk "s2")))).length = 1 ∧
    sentOn "auth-success" (effectsSince signedInNoUser
        (initiateDesktopAuth signedInNoUser (initiateOk "s2"))) = [] ∧
    (setMainWindow signedIn false).authState.isAuthenticated = .bool true ∧
    sentOn "auth-success" (effectsSince (setMainWindow signedIn false)
        (initiateDesktopAuth (setMainWindow signedIn false) (initiateOk "s2"))) = [] := by
  decide

/-! ## The server reference -/

theorem srvStep_same {s t : Sys} (h1 : t.localServer = s.localServer)
    (h2 : t.serverPort = s.serverPort) : SrvStep s t :=
  Or.inl ⟨h1, h2⟩

theorem srvStep_trans {s t u : Sys} (h1 : SrvStep s t) (h2 : SrvStep t u) : SrvStep s u := by
  rcases h2 with ⟨a, b⟩ | h | h
  · rcases h1 with ⟨c, d⟩ | ⟨c, d⟩ | ⟨srv, port, c, d⟩
    · exact Or.inl ⟨a.trans c, b.trans d⟩
    · exact Or.inr (Or.inl ⟨a.trans c, b.trans d⟩)
    · exact Or.inr (Or.inr ⟨srv, port, a.trans c, b.trans d⟩)
  · exact Or.inr (Or.inl h)
  · exact Or.inr (Or.inr h)

theorem portInv_srvStep {s t : Sys} (h : PortInv s) (st : SrvStep s t) : PortInv t := by
  unfold PortInv at *
  rcases st with ⟨a, b⟩ | ⟨_, b⟩ | ⟨srv, port, a, _⟩
  · intro hn
    rw [b]; exact h (a ▸ hn)
  · intro _; exact b
  · intro hn
    rw [a] at hn
    exact absurd hn (by simp)

theorem srvStep_stopLocalServer (s : Sys) : SrvStep s (stopLocalServer s) := by
  unfold stopLocalServer
  split
  · exact Or.inl ⟨rfl, rfl⟩
  · exact Or.inr (Or.inl ⟨rfl, rfl⟩)

theorem srvStep_clearAuthState (s : Sys) (unlinkFails : Bool) :
    SrvStep s (clearAuthState s unlinkFails) := by
  have h := srvStep_stopLocalServer { s with authState := emptyAuthState }
  unfold clearAuthState
  simp only []
  refine srvStep_trans (t := stopLocalServer { s with authState := emptyAuthState }) ?_ ?_
  · rcases h with h | h | h
    · exact Or.inl h
    · exact Or.inr (Or.inl h)
    · exact Or.inr (Or.inr h)
  · apply srvStep_same
    · simp only [updateAuthStatus_localServer]
      split
      · rfl
      · split <;> rfl
    · simp only [updateAuthStatus_serverPort]
      split
      · rfl
      · split <;> rfl

theorem srvStep_validateStoredToken (s : Sys) (env : ValidateEnv) :
    SrvStep s (validateStoredToken s env) := by
  have clr : ∀ l, SrvStep s (clearAuthState (s.addLog l) env.unlinkFails) := fun l =>
    srvStep_trans (srvStep_same (t := s.addLog l) rfl rfl) (srvStep_clearAuthState _ _)
  unfold validateStoredToken
  simp only [emit_eq, addLog_addLog, addLog_authState]
  split
  · exact srvStep_same rfl rfl
  · split
    · exact clr _
    · exact clr _
    · exact clr _
    · split
      · split
        · exact clr _
        · exact srvStep_same (by simp) (by simp)
        · exact clr _
        · exact srvStep_same (by simp) (by simp)
      · exact clr _

theorem srvStep_startLocalServer (s : Sys) (env : ServerEnv) :
    SrvStep s (startLocalServer s env).1 := by
  unfold startLocalServer
  split
  · exact srvStep_same rfl rfl
  · simp only []
    split
    · exact Or.inr (Or.inr ⟨_, _, rfl, rfl⟩)
    · exact Or.inr (Or.inr ⟨_, _, rfl, rfl⟩)

theorem srvStep_initiateDesktopAuth (s : Sys) (env : InitiateEnv) :
    SrvStep s (initiateDesktopAuth s env) := by
  unfold initiateDesktopAuth
  split
  · exact srvStep_same (by simp) (by simp)
  · split
    · exact srvStep_same rfl rfl
    · have h := srvStep_startLocalServer (initiateEnter s) { probe := env.probe, bind := env.bind }
      refine srvStep_trans (t := (startLocalServer (initiateEnter s)
        { probe := env.probe, bind := env.bind }).1) ?_ ?_
      · exact srvStep_trans (srvStep_same (by simp [initiateEnter]) (by simp [initiateEnter])) h
      · unfold initiateRun
        split
        · rename_i heq
          rw [heq]
          exact srvStep_same (by simp [initiateFailed]) (by simp [initiateFailed])
        · rename_i heq
          rw [heq]
          simp only []
          split
          · exact srvStep_same (by simp [initiateFailed]) (by simp [initiateFailed])
          · exact srvStep_same (by simp) (by simp)

theorem exchangeAuthorizationCode_server (s : Sys) (code : String) (state : Option String)
    (env : ExchangeEnv) :
    (exchangeAuthorizationCode s code state env).1.localServer = s.localServer ∧
    (exchangeAuthorizationCode s code state env).1.serverPort = s.serverPort := by
  unfold exchangeAuthorizationCode
  split
  · exact ⟨rfl, rfl⟩
  · split
    · simp [exchangeFailed]
    · simp only []
      split
      · simp [exchangeFailed]
      · simp [exchangeFailed]
      · simp [exchangeFailed]
      · simp [exchangeFailed]
      · split
        · simp [exchangeFailed]
        · simp [exchangeFailed]
        · simp [exchangeFailed]
        · simp [exchangeFailed]
        · simp

theorem exchangeTemporaryToken_server (s : Sys) (tempToken : String) (env : LegacyEnv) :
    (exchangeTemporaryToken s tempToken env).1.localServer = s.localServer ∧
    (exchangeTemporaryToken s tempToken env).1.serverPort = s.serverPort := by
  unfold exchangeTemporaryToken
  split
  · exact ⟨rfl, rfl⟩
  · simp only []
    split
    · simp [legacyFailed]
    · simp [legacyFailed]
    · simp [legacyFailed]
    · simp [legacyFailed]
    · simp

theorem srvStep_handleServerCallback (s : Sys) (req : Option (List (String × String)))
    (env : ExchangeEnv) : SrvStep s (handleServerCallback s req env) := by
  unfold handleServerCallback
  split
  · exact srvStep_trans (srvStep_same (t := (s.emit (.respond 500 .serverError)).send
      "auth-error" (.text "Server error processing authentication")) (by simp) (by simp))
      (srvStep_stopLocalServer _)
  · simp only []
    split
    · exact srvStep_same (by simp) (by simp)
    · split
      · rename_i query _ _
        have h := exchangeAuthorizationCode_server
          ((s.emit (.respond 200 .successful)).setTimeout 5000 .shutdown)
          ((searchGet query "code").getD "") (searchGet query "state") env
        split
        · exact srvStep_same (by rw [h.1]; simp) (by rw [h.2]; simp)
        · exact srvStep_same (by simp [h.1]) (by simp [h.2])
      · exact srvStep_same (by simp) (by simp)

theorem srvStep_fire (s : Sys) (i : Nat) : SrvStep s (fire s i) := by
  unfold fire
  split
  · exact srvStep_same rfl rfl
  · split
    · simp only []
      split
      · unfold onAuthTimeout
        split
        · exact srvStep_trans (srvStep_trans
            (srvStep_same (t := { s with timers := s.timers.eraseIdx i }) rfl rfl)
            (srvStep_stopLocalServer _)) (srvStep_same (by simp) (by simp))
        · exact srvStep_same rfl rfl
      · exact srvStep_trans
          (srvStep_same (t := { s with timers := s.timers.eraseIdx i }) rfl rfl)
          (srvStep_stopLocalServer _)
    · exact srvStep_same rfl rfl

@[simp] theorem stopLocalServer_localServer (s : Sys) :
    (stopLocalServer s).localServer = none := by
  unfold stopLocalServer
  split
  · rename_i hn; exact hn
  · rfl

theorem stopLocalServer_serverPort (s : Sys) (h : PortInv s) :
    (stopLocalServer s).serverPort = none := by
  unfold stopLocalServer
  split
  · rename_i hn; exact h hn
  · rfl

@[simp] theorem clearAuthState_localServer (s : Sys) (unlinkFails : Bool) :
    (clearAuthState s unlinkFails).localServer = none := by
  unfold clearAuthState
  simp only [updateAuthStatus_localServer]
  split
  · simp
  · split <;> simp

theorem clearAuthState_serverPort (s : Sys) (unlinkFails : Bool) (h : PortInv s) :
    (clearAuthState s unlinkFails).serverPort = none := by
  have e : (stopLocalServer { s with authState := emptyAuthState }).serverPort = none :=
    stopLocalServer_serverPort _ h
  unfold clearAuthState
  simp only [updateAuthStatus_serverPort]
  split
  · exact e
  · split
    · exact e
    · exact e

theorem signOut_server (s : Sys) (unlinkFails : Bool) (h : PortInv s) :
    (signOut s unlinkFails).localServer = none ∧ (signOut s unlinkFails).serverPort = none := by
  unfold signOut
  simp only [send_localServer, send_serverPort]
  refine ⟨by simp, clearAuthState_serverPort _ _ ?_⟩
  intro _
  exact stopLocalServer_serverPort s h

theorem portInv_step (s : Sys) (e : Event) (h : PortInv s) : PortInv (step s e) := by
  cases e with
  | setMainWindow window => exact h
  | loadAuthState readFails =>
    refine portInv_srvStep h (srvStep_same ?_ ?_) <;>
    · simp only [step]
      unfold loadAuthState
      split
      · rfl
      · split
        · rfl
        · split
          · rfl
          · split <;> rfl
  | validateStoredToken env => exact portInv_srvStep h (srvStep_validateStoredToken s env)
  | fetchUsageInfoWithRetry maxRetries delayMs health usage =>
    exact portInv_srvStep h (srvStep_same (by simp [step]) (by simp [step]))
  | initiateDesktopAuth env => exact portInv_srvStep h (srvStep_initiateDesktopAuth s env)
  | callback req env =>
    simp only [step]
    split
    · exact h
    · exact portInv_srvStep h (srvStep_handleServerCallback s req env)
  | exchangeAuthorizationCode code state env =>
    exact portInv_srvStep h (srvStep_same (exchangeAuthorizationCode_server s code state env).1
      (exchangeAuthorizationCode_server s code state env).2)
  | exchangeTemporaryToken tempToken env =>
    exact portInv_srvStep h (srvStep_same (exchangeTemporaryToken_server s tempToken env).1
      (exchangeTemporaryToken_server s tempToken env).2)
  | advance ms => exact h
  | fire i => exact portInv_srvStep h (srvStep_fire s i)
  | signOut unlinkFails =>
    intro _
    exact (signOut_server s unlinkFails h).2

theorem portInv_run (events : List Event) : ∀ s : Sys, PortInv s → PortInv (run s events) := by
  induction events with
  | nil => intro s h; exact h
  | cons e rest ih => intro s h; exact ih (step s e) (portInv_step s e h)

theorem clearAuthState_file (s : Sys) (unlinkFails : Bool) :
    (clearAuthState s unlinkFails).file = (if unlinkFails then s.file else none) := by
  unfold clearAuthState
  simp only [updateAuthStatus_file]
  split
  · rename_i hn
    simp only [stopLocalServer_file] at hn
    simp [hn]
  · split
    · rename_i hu
      simp [hu]
    · rename_i hu
      simp [hu]

theorem signOut_sent (s : Sys) (unlinkFails : Bool) :
    sentOn "auth-signed-out" (effectsSince s (signOut s unlinkFails))
      = (if s.mainWindow then [.none] else []) := by
  unfold signOut clearAuthState stopLocalServer effectsSince
  cases hl : s.localServer <;> cases hf : s.file <;> cases unlinkFails <;>
    cases hw : s.mainWindow <;>
    simp [hl, hf, hw, sentOn, updateAuthStatus, Sys.send, Sys.emit]

/-- C9 (as amended): after `signOut()` from any state reached by the
operations, `isAuthenticated` is false, `sessionToken`, `refreshToken`,
`user` and `oauthState` are null, `isAuthenticating` is false, and no server
is referenced (`localServer` and `serverPort` are null).  The credential file
is gone unless its deletion fails, in which case it is left as it was; after
a sign-out whose deletion did not fail, `loadAuthState` finds no credential
(it changes nothing and starts no validation).  When a main window is
attached exactly one `auth-signed-out` notification is sent, and none
otherwise. -/
theorem signOut_clears_session (file : Option FileContent) (events : List Event)
    (unlinkFails readFails : Bool) :
    (signOut (run (init file) events) unlinkFails).authState.isAuthenticated = .bool false ∧
    (signOut (run (init file) events) unlinkFails).authState.sessionToken = .null ∧
    (signOut (run (init file) events) unlinkFails).authState.refreshToken = .null ∧
    (signOut (run (init file) events) unlinkFails).authState.user = .val .null ∧
    (signOut (run (init file) events) unlinkFails).authState.oauthState = none ∧
    (signOut (run (init file) events) unlinkFails).authState.isAuthenticating = false ∧
    (signOut (run (init file) events) unlinkFails).localServer = none ∧
    (signOut (run (init file) events) unlinkFails).serverPort = none ∧
    (signOut (run (init file) events) unlinkFails).file
      = (if unlinkFails then (run (init file) events).file else none) ∧
    loadAuthState (signOut (run (init file) events) false) readFails
      = (signOut (run (init file) events) false, false) ∧
    sentOn "auth-signed-out"
        (effectsSince (run (init file) events) (signOut (run (init file) events) unlinkFails))
      = (if (run (init file) events).mainWindow then [.none] else []) := by
  have inv : PortInv (run (init file) events) :=
    portInv_run events (init file) (fun _ => rfl)
  have srv := signOut_server (run (init file) events) unlinkFails inv
  have hfile : ∀ u, (signOut (run (init file) events) u).file
      = (if u then (run (init file) events).file else none) := by
    intro u
    unfold signOut
    simp only [send_file, clearAuthState_file, stopLocalServer_file]
  refine ⟨by simp [emptyAuthState], by simp [emptyAuthState], by simp [emptyAuthState],
    by simp [emptyAuthState], by simp [emptyAuthState], by simp [emptyAuthState],
    srv.1, srv.2, hfile unlinkFails, ?_, signOut_sent _ _⟩
  unfold loadAuthState
  rw [hfile false]
  simp

/-- C9 (counterexample): when deleting the credential file fails, the file
is still there after `signOut()` and a subsequent `loadAuthState` restores
the session from it; and with no main window attached `signOut()` sends no
`auth-signed-out` notification. -/
theorem signOut_keeps_file_when_unlink_fails :
    (signOut signedIn true).file = signedIn.file ∧
    (signOut signedIn true).file ≠ none ∧
    (loadAuthState (signOut signedIn true) false).2 = true ∧
    (loadAuthState (signOut signedIn true) false).1.authState.isAuthenticated = .bool true ∧
    (loadAuthState (signOut signedIn true) false).1.authState.sessionToken = .str "T1" ∧
    sentOn "auth-signed-out"
      (effectsSince (setMainWindow signedIn false)
        (signOut (setMainWindow signedIn false) false)) = [] := by
  decide

/-! ## Usage fetch while not authenticated -/

theorem fetchUsageInfo_unauthenticated (s : Sys) (out : Fetch UsageBody)
    (unauth : s.authState.isAuthenticated.truthy = false) :
    fetchUsageInfo s out = (s, none) := by
  unfold fetchUsageInfo
  simp [unauth]

theorem retryLoop_unauthenticated (usage : Nat → Fetch UsageBody) (maxRetries : Int)
    (delayMs : Nat) (remaining : Nat) :
    ∀ (attempt : Nat) (s : Sys), s.authState.isAuthenticated.truthy = false →
      (retryLoop usage maxRetries delayMs remaining attempt s).2 = none ∧
      ∃ l, (retryLoop usage maxRetries delayMs remaining attempt s).1 = s.addLog l ∧
        fetches l = [] := by
  induction remaining with
  | zero => intro attempt s _; exact ⟨rfl, [], by simp [retryLoop], rfl⟩
  | succ k ih =>
    intro attempt s unauth
    unfold retryLoop
    simp only [fetchUsageInfo_unauthenticated s (usage attempt) unauth]
    split
    · obtain ⟨h1, l, h2, h3⟩ := ih (attempt + 1) (s.emit (.delay delayMs)) (by simpa using unauth)
      refine ⟨h1, [.delay delayMs] ++ l, ?_, ?_⟩
      · rw [h2, emit_eq, addLog_addLog]
      · simp [fetches, h3]
    · exact ih (attempt + 1) s unauth

/-- C10 (as amended): called while `isAuthenticated` is false,
`fetchUsageInfoWithRetry` returns null for every `maxRetries`, `delayMs` and
backend behaviour, and sends no usage request; the only request it sends is
the health probe, which it sends first. -/
theorem usage_fetch_unauthenticated (s : Sys) (maxRetries : Int) (delayMs : Nat)
    (health : Fetch Unit) (usage : Nat → Fetch UsageBody)
    (unauth : s.authState.isAuthenticated.truthy = false) :
    (fetchUsageInfoWithRetry s maxRetries delayMs health usage).2 = none ∧
    fetches (effectsSince s (fetchUsageInfoWithRetry s maxRetries delayMs health usage).1)
      = [.health] := by
  unfold fetchUsageInfoWithRetry
  simp only []
  split
  · exact ⟨rfl, by simp [effectsSince, fetches]⟩
  · exact ⟨rfl, by simp [effectsSince, fetches]⟩
  · obtain ⟨h1, l, h2, h3⟩ := retryLoop_unauthenticated usage maxRetries delayMs
      maxRetries.toNat 1 (s.emit (.fetch .health)) (by simpa using unauth)
    refine ⟨h1, ?_⟩
    rw [h2, emit_eq, addLog_addLog, effectsSince_of_log (l := _) (addLog_log _ _)]
    simp [fetches, h3]

/-- The call with the default arguments in the initial state, the backend
being healthy. -/
theorem usage_fetch_unauthenticated_witness :
    (init none).authState.isAuthenticated.truthy = false ∧
    (fetchUsageInfoWithRetry (init none) 3 1000 (.resp true (.ok ()))
        usageOk).2 = none ∧
    fetches (effectsSince (init none)
        (fetchUsageInfoWithRetry (init none) 3 1000 (.resp true (.ok ()))
          usageOk).1) = [.health] :=
  ⟨by decide,
    usage_fetch_unauthenticated (init none) 3 1000 (.resp true (.ok ()))
      usageOk (by decide)⟩

/-- C10 (counterexample): called in the initial, unauthenticated state with
the default arguments and a healthy backend, `fetchUsageInfoWithRetry` sends
the health probe and waits two retry delays before it returns null. -/
theorem usage_fetch_unauthenticated_probes_health :
    (init none).authState.isAuthenticated = .bool false ∧
    (fetchUsageInfoWithRetry (init none) 3 1000 (.resp true (.ok ()))
        (fun _ => .throws "not reached")).1.log
      = [.fetch .health, .delay 1000, .delay 1000] ∧
    fetches (fetchUsageInfoWithRetry (init none) 3 1000 (.resp true (.ok ()))
        (fun _ => .throws "not reached")).1.log ≠ [] := by
  decide

/-! ## Port probing -/

/-- A bound of `maxPort - currentPort` further probes is never used up. -/
theorem tryPort_isSome (probe : Nat → Probe) (startPort maxPort : Nat) (fuel : Nat) :
    ∀ currentPort, maxPort - currentPort ≤ fuel →
      (tryPort probe startPort maxPort fuel currentPort).isSome = true := by
  induction fuel with
  | zero =>
    intro currentPort h
    have hgt : currentPort + 1 > maxPort := by omega
    unfold tryPort
    cases probe currentPort <;> simp [hgt]
  | succ k ih =>
    intro currentPort h
    unfold tryPort
    cases probe currentPort with
    | free => simp
    | fails msg => simp
    | inUse =>
      simp only []
      split
      · simp
      · exact ih (currentPort + 1) (by omega)

/-- The port search done by `findAvailablePort` terminates within its bound:
its result is the result of the probing closure. -/
theorem findAvailablePort_eq (probe : Nat → Probe) (startPort maxPort : Nat) :
    tryPort probe startPort maxPort (maxPort - startPort) startPort
      = some (findAvailablePort probe startPort maxPort) := by
  have h := tryPort_isSome probe startPort maxPort (maxPort - startPort) startPort (le_refl _)
  unfold findAvailablePort
  cases hr : tryPort probe startPort maxPort (maxPort - startPort) startPort with
  | none => rw [hr] at h; simp at h
  | some r => rfl

/-! ## Usage fetch: health probe and retry loop -/

@[simp] theorem delays_append (a b : List Effect) : delays (a ++ b) = delays a ++ delays b := by
  induction a with
  | nil => rfl
  | cons e rest ih => cases e <;> simp [delays, ih]

@[simp] theorem responses_append (a b : List Effect) :
    responses (a ++ b) = responses a ++ responses b := by
  induction a with
  | nil => rfl
  | cons e rest ih => cases e <;> simp [responses, ih]

/-- C11: when the liveness probe of `/health` rejects or answers with a
non-OK status, `fetchUsageInfoWithRetry` returns null for every `maxRetries`,
`delayMs` and usage behaviour, and its only effect is the probe itself: no
usage request is sent and no retry delay is awaited. -/
theorem usage_fetch_health_failure (s : Sys) (maxRetries : Int) (delayMs : Nat)
    (health : Fetch Unit) (usage : Nat → Fetch UsageBody)
    (down : healthFails health = true) :
    fetchUsageInfoWithRetry s maxRetries delayMs health usage
      = (s.emit (.fetch .health), none) ∧
    effectsSince s (fetchUsageInfoWithRetry s maxRetries delayMs health usage).1
      = [.fetch .health] ∧
    fetches (effectsSince s (fetchUsageInfoWithRetry s maxRetries delayMs health usage).1)
      = [.health] ∧
    delays (effectsSince s (fetchUsageInfoWithRetry s maxRetries delayMs health usage).1)
      = [] := by
  have e : fetchUsageInfoWithRetry s maxRetries delayMs health usage
      = (s.emit (.fetch .health), none) := by
    unfold fetchUsageInfoWithRetry
    cases health with
    | throws msg => rfl
    | resp ok body =>
      cases ok with
      | false => rfl
      | true => simp [healthFails] at down
  rw [e]
  exact ⟨rfl, by simp [effectsSince], by simp [effectsSince, fetches],
    by simp [effectsSince, delays]⟩

/-- The probe of a signed-in session against a backend that answers 503,
and against one that refuses the connection. -/
theorem usage_fetch_health_failure_witness :
    healthFails (.resp false (.ok ())) = true ∧
    healthFails (.throws "connect ECONNREFUSED") = true ∧
    (fetchUsageInfoWithRetry signedIn 3 1000 (.resp false (.ok ())) usageOk
        = (signedIn.emit (.fetch .health), none) ∧
      effectsSince signedIn (fetchUsageInfoWithRetry signedIn 3 1000 (.resp false (.ok ()))
        usageOk).1 = [.fetch .health] ∧
      fetches (effectsSince signedIn (fetchUsageInfoWithRetry signedIn 3 1000
        (.resp false (.ok ())) usageOk).1) = [.health] ∧
      delays (effectsSince signedIn (fetchUsageInfoWithRetry signedIn 3 1000
        (.resp false (.ok ())) usageOk).1) = []) ∧
    (fetchUsageInfoWithRetry signedIn 3 1000 (.throws "connect ECONNREFUSED") usageOk
        = (signedIn.emit (.fetch .health), none) ∧
      effectsSince signedIn (fetchUsageInfoWithRetry signedIn 3 1000
        (.throws "connect ECONNREFUSED") usageOk).1 = [.fetch .health] ∧
      fetches (effectsSince signedIn (fetchUsageInfoWithRetry signedIn 3 1000
        (.throws "connect ECONNREFUSED") usageOk).1) = [.health] ∧
      delays (effectsSince signedIn (fetchUsageInfoWithRetry signedIn 3 1000
        (.throws "connect ECONNREFUSED") usageOk).1) = []) :=
  ⟨by decide, by decide,
    usage_fetch_health_failure signedIn 3 1000 (.resp false (.ok ())) usageOk (by decide),
    usage_fetch_health_failure signedIn 3 1000 (.throws "connect ECONNREFUSED") usageOk
      (by decide)⟩

theorem fetchUsageInfo_success (s : Sys) (body : UsageBody)
    (auth : s.authenticated = true) (truthy : body.truthy = true) :
    (fetchUsageInfo s (.resp true (.ok body))).2 = some body ∧
    ∃ l, (fetchUsageInfo s (.resp true (.ok body))).1 = s.addLog l ∧
      fetches l = [.usage s.authState.sessionToken] := by
  unfold Sys.authenticated at auth
  simp only [Bool.and_eq_true] at auth
  unfold fetchUsageInfo
  simp only [auth.1, auth.2, Bool.not_true, Bool.or_self, Bool.false_eq_true, if_false]
  cases body with
  | obj u =>
    refine ⟨rfl, _, by simp only [send_eq, emit_eq, addLog_addLog, addLog_mainWindow]; rfl, ?_⟩
    split_ifs <;> simp [fetches]
  | scalar v =>
    have hn : v.nullish = false := truthy_not_nullish (by simpa [UsageBody.truthy] using truthy)
    show (if v.nullish = true then _ else _ : Sys × Option UsageBody).2 = _ ∧
      ∃ l, (if v.nullish = true then _ else _ : Sys × Option UsageBody).1 = _ ∧ _
    rw [if_neg (by simp [hn])]
    refine ⟨rfl, _, by simp only [send_eq, emit_eq, addLog_addLog, addLog_mainWindow]; rfl, ?_⟩
    split_ifs <;> simp [fetches]

theorem fetchUsageInfo_failure (s : Sys) (out : Fetch UsageBody)
    (auth : s.authenticated = true) (fails : usageSucceeds out = false) :
    (∀ v, (fetchUsageInfo s out).2 = some v → v.truthy = false) ∧
    ∃ l, (fetchUsageInfo s out).1 = s.addLog l ∧
      fetches l = [.usage s.authState.sessionToken] := by
  unfold Sys.authenticated at auth
  simp only [Bool.and_eq_true] at auth
  unfold fetchUsageInfo
  simp only [auth.1, auth.2, Bool.not_true, Bool.or_self, Bool.false_eq_true, if_false]
  cases out with
  | throws msg => exact ⟨by simp, _, emit_eq _ _, by simp [fetches]⟩
  | resp ok body =>
    cases ok with
    | false => exact ⟨by simp, _, emit_eq _ _, by simp [fetches]⟩
    | true =>
      cases body with
      | error msg => exact ⟨by simp, _, emit_eq _ _, by simp [fetches]⟩
      | ok b =>
        cases b with
        | obj u => simp [usageSucceeds, UsageBody.truthy] at fails
        | scalar v =>
          have hv : v.truthy = false := by simpa [usageSucceeds, UsageBody.truthy] using fails
          by_cases hn : v.nullish = true
          · simp only [hn, if_true]
            exact ⟨by simp, _, emit_eq _ _, by simp [fetches]⟩
          · simp only [hn, Bool.false_eq_true, if_false]
            refine ⟨?_, _, by simp only [send_eq, emit_eq, addLog_addLog,
              addLog_mainWindow]; rfl, ?_⟩
            · intro w hw
              simp only [Option.some.injEq] at hw
              rw [← hw]
              simpa [UsageBody.truthy] using hv
            · split_ifs <;> simp [fetches]

theorem retryLoop_continue (usage : Nat → Fetch UsageBody) (maxRetries : Int) (delayMs : Nat)
    (k attempt : Nat) (s : Sys)
    (falsy : ∀ v, (fetchUsageInfo s (usage attempt)).2 = some v → v.truthy = false) :
    retryLoop usage maxRetries delayMs (k + 1) attempt s
      = retryLoop usage maxRetries delayMs k (attempt + 1)
          (if (attempt : Int) < maxRetries then
            (fetchUsageInfo s (usage attempt)).1.emit (.delay delayMs)
          else (fetchUsageInfo s (usage attempt)).1) := by
  rw [retryLoop]
  split
  · rename_i v hv
    simp [falsy v hv]
  · rfl

@[simp] theorem addLog_authenticated (s : Sys) (l : List Effect) :
    (s.addLog l).authenticated = s.authenticated := by
  rfl

theorem retryLoop_first_success (usage : Nat → Fetch UsageBody) (maxRetries : Int)
    (delayMs : Nat) (k : Nat) :
    ∀ (attempt : Nat) (s : Sys) (n : Nat) (body : UsageBody),
      s.authenticated = true → attempt ≤ n → n < attempt + k →
      usage n = .resp true (.ok body) → body.truthy = true →
      (∀ m, attempt ≤ m → m < n → usageSucceeds (usage m) = false) →
      (retryLoop usage maxRetries delayMs k attempt s).2 = some body ∧
      ∃ l, (retryLoop usage maxRetries delayMs k attempt s).1 = s.addLog l ∧
        fetches l = List.replicate (n + 1 - attempt) (.usage s.authState.sessionToken) := by
  induction k with
  | zero => intro attempt s n body _ h1 h2; omega
  | succ k ih =>
    intro attempt s n body auth h1 h2 hn truthy before
    by_cases hcase : n = attempt
    · subst hcase
      obtain ⟨r2, l, r1, hl⟩ := fetchUsageInfo_success s body auth truthy
      rw [retryLoop, hn]
      simp only [r2, truthy, if_true]
      exact ⟨trivial, l, r1, by simpa using hl⟩
    · have hlt : attempt < n := by omega
      obtain ⟨falsy, l1, r1, hl1⟩ :=
        fetchUsageInfo_failure s (usage attempt) auth (before attempt (le_refl _) hlt)
      rw [retryLoop_continue usage maxRetries delayMs k attempt s falsy, r1]
      have step : ∀ l0, fetches l0 = [Request.usage s.authState.sessionToken] →
          (retryLoop usage maxRetries delayMs k (attempt + 1) (s.addLog l0)).2 = some body ∧
          ∃ l, (retryLoop usage maxRetries delayMs k (attempt + 1) (s.addLog l0)).1
              = s.addLog l ∧
            fetches l = List.replicate (n + 1 - attempt) (.usage s.authState.sessionToken) := by
        intro l0 hl0
        obtain ⟨v, l, e, hl⟩ := ih (attempt + 1) (s.addLog l0) n body (by simpa using auth)
          (by omega) (by omega) hn truthy (fun m hm1 hm2 => before m (by omega) hm2)
        refine ⟨v, l0 ++ l, by rw [e, addLog_addLog], ?_⟩
        rw [fetches_append, hl0, hl]
        simp only [addLog_authState]
        have : n + 1 - attempt = (n + 1 - (attempt + 1)) + 1 := by omega
        rw [this, List.replicate_succ]
        rfl
      split
      · rw [emit_eq, addLog_addLog]
        exact step _ (by simp [fetches, hl1])
      · exact step _ hl1

theorem retryLoop_all_fail (usage : Nat → Fetch UsageBody) (maxRetries : Int)
    (delayMs : Nat) (k : Nat) :
    ∀ (attempt : Nat) (s : Sys),
      s.authenticated = true →
      (∀ m, attempt ≤ m → m < attempt + k → usageSucceeds (usage m) = false) →
      (retryLoop usage maxRetries delayMs k attempt s).2 = none ∧
      ∃ l, (retryLoop usage maxRetries delayMs k attempt s).1 = s.addLog l ∧
        fetches l = List.replicate k (.usage s.authState.sessionToken) := by
  induction k with
  | zero => intro attempt s _ _; exact ⟨rfl, [], by simp [retryLoop], rfl⟩
  | succ k ih =>
    intro attempt s auth fails
    obtain ⟨falsy, l1, r1, hl1⟩ :=
      fetchUsageInfo_failure s (usage attempt) auth (fails attempt (le_refl _) (by omega))
    rw [retryLoop_continue usage maxRetries delayMs k attempt s falsy, r1]
    have step : ∀ l0, fetches l0 = [Request.usage s.authState.sessionToken] →
        (retryLoop usage maxRetries delayMs k (attempt + 1) (s.addLog l0)).2 = none ∧
        ∃ l, (retryLoop usage maxRetries delayMs k (attempt + 1) (s.addLog l0)).1
            = s.addLog l ∧
          fetches l = List.replicate (k + 1) (.usage s.authState.sessionToken) := by
      intro l0 hl0
      obtain ⟨v, l, e, hl⟩ := ih (attempt + 1) (s.addLog l0) (by simpa using auth)
        (fun m hm1 hm2 => fails m (by omega) (by omega))
      refine ⟨v, l0 ++ l, by rw [e, addLog_addLog], ?_⟩
      rw [fetches_append, hl0, hl, List.replicate_succ]
      rfl
    split
    · rw [emit_eq, addLog_addLog]
      exact step _ (by simp [fetches, hl1])
    · exact step _ hl1

theorem fetchUsageInfo_at_most (s : Sys) (out : Fetch UsageBody) :
    ∃ l, (fetchUsageInfo s out).1 = s.addLog l ∧ (fetches l).length ≤ 1 := by
  unfold fetchUsageInfo
  split
  · exact ⟨[], by simp, by simp [fetches]⟩
  · split
    · exact ⟨_, emit_eq _ _, by simp [fetches]⟩
    · exact ⟨_, emit_eq _ _, by simp [fetches]⟩
    · exact ⟨_, emit_eq _ _, by simp [fetches]⟩
    · refine ⟨_, by simp only [send_eq, emit_eq, addLog_addLog, addLog_mainWindow]; rfl, ?_⟩
      split_ifs <;> simp [fetches]
    · split
      · exact ⟨_, emit_eq _ _, by simp [fetches]⟩
      · refine ⟨_, by simp only [send_eq, emit_eq, addLog_addLog, addLog_mainWindow]; rfl, ?_⟩
        split_ifs <;> simp [fetches]

theorem retryLoop_at_most (usage : Nat → Fetch UsageBody) (maxRetries : Int)
    (delayMs : Nat) (k : Nat) :
    ∀ (attempt : Nat) (s : Sys),
      ∃ l, (retryLoop usage maxRetries delayMs k attempt s).1 = s.addLog l ∧
        (fetches l).length ≤ k := by
  induction k with
  | zero => intro attempt s; exact ⟨[], by simp [retryLoop], by simp [fetches]⟩
  | succ k ih =>
    intro attempt s
    obtain ⟨l1, r1, hl1⟩ := fetchUsageInfo_at_most s (usage attempt)
    have next : ∃ l, (retryLoop usage maxRetries delayMs k (attempt + 1)
        (if (attempt : Int) < maxRetries then (fetchUsageInfo s (usage attempt)).1.emit
          (.delay delayMs) else (fetchUsageInfo s (usage attempt)).1)).1 = s.addLog l ∧
        (fetches l).length ≤ k + 1 := by
      split
      · obtain ⟨l2, h2, hl2⟩ := ih (attempt + 1)
          ((fetchUsageInfo s (usage attempt)).1.emit (.delay delayMs))
        refine ⟨_, by rw [h2, r1, emit_eq, addLog_addLog, addLog_addLog], ?_⟩
        simp only [fetches_append, List.length_append]
        simp [fetches]
        omega
      · obtain ⟨l2, h2, hl2⟩ := ih (attempt + 1) (fetchUsageInfo s (usage attempt)).1
        refine ⟨_, by rw [h2, r1, addLog_addLog], ?_⟩
        simp only [fetches_append, List.length_append]
        omega
    rw [retryLoop]
    split
    · split
      · exact ⟨l1, r1, by omega⟩
      · exact next
    · exact next

/-- C12: when the session is authenticated (the guard of `fetchUsageInfo`
passes) and the health probe answers OK, then for every `maxRetries`, every
`delayMs` and every assignment of outcomes to the attempts:
if attempt `n` (with `1 ≤ n ≤ maxRetries`) is the first one that succeeds,
`fetchUsageInfoWithRetry` returns the body of that attempt after exactly `n`
usage requests; if no attempt up to `maxRetries` succeeds it returns null
after exactly `maxRetries` usage requests; in every case it sends at most
`maxRetries` usage requests.  The function is total: it never throws. -/
theorem usage_retry_first_success (s : Sys) (maxRetries : Int) (delayMs : Nat)
    (healthBody : Except String Unit) (usage : Nat → Fetch UsageBody)
    (auth : s.authenticated = true) :
    (∀ (n : Nat) (body : UsageBody), 1 ≤ n → (n : Int) ≤ maxRetries →
      usage n = .resp true (.ok body) → body.truthy = true →
      (∀ m : Nat, 1 ≤ m → m < n → usageSucceeds (usage m) = false) →
      (fetchUsageInfoWithRetry s maxRetries delayMs (.resp true healthBody) usage).2
          = some body ∧
        fetches (effectsSince s
            (fetchUsageInfoWithRetry s maxRetries delayMs (.resp true healthBody) usage).1)
          = .health :: List.replicate n (.usage s.authState.sessionToken)) ∧
    ((∀ m : Nat, 1 ≤ m → (m : Int) ≤ maxRetries → usageSucceeds (usage m) = false) →
      (fetchUsageInfoWithRetry s maxRetries delayMs (.resp true healthBody) usage).2 = none ∧
        fetches (effectsSince s
            (fetchUsageInfoWithRetry s maxRetries delayMs (.resp true healthBody) usage).1)
          = .health :: List.replicate maxRetries.toNat (.usage s.authState.sessionToken)) ∧
    (fetches (effectsSince s
        (fetchUsageInfoWithRetry s maxRetries delayMs (.resp true healthBody) usage).1)).length
      ≤ 1 + maxRetries.toNat := by
  have unfolded : fetchUsageInfoWithRetry s maxRetries delayMs (.resp true healthBody) usage
      = retryLoop usage maxRetries delayMs maxRetries.toNat 1 (s.emit (.fetch .health)) := rfl
  have auth1 : (s.emit (.fetch .health)).authenticated = true := by
    rw [emit_eq]; simpa using auth
  rw [unfolded]
  refine ⟨?_, ?_, ?_⟩
  · intro n body h1 h2 hn truthy before
    obtain ⟨r2, l, r1, hl⟩ := retryLoop_first_success usage maxRetries delayMs maxRetries.toNat
      1 (s.emit (.fetch .health)) n body auth1 h1 (by omega) hn truthy before
    refine ⟨r2, ?_⟩
    rw [r1, emit_eq, addLog_addLog, effectsSince_of_log (l := _) (addLog_log _ _)]
    simp only [fetches_append, hl]
    simp [fetches]
  · intro fails
    obtain ⟨r2, l, r1, hl⟩ := retryLoop_all_fail usage maxRetries delayMs maxRetries.toNat
      1 (s.emit (.fetch .health)) auth1 (fun m hm1 hm2 => fails m hm1 (by omega))
    refine ⟨r2, ?_⟩
    rw [r1, emit_eq, addLog_addLog, effectsSince_of_log (l := _) (addLog_log _ _)]
    simp only [fetches_append, hl]
    simp [fetches]
  · obtain ⟨l, r1, hl⟩ := retryLoop_at_most usage maxRetries delayMs maxRetries.toNat 1
      (s.emit (.fetch .health))
    rw [r1, emit_eq, addLog_addLog, effectsSince_of_log (l := _) (addLog_log _ _)]
    simp only [fetches_append, List.length_append]
    simp [fetches]
    omega

/-- The signed-in session with the defaults: a backend that answers the
second usage request, and a backend whose usage endpoint always fails. -/
theorem usage_retry_first_success_witness :
    signedIn.authenticated = true ∧
    ((fetchUsageInfoWithRetry signedIn 3 1000 (.resp true (.ok ())) usageSecond).2
        = some tenOfFifty ∧
      fetches (effectsSince signedIn
          (fetchUsageInfoWithRetry signedIn 3 1000 (.resp true (.ok ())) usageSecond).1)
        = .health :: List.replicate 2 (.usage signedIn.authState.sessionToken)) ∧
    ((fetchUsageInfoWithRetry signedIn 3 1000 (.resp true (.ok ())) usageDown).2 = none ∧
      fetches (effectsSince signedIn
          (fetchUsageInfoWithRetry signedIn 3 1000 (.resp true (.ok ())) usageDown).1)
        = .health :: List.replicate (3 : Int).toNat
            (.usage signedIn.authState.sessionToken)) ∧
    (fetches (effectsSince signedIn
        (fetchUsageInfoWithRetry signedIn 3 1000 (.resp true (.ok ())) usageSecond).1)).length
      ≤ 1 + (3 : Int).toNat :=
  ⟨by decide,
    (usage_retry_first_success signedIn 3 1000 (.ok ()) usageSecond (by decide)).1 2 tenOfFifty
      (by decide) (by decide) rfl rfl
      (fun m h1 h2 => by
        have hm : m = 1 := by omega
        subst hm
        rfl),
    (usage_retry_first_success signedIn 3 1000 (.ok ()) usageDown (by decide)).2.1
      (fun _ _ _ => rfl),
    (usage_retry_first_success signedIn 3 1000 (.ok ()) usageSecond (by decide)).2.2⟩

/-! ## Port discovery -/

/-- What a successful probing run tells about its result. -/
theorem tryPort_ok (probe : Nat → Probe) (startPort maxPort : Nat) (fuel : Nat) :
    ∀ currentPort p, tryPort probe startPort maxPort fuel currentPort = some (.ok p) →
      currentPort ≤ p ∧ (p = currentPort ∨ p ≤ maxPort) ∧ probe p = .free ∧
      ∀ q, currentPort ≤ q → q < p → probe q = .inUse := by
  induction fuel with
  | zero =>
    intro currentPort p h
    unfold tryPort at h
    cases hp : probe currentPort with
    | free =>
      simp only [hp, Option.some.injEq, Except.ok.injEq] at h
      subst h
      exact ⟨le_refl _, Or.inl rfl, hp, fun q h1 h2 => by omega⟩
    | fails msg => simp [hp] at h
    | inUse =>
      simp only [hp] at h
      split at h <;> simp at h
  | succ k ih =>
    intro currentPort p h
    unfold tryPort at h
    cases hp : probe currentPort with
    | free =>
      simp only [hp, Option.some.injEq, Except.ok.injEq] at h
      subst h
      exact ⟨le_refl _, Or.inl rfl, hp, fun q h1 h2 => by omega⟩
    | fails msg => simp [hp] at h
    | inUse =>
      simp only [hp] at h
      split at h
      · simp at h
      · obtain ⟨a, b, c, d⟩ := ih (currentPort + 1) p h
        refine ⟨by omega, Or.inr ?_, c, ?_⟩
        · rcases b with b | b
          · omega
          · exact b
        · intro q h1 h2
          by_cases hq : q = currentPort
          · rw [hq]; exact hp
          · exact d q (by omega) h2

/-- The smallest port that binds, all ports below it being in use, is the
result of a probing run with enough fuel. -/
theorem tryPort_smallest_free (probe : Nat → Probe) (startPort maxPort : Nat) (fuel : Nat) :
    ∀ currentPort p, currentPort ≤ p → p ≤ maxPort → maxPort - currentPort ≤ fuel →
      probe p = .free → (∀ q, currentPort ≤ q → q < p → probe q = .inUse) →
      tryPort probe startPort maxPort fuel currentPort = some (.ok p) := by
  induction fuel with
  | zero =>
    intro currentPort p h1 h2 h3 hfree _
    have hp : p = currentPort := by omega
    subst hp
    unfold tryPort
    simp [hfree]
  | succ k ih =>
    intro currentPort p h1 h2 h3 hfree below
    unfold tryPort
    by_cases hp : p = currentPort
    · subst hp
      simp [hfree]
    · have hin := below currentPort (le_refl _) (by omega)
      simp only [hin]
      rw [if_neg (by omega)]
      exact ih (currentPort + 1) p (by omega) h2 (by omega) hfree
        (fun q hq1 hq2 => below q (by omega) hq2)

/-- When every port of the range is in use, a probing run ends in the
exhaustion error. -/
theorem tryPort_exhausted (probe : Nat → Probe) (startPort maxPort : Nat) (fuel : Nat) :
    ∀ currentPort, currentPort ≤ maxPort → maxPort - currentPort ≤ fuel →
      (∀ q, currentPort ≤ q → q ≤ maxPort → probe q = .inUse) →
      tryPort probe startPort maxPort fuel currentPort
        = some (.error (noPortsMessage startPort maxPort)) := by
  induction fuel with
  | zero =>
    intro currentPort h1 h2 all
    unfold tryPort
    simp only [all currentPort (le_refl _) h1]
    rw [if_pos (by omega)]
  | succ k ih =>
    intro currentPort h1 h2 all
    unfold tryPort
    simp only [all currentPort (le_refl _) h1]
    split
    · rfl
    · exact ih (currentPort + 1) (by omega) (by omega) (fun q hq1 hq2 => all q (by omega) hq2)

/-- A probing run that ends in an error, no probe of the range having failed
for another reason than address-in-use, has found every port in use. -/
theorem tryPort_error (probe : Nat → Probe) (startPort maxPort : Nat) (fuel : Nat) :
    ∀ currentPort msg, currentPort ≤ maxPort →
      (∀ q m, currentPort ≤ q → q ≤ maxPort → probe q ≠ .fails m) →
      tryPort probe startPort maxPort fuel currentPort = some (.error msg) →
      msg = noPortsMessage startPort maxPort ∧
      ∀ q, currentPort ≤ q → q ≤ maxPort → probe q = .inUse := by
  induction fuel with
  | zero =>
    intro currentPort msg h1 nofail h
    unfold tryPort at h
    cases hp : probe currentPort with
    | free => simp [hp] at h
    | fails m => exact absurd hp (nofail currentPort m (le_refl _) h1)
    | inUse =>
      simp only [hp] at h
      split at h
      · simp only [Option.some.injEq, Except.error.injEq] at h
        refine ⟨h.symm, fun q hq1 hq2 => ?_⟩
        have : q = currentPort := by omega
        rw [this]; exact hp
      · simp at h
  | succ k ih =>
    intro currentPort msg h1 nofail h
    unfold tryPort at h
    cases hp : probe currentPort with
    | free => simp [hp] at h
    | fails m => exact absurd hp (nofail currentPort m (le_refl _) h1)
    | inUse =>
      simp only [hp] at h
      split at h
      · simp only [Option.some.injEq, Except.error.injEq] at h
        refine ⟨h.symm, fun q hq1 hq2 => ?_⟩
        have : q = currentPort := by omega
        rw [this]; exact hp
      · obtain ⟨a, b⟩ := ih (currentPort + 1) msg (by omega)
          (fun q m hq1 hq2 => nofail q m (by omega) hq2) h
        refine ⟨a, fun q hq1 hq2 => ?_⟩
        by_cases hq : q = currentPort
        · rw [hq]; exact hp
        · exact b q (by omega) hq2

/-- C13 (as amended): for `low ≤ high` and every assignment of probe
outcomes, a port returned by `findAvailablePort(low, high)` lies in
`[low, high]` (and is a port whose probe bound). -/
theorem found_port_in_range (probe : Nat → Probe) (low high p : Nat)
    (ordered : low ≤ high) (found : findAvailablePort probe low high = .ok p) :
    low ≤ p ∧ p ≤ high ∧ probe p = .free := by
  have h := findAvailablePort_eq probe low high
  rw [found] at h
  obtain ⟨a, b, c, _⟩ := tryPort_ok probe low high (high - low) low p h
  refine ⟨a, ?_, c⟩
  rcases b with b | b
  · omega
  · exact b

/-- The default range with the first two ports in use. -/
theorem found_port_in_range_witness :
    8000 ≤ 8020 ∧ findAvailablePort (inUseBelow 8002) 8000 8020 = .ok 8002 ∧
    (8000 ≤ 8002 ∧ 8002 ≤ 8020 ∧ inUseBelow 8002 8002 = .free) :=
  ⟨by decide, rfl,
    found_port_in_range (inUseBelow 8002) 8000 8020 8002 (by decide) rfl⟩

/-- C13 (counterexample): the start port is probed before it is compared
with `maxPort`, so with `low > high` a free start port is returned although
it lies above `high`. -/
theorem found_port_above_range :
    findAvailablePort allFree 8010 8000 = .ok 8010 ∧ ¬ (8010 ≤ 8000) :=
  ⟨rfl, by decide⟩

theorem probedPorts_ok (probe : Nat → Probe) (startPort maxPort : Nat) (fuel : Nat) :
    ∀ currentPort p, tryPort probe startPort maxPort fuel currentPort = some (.ok p) →
      probedPorts probe maxPort fuel currentPort
        = List.range' currentPort (p + 1 - currentPort) := by
  induction fuel with
  | zero =>
    intro currentPort p h
    have hp := h
    unfold tryPort at hp
    cases hpr : probe currentPort with
    | free =>
      simp only [hpr, Option.some.injEq, Except.ok.injEq] at hp
      subst hp
      simp [probedPorts]
    | fails msg => simp [hpr] at hp
    | inUse =>
      simp only [hpr] at hp
      split at hp <;> simp at hp
  | succ k ih =>
    intro currentPort p h
    have hp := h
    unfold tryPort at hp
    unfold probedPorts
    cases hpr : probe currentPort with
    | free =>
      simp only [hpr, Option.some.injEq, Except.ok.injEq] at hp
      subst hp
      simp
    | fails msg => simp [hpr] at hp
    | inUse =>
      simp only [hpr] at hp ⊢
      split at hp
      · simp at hp
      · rename_i hle
        rw [if_neg hle, ih (currentPort + 1) p hp]
        obtain ⟨a, _, _, _⟩ := tryPort_ok probe startPort maxPort k (currentPort + 1) p hp
        have e : p + 1 - currentPort = (p + 1 - (currentPort + 1)) + 1 := by omega
        rw [e, List.range'_succ]

theorem probedPorts_exhausted (probe : Nat → Probe) (maxPort : Nat) (fuel : Nat) :
    ∀ currentPort, currentPort ≤ maxPort → maxPort - currentPort ≤ fuel →
      (∀ q, currentPort ≤ q → q ≤ maxPort → probe q = .inUse) →
      probedPorts probe maxPort fuel currentPort
        = List.range' currentPort (maxPort + 1 - currentPort) := by
  induction fuel with
  | zero =>
    intro currentPort h1 h2 _
    have e : maxPort + 1 - currentPort = 1 := by omega
    simp [probedPorts, e]
  | succ k ih =>
    intro currentPort h1 h2 all
    unfold probedPorts
    simp only [all currentPort (le_refl _) h1]
    split
    · have e : maxPort + 1 - currentPort = 1 := by omega
      simp [e]
    · rw [ih (currentPort + 1) (by omega) (by omega) (fun q hq1 hq2 => all q (by omega) hq2)]
      have e : maxPort + 1 - currentPort = (maxPort + 1 - (currentPort + 1)) + 1 := by omega
      rw [e, List.range'_succ]

/-- C14: for `low ≤ high`, when no probe in `[low, high]` fails for another
reason than address-in-use, `findAvailablePort(low, high)` calls `listen` on
`low, low + 1, ...` in increasing order and stops at the first port that
binds: it returns `p` exactly when `p` is the smallest port of `[low, high]`
that is not in use, and it fails, with the no-available-ports error and
after having probed the whole range, exactly when every port of
`[low, high]` is in use; it fails with no other error. -/
theorem smallest_free_port (probe : Nat → Probe) (low high : Nat) (ordered : low ≤ high)
    (onlyInUse : ∀ q m, low ≤ q → q ≤ high → probe q ≠ .fails m) :
    (∀ p, findAvailablePort probe low high = .ok p ↔
      (low ≤ p ∧ p ≤ high ∧ probe p = .free ∧ ∀ q, low ≤ q → q < p → probe q = .inUse)) ∧
    (findAvailablePort probe low high = .error (noPortsMessage low high) ↔
      ∀ q, low ≤ q → q ≤ high → probe q = .inUse) ∧
    (∀ msg, findAvailablePort probe low high = .error msg → msg = noPortsMessage low high) ∧
    (∀ p, findAvailablePort probe low high = .ok p →
      probedPorts probe high (high - low) low = List.range' low (p + 1 - low)) ∧
    (findAvailablePort probe low high = .error (noPortsMessage low high) →
      probedPorts probe high (high - low) low = List.range' low (high + 1 - low)) := by
  have eq := findAvailablePort_eq probe low high
  have ofTry : ∀ r, tryPort probe low high (high - low) low = some r →
      findAvailablePort probe low high = r := by
    intro r hr
    rw [eq] at hr
    exact Option.some.inj hr
  have allUsed : findAvailablePort probe low high = .error (noPortsMessage low high) →
      ∀ q, low ≤ q → q ≤ high → probe q = .inUse := by
    intro h
    rw [h] at eq
    exact (tryPort_error probe low high (high - low) low _ ordered onlyInUse eq).2
  refine ⟨?_, ⟨allUsed, ?_⟩, ?_, ?_, ?_⟩
  · intro p
    constructor
    · intro h
      rw [h] at eq
      obtain ⟨a, b, c, d⟩ := tryPort_ok probe low high (high - low) low p eq
      refine ⟨a, ?_, c, d⟩
      rcases b with b | b
      · omega
      · exact b
    · rintro ⟨a, b, c, d⟩
      exact ofTry _ (tryPort_smallest_free probe low high (high - low) low p a b (le_refl _) c d)
  · intro all
    exact ofTry _ (tryPort_exhausted probe low high (high - low) low ordered (le_refl _) all)
  · intro msg h
    rw [h] at eq
    exact (tryPort_error probe low high (high - low) low msg ordered onlyInUse eq).1
  · intro p h
    rw [h] at eq
    exact probedPorts_ok probe low high (high - low) low p eq
  · intro h
    exact probedPorts_exhausted probe high (high - low) low ordered (le_refl _) (allUsed h)

/-- The default range with the first two ports in use, and with every port
in use. -/
theorem smallest_free_port_witness :
    8000 ≤ 8020 ∧
    (∀ q m, 8000 ≤ q → q ≤ 8020 → inUseBelow 8002 q ≠ .fails m) ∧
    (∀ q m, 8000 ≤ q → q ≤ 8020 → allInUse q ≠ .fails m) ∧
    findAvailablePort (inUseBelow 8002) 8000 8020 = .ok 8002 ∧
    probedPorts (inUseBelow 8002) 8020 (8020 - 8000) 8000 = List.range' 8000 (8002 + 1 - 8000) ∧
    findAvailablePort allInUse 8000 8020 = .error (noPortsMessage 8000 8020) ∧
    probedPorts allInUse 8020 (8020 - 8000) 8000 = List.range' 8000 (8020 + 1 - 8000) :=
  have noFail : ∀ q m, 8000 ≤ q → q ≤ 8020 → inUseBelow 8002 q ≠ .fails m := by
    intro q m _ _
    unfold inUseBelow
    split <;> simp
  have noFail2 : ∀ q m, 8000 ≤ q → q ≤ 8020 → allInUse q ≠ .fails m := by
    intro q m _ _
    simp [allInUse]
  have found : findAvailablePort (inUseBelow 8002) 8000 8020 = .ok 8002 :=
    ((smallest_free_port (inUseBelow 8002) 8000 8020 (by decide) noFail).1 8002).mpr
      ⟨by decide, by decide, by decide, fun q h1 h2 => by
        unfold inUseBelow
        rw [if_pos h2]⟩
  have exhausted : findAvailablePort allInUse 8000 8020 = .error (noPortsMessage 8000 8020) :=
    (smallest_free_port allInUse 8000 8020 (by decide) noFail2).2.1.mpr (fun _ _ _ => rfl)
  ⟨by decide, noFail, noFail2, found,
    (smallest_free_port (inUseBelow 8002) 8000 8020 (by decide) noFail).2.2.2.1 8002 found,
    exhausted,
    (smallest_free_port allInUse 8000 8020 (by decide) noFail2).2.2.2.2 exhausted⟩

/-! ## Effects of the usage fetch -/

theorem fetchUsageInfo_usage (s : Sys) (out : Fetch UsageBody) :
    ∃ l, (fetchUsageInfo s out).1 = s.addLog l ∧ ∀ e ∈ l, Effect.isUsage e = true := by
  unfold fetchUsageInfo
  split
  · exact ⟨[], by simp, by simp⟩
  · split
    · exact ⟨_, emit_eq _ _, by simp [Effect.isUsage]⟩
    · exact ⟨_, emit_eq _ _, by simp [Effect.isUsage]⟩
    · exact ⟨_, emit_eq _ _, by simp [Effect.isUsage]⟩
    · refine ⟨_, by simp only [send_eq, emit_eq, addLog_addLog, addLog_mainWindow]; rfl, ?_⟩
      split_ifs <;> simp [Effect.isUsage]
    · split
      · exact ⟨_, emit_eq _ _, by simp [Effect.isUsage]⟩
      · refine ⟨_, by simp only [send_eq, emit_eq, addLog_addLog, addLog_mainWindow]; rfl, ?_⟩
        split_ifs <;> simp [Effect.isUsage]

theorem retryLoop_usage (usage : Nat → Fetch UsageBody) (maxRetries : Int)
    (delayMs : Nat) (k : Nat) :
    ∀ (attempt : Nat) (s : Sys),
      ∃ l, (retryLoop usage maxRetries delayMs k attempt s).1 = s.addLog l ∧
        ∀ e ∈ l, Effect.isUsage e = true := by
  induction k with
  | zero => intro attempt s; exact ⟨[], by simp [retryLoop], by simp⟩
  | succ k ih =>
    intro attempt s
    obtain ⟨l1, r1, hl1⟩ := fetchUsageInfo_usage s (usage attempt)
    have next : ∃ l, (retryLoop usage maxRetries delayMs k (attempt + 1)
        (if (attempt : Int) < maxRetries then (fetchUsageInfo s (usage attempt)).1.emit
          (.delay delayMs) else (fetchUsageInfo s (usage attempt)).1)).1 = s.addLog l ∧
        ∀ e ∈ l, Effect.isUsage e = true := by
      split
      · obtain ⟨l2, h2, hl2⟩ := ih (attempt + 1)
          ((fetchUsageInfo s (usage attempt)).1.emit (.delay delayMs))
        refine ⟨_, by rw [h2, r1, emit_eq, addLog_addLog, addLog_addLog], ?_⟩
        intro e he
        simp only [List.mem_append, List.mem_singleton] at he
        rcases he with he | he | he
        · exact hl1 e he
        · rw [he]; rfl
        · exact hl2 e he
      · obtain ⟨l2, h2, hl2⟩ := ih (attempt + 1) (fetchUsageInfo s (usage attempt)).1
        refine ⟨_, by rw [h2, r1, addLog_addLog], ?_⟩
        intro e he
        simp only [List.mem_append] at he
        rcases he with he | he
        · exact hl1 e he
        · exact hl2 e he
    rw [retryLoop]
    split
    · split
      · exact ⟨l1, r1, hl1⟩
      · exact next
    · exact next

theorem fetchUsageInfoWithRetry_usage (s : Sys) (maxRetries : Int) (delayMs : Nat)
    (health : Fetch Unit) (usage : Nat → Fetch UsageBody) :
    ∃ l, (fetchUsageInfoWithRetry s maxRetries delayMs health usage).1 = s.addLog l ∧
      ∀ e ∈ l, Effect.isUsage e = true := by
  unfold fetchUsageInfoWithRetry
  simp only []
  split
  · exact ⟨_, emit_eq _ _, by simp [Effect.isUsage]⟩
  · exact ⟨_, emit_eq _ _, by simp [Effect.isUsage]⟩
  · obtain ⟨l, h, hl⟩ := retryLoop_usage usage maxRetries delayMs maxRetries.toNat 1
      (s.emit (.fetch .health))
    refine ⟨_, by rw [h, emit_eq, addLog_addLog], ?_⟩
    intro e he
    simp only [List.mem_append, List.mem_singleton] at he
    rcases he with he | he
    · rw [he]; rfl
    · exact hl e he

theorem writes_of_usage (l : List Effect) (h : ∀ e ∈ l, Effect.isUsage e = true) :
    writes l = [] := by
  induction l with
  | nil => rfl
  | cons e rest ih =>
    have he := h e (List.mem_cons_self _ _)
    have hr := ih (fun x hx => h x (List.mem_cons_of_mem _ hx))
    cases e <;> simp_all [writes, Effect.isUsage]

theorem responses_of_usage (l : List Effect) (h : ∀ e ∈ l, Effect.isUsage e = true) :
    responses l = [] := by
  induction l with
  | nil => rfl
  | cons e rest ih =>
    have he := h e (List.mem_cons_self _ _)
    have hr := ih (fun x hx => h x (List.mem_cons_of_mem _ hx))
    cases e <;> simp_all [responses, Effect.isUsage]

theorem sentOn_of_usage (channel : String) (l : List Effect)
    (other : channel ≠ "api-response-data") (h : ∀ e ∈ l, Effect.isUsage e = true) :
    sentOn channel l = [] := by
  induction l with
  | nil => rfl
  | cons e rest ih =>
    have he := h e (List.mem_cons_self _ _)
    have hr := ih (fun x hx => h x (List.mem_cons_of_mem _ hx))
    cases e with
    | send ch payload =>
      simp only [Effect.isUsage, beq_iff_eq] at he
      simp only [sentOn, hr]
      rw [if_neg (by rw [he]; exact fun e => other e.symm)]
    | _ => simp_all [sentOn, Effect.isUsage]

theorem tokenFetches_of_usage (l : List Effect) (h : ∀ e ∈ l, Effect.isUsage e = true) :
    ∀ code port, Request.token code port ∉ fetches l := by
  induction l with
  | nil => intro code port; simp [fetches]
  | cons e rest ih =>
    have he := h e (List.mem_cons_self _ _)
    have hr := ih (fun x hx => h x (List.mem_cons_of_mem _ hx))
    intro code port
    cases e with
    | fetch req =>
      cases req <;> simp_all [fetches, Effect.isUsage]
    | _ => simp_all [fetches, Effect.isUsage]

/-! ## Successful exchange -/

theorem saveAuthState_eq (s : Sys) (savedAt : String) (writeFails : Bool) :
    saveAuthState s savedAt writeFails
      = if writeFails then s
        else { s.emit (.writeFile (savedRecord s.authState savedAt)) with
          file := some (.record (savedRecord s.authState savedAt)) } := by
  rfl

/-- The run of `exchangeAuthorizationCode` in which the CSRF check passes
and both endpoints answer 2xx with a parsed body. -/
theorem exchangeAuthorizationCode_success (s : Sys) (code : String) (state : Option String)
    (env : ExchangeEnv) (tokenData : TokenBody) (userData : UserData)
    (hcode : code ≠ "")
    (pass : (strTruthy s.authState.oauthState && state != s.authState.oauthState) = false)
    (htok : env.token = .resp true (.ok tokenData))
    (huser : env.userinfo = .resp true (.ok userData)) :
    ∃ l, (∀ e ∈ l, Effect.isUsage e = true) ∧
      exchangeAuthorizationCode s code state env
        = (((updateAuthStatus (saveAuthState
            { (s.emit (.fetch (.token code s.serverPort))).emit
                (.fetch (.userinfo tokenData.access_token)) with
              authState := committedState tokenData userData }
            env.savedAt env.writeFails)).addLog l).send "auth-success"
            (.success (.profile (mkProfile userData)) "Successfully authenticated with OAuth2!"),
          .ok (.profile (mkProfile userData), tokenData)) := by
  obtain ⟨l, hl, hu⟩ := fetchUsageInfoWithRetry_usage
    (updateAuthStatus (saveAuthState
      { (s.emit (.fetch (.token code s.serverPort))).emit
          (.fetch (.userinfo tokenData.access_token)) with
        authState := committedState tokenData userData }
      env.savedAt env.writeFails)) 3 1000 env.health env.usage
  refine ⟨l, hu, ?_⟩
  unfold exchangeAuthorizationCode
  rw [if_neg hcode, if_neg (by simp [pass])]
  simp only [htok, huser]
  have e : ({ (s.emit (.fetch (.token code s.serverPort))).emit
        (.fetch (.userinfo tokenData.access_token)) with
      authState :=
        { ((s.emit (.fetch (.token code s.serverPort))).emit
            (.fetch (.userinfo tokenData.access_token))).authState with
          isAuthenticated := .bool true
          sessionToken := tokenData.access_token
          user := .profile (mkProfile userData)
          refreshToken := tokenData.refresh_token
          tempToken := .null
          isAuthenticating := false
          oauthState := none } } : Sys)
      = { (s.emit (.fetch (.token code s.serverPort))).emit
          (.fetch (.userinfo tokenData.access_token)) with
        authState := committedState tokenData userData } := rfl
  rw [e, hl]
  simp [committedState]

/-- C15 (as amended): for every callback carrying a code and a state equal
to the pending CSRF state, if the token endpoint answers 2xx with a body
carrying `access_token` T and the userinfo endpoint answers 2xx with profile
U, then `exchangeAuthorizationCode` returns normally and the session is
signed in (`isAuthenticated` true, `sessionToken` = T, `isAuthenticating`
false, user built from U with `name` = U.name and `id` = U.id or else U.sub),
whatever the health probe and the usage fetch do.  The credential file
holds the record with `sessionToken` = T unless writing it fails, in which
case the file is left as it was; and one `auth-success` notification
carrying that user is sent when a main window is attached, none otherwise. -/
theorem exchange_signs_in (s : Sys) (code : String) (state : Option String)
    (env : ExchangeEnv) (tokenData : TokenBody) (userData : UserData)
    (hasCode : code ≠ "") (matching : state = s.authState.oauthState)
    (tokenOk : env.token = .resp true (.ok tokenData))
    (userOk : env.userinfo = .resp true (.ok userData)) :
    (exchangeAuthorizationCode s code state env).2
      = .ok (.profile (mkProfile userData), tokenData) ∧
    (exchangeAuthorizationCode s code state env).1.authState.isAuthenticated = .bool true ∧
    (exchangeAuthorizationCode s code state env).1.authState.sessionToken
      = tokenData.access_token ∧
    (exchangeAuthorizationCode s code state env).1.authState.isAuthenticating = false ∧
    (exchangeAuthorizationCode s code state env).1.authState.user
      = .profile (mkProfile userData) ∧
    (mkProfile userData).name = userData.name ∧
    (mkProfile userData).id = userData.id.or userData.sub ∧
    (exchangeAuthorizationCode s code state env).1.file
      = (if env.writeFails then s.file
          else some (.record (savedRecord (committedState tokenData userData) env.savedAt))) ∧
    (savedRecord (committedState tokenData userData) env.savedAt).sessionToken
      = tokenData.access_token ∧
    sentOn "auth-success" (effectsSince s (exchangeAuthorizationCode s code state env).1)
      = (if s.mainWindow then
          [.success (.profile (mkProfile userData)) "Successfully authenticated with OAuth2!"]
        else []) := by
  have pass : (strTruthy s.authState.oauthState && state != s.authState.oauthState) = false := by
    rw [matching]; simp
  obtain ⟨l, hu, e⟩ :=
    exchangeAuthorizationCode_success s code state env tokenData userData hasCode pass
      tokenOk userOk
  rw [e]
  have hs := sentOn_of_usage "auth-success" l (by decide) hu
  refine ⟨rfl, by simp [committedState], by simp [committedState], by simp [committedState],
    by simp [committedState], rfl, rfl, ?_, rfl, ?_⟩
  · simp only [send_file, addLog_file, updateAuthStatus_file, saveAuthState_eq]
    split <;> rfl
  · cases hw : env.writeFails
    · rw [effectsSince_of_log (l := _) (by
        simp only [send_log, addLog_log, updateAuthStatus_log, saveAuthState_eq,
          send_mainWindow, addLog_mainWindow, updateAuthStatus_mainWindow]
        simp
        rfl)]
      split_ifs <;> simp [sentOn, hs]
    · rw [effectsSince_of_log (l := _) (by
        simp only [send_log, addLog_log, updateAuthStatus_log, saveAuthState_eq,
          send_mainWindow, addLog_mainWindow, updateAuthStatus_mainWindow]
        simp
        rfl)]
      split_ifs <;> simp [sentOn, hs]

/-- The scenario `?code=abc123&state=s1` with access token "T1" and the
userinfo body `annData`, a main window being attached. -/
theorem exchange_signs_in_witness :
    "abc123" ≠ "" ∧ some "s1" = waitingWithWindow.authState.oauthState ∧
    (exchangeOk (.str "T1")).token = .resp true (.ok (tokenBody (.str "T1") .undefined)) ∧
    (exchangeOk (.str "T1")).userinfo = .resp true (.ok annData) ∧
    ((exchangeAuthorizationCode waitingWithWindow "abc123" (some "s1") (exchangeOk (.str "T1"))).2
        = .ok (.profile (mkProfile annData), tokenBody (.str "T1") .undefined) ∧
      (exchangeAuthorizationCode waitingWithWindow "abc123" (some "s1")
        (exchangeOk (.str "T1"))).1.authState.isAuthenticated = .bool true ∧
      (exchangeAuthorizationCode waitingWithWindow "abc123" (some "s1")
        (exchangeOk (.str "T1"))).1.authState.sessionToken
        = (tokenBody (.str "T1") .undefined).access_token ∧
      (exchangeAuthorizationCode waitingWithWindow "abc123" (some "s1")
        (exchangeOk (.str "T1"))).1.authState.isAuthenticating = false ∧
      (exchangeAuthorizationCode waitingWithWindow "abc123" (some "s1")
        (exchangeOk (.str "T1"))).1.authState.user = .profile (mkProfile annData) ∧
      (mkProfile annData).name = annData.name ∧
      (mkProfile annData).id = annData.id.or annData.sub ∧
      (exchangeAuthorizationCode waitingWithWindow "abc123" (some "s1")
        (exchangeOk (.str "T1"))).1.file
        = (if (exchangeOk (.str "T1")).writeFails then waitingWithWindow.file
            else some (.record (savedRecord
              (committedState (tokenBody (.str "T1") .undefined) annData)
              (exchangeOk (.str "T1")).savedAt))) ∧
      (savedRecord (committedState (tokenBody (.str "T1") .undefined) annData)
        (exchangeOk (.str "T1")).savedAt).sessionToken
        = (tokenBody (.str "T1") .undefined).access_token ∧
      sentOn "auth-success" (effectsSince waitingWithWindow
          (exchangeAuthorizationCode waitingWithWindow "abc123" (some "s1")
            (exchangeOk (.str "T1"))).1)
        = (if waitingWithWindow.mainWindow then
            [.success (.profile (mkProfile annData)) "Successfully authenticated with OAuth2!"]
          else [])) ∧
    (mkProfile annData).name = .str "Ann" ∧ (mkProfile annData).id = .str "u1" :=
  ⟨by decide, by decide, rfl, rfl,
    exchange_signs_in waitingWithWindow "abc123" (some "s1") (exchangeOk (.str "T1"))
      (tokenBody (.str "T1") .undefined) annData (by decide) (by decide) rfl rfl,
    by decide, by decide⟩

/-- C15 (counterexample): when writing the credential file fails the session
is signed in all the same and no credential is persisted; and with no main
window attached the successful exchange sends no `auth-success`. -/
theorem exchange_signs_in_without_credential :
    (exchangeAuthorizationCode waitingWithWindow "abc123" (some "s1")
      (exchangeNoWrite (.str "T1"))).1.authState.isAuthenticated = .bool true ∧
    (exchangeAuthorizationCode waitingWithWindow "abc123" (some "s1")
      (exchangeNoWrite (.str "T1"))).1.file = none ∧
    writes (effectsSince waitingWithWindow
      (exchangeAuthorizationCode waitingWithWindow "abc123" (some "s1")
        (exchangeNoWrite (.str "T1"))).1) = [] ∧
    (exchangeAuthorizationCode waiting "abc123" (some "s1")
      (exchangeOk (.str "T1"))).1.authState.isAuthenticated = .bool true ∧
    sentOn "auth-success" (effectsSince waiting
      (exchangeAuthorizationCode waiting "abc123" (some "s1") (exchangeOk (.str "T1"))).1)
      = [] := by
  decide

/-! ## Effects of the code exchange and of the callback handler -/

/-- The effects of a run of `exchangeAuthorizationCode`: nothing is written
to the browser; when the code is non-empty and the CSRF check passes, the
first effect is the token request for that code. -/
theorem exchangeAuthorizationCode_log (s : Sys) (code : String) (state : Option String)
    (env : ExchangeEnv) :
    ∃ l, (exchangeAuthorizationCode s code state env).1.log = s.log ++ l ∧
      responses l = [] ∧
      (code ≠ "" →
        (strTruthy s.authState.oauthState && state != s.authState.oauthState) = false →
        ∃ rest, l = .fetch (.token code s.serverPort) :: rest) := by
  by_cases hcode : code = ""
  · refine ⟨[], ?_, rfl, fun h => absurd hcode h⟩
    unfold exchangeAuthorizationCode
    simp [hcode]
  · by_cases pass : (strTruthy s.authState.oauthState && state != s.authState.oauthState) = true
    · refine ⟨(if s.mainWindow then
          [.send "auth-status-updated" (.status s.authState.isAuthenticated s.authState.user
            false none)] else []), ?_, ?_, ?_⟩
      · unfold exchangeAuthorizationCode
        rw [if_neg hcode, if_pos pass]
        exact exchangeFailed_log s _
      · split_ifs <;> simp [responses]
      · intro _ h
        rw [pass] at h
        exact absurd h (by simp)
    · have pass' : (strTruthy s.authState.oauthState && state != s.authState.oauthState)
          = false := by simpa using pass
      have failed : ∀ (extra : List Effect) (msg : String), responses extra = [] →
          ∃ l, (exchangeFailed ((s.emit (.fetch (.token code s.serverPort))).addLog extra)
              msg).1.log = s.log ++ l ∧ responses l = [] ∧
            (code ≠ "" →
              (strTruthy s.authState.oauthState && state != s.authState.oauthState) = false →
              ∃ rest, l = .fetch (.token code s.serverPort) :: rest) := by
        intro extra msg hextra
        refine ⟨_, by rw [exchangeFailed_log]; simp; rfl, ?_, fun _ _ => ⟨_, rfl⟩⟩
        split_ifs <;> simp [responses, hextra]
      cases htok : env.token with
      | throws msg =>
        unfold exchangeAuthorizationCode
        rw [if_neg hcode, if_neg pass]
        simp only [htok]
        simpa using failed [] msg rfl
      | resp ok body =>
        cases ok with
        | false =>
          cases body with
          | error msg =>
            unfold exchangeAuthorizationCode
            rw [if_neg hcode, if_neg pass]
            simp only [htok]
            simpa using failed [] msg rfl
          | ok errorData =>
            unfold exchangeAuthorizationCode
            rw [if_neg hcode, if_neg pass]
            simp only [htok]
            simpa using failed [] _ rfl
        | true =>
          cases body with
          | error msg =>
            unfold exchangeAuthorizationCode
            rw [if_neg hcode, if_neg pass]
            simp only [htok]
            simpa using failed [] msg rfl
          | ok tokenData =>
            cases huser : env.userinfo with
            | throws msg =>
              unfold exchangeAuthorizationCode
              rw [if_neg hcode, if_neg pass]
              simp only [htok, huser]
              simpa [emit_eq] using
                failed [.fetch (.userinfo tokenData.access_token)] msg (by simp [responses])
            | resp uok ubody =>
              cases uok with
              | false =>
                cases ubody with
                | error msg =>
                  unfold exchangeAuthorizationCode
                  rw [if_neg hcode, if_neg pass]
                  simp only [htok, huser]
                  simpa [emit_eq] using
                    failed [.fetch (.userinfo tokenData.access_token)] msg (by simp [responses])
                | ok errorData =>
                  unfold exchangeAuthorizationCode
                  rw [if_neg hcode, if_neg pass]
                  simp only [htok, huser]
                  simpa [emit_eq] using
                    failed [.fetch (.userinfo tokenData.access_token)]
                      "Failed to get user information" (by simp [responses])
              | true =>
                cases ubody with
                | error msg =>
                  unfold exchangeAuthorizationCode
                  rw [if_neg hcode, if_neg pass]
                  simp only [htok, huser]
                  simpa [emit_eq] using
                    failed [.fetch (.userinfo tokenData.access_token)] msg (by simp [responses])
                | ok userData =>
                  obtain ⟨l, hu, e⟩ := exchangeAuthorizationCode_success s code state env
                    tokenData userData hcode pass' htok huser
                  rw [e]
                  have hr := responses_of_usage l hu
                  cases hw : env.writeFails
                  · refine ⟨_, by
                      simp only [send_log, addLog_log, updateAuthStatus_log, saveAuthState_eq, hw]
                      simp
                      rfl, ?_, fun _ _ => ⟨_, rfl⟩⟩
                    split_ifs <;> simp [responses, hr]
                  · refine ⟨_, by
                      simp only [send_log, addLog_log, updateAuthStatus_log, saveAuthState_eq, hw]
                      simp
                      rfl, ?_, fun _ _ => ⟨_, rfl⟩⟩
                    split_ifs <;> simp [responses, hr]

theorem exchangeAuthorizationCode_mainWindow (s : Sys) (code : String) (state : Option String)
    (env : ExchangeEnv) :
    (exchangeAuthorizationCode s code state env).1.mainWindow = s.mainWindow := by
  unfold exchangeAuthorizationCode
  split
  · rfl
  · split
    · simp [exchangeFailed]
    · simp only []
      split
      · simp [exchangeFailed]
      · simp [exchangeFailed]
      · simp [exchangeFailed]
      · simp [exchangeFailed]
      · split
        · simp [exchangeFailed]
        · simp [exchangeFailed]
        · simp [exchangeFailed]
        · simp [exchangeFailed]
        · simp

/-- The handler on a callback that carries a non-empty code and no
non-empty error: the success page is written, the shutdown timer is armed,
and the exchange is run; afterwards no CSRF state is pending. -/
theorem handleServerCallback_code (s : Sys) (query : List (String × String))
    (env : ExchangeEnv)
    (noError : strTruthy (searchGet query "error") = false)
    (hasCode : strTruthy (searchGet query "code") = true) :
    (∃ l, (handleServerCallback s (some query) env).log
        = s.log ++ (.respond 200 .successful :: .setTimeout 5000 .shutdown :: l) ∧
      responses l = [] ∧
      ((strTruthy s.authState.oauthState && searchGet query "state" != s.authState.oauthState)
          = false →
        ∃ rest, l = .fetch (.token ((searchGet query "code").getD "") s.serverPort) :: rest)) ∧
    (handleServerCallback s (some query) env).authState.oauthState = none ∧
    (handleServerCallback s (some query) env).serverPort = s.serverPort := by
  have hne := strTruthy_getD hasCode
  obtain ⟨l, hl, hr, hfirst⟩ := exchangeAuthorizationCode_log
    ((s.emit (.respond 200 .successful)).setTimeout 5000 .shutdown)
    ((searchGet query "code").getD "") (searchGet query "state") env
  have hsrv := exchangeAuthorizationCode_server
    ((s.emit (.respond 200 .successful)).setTimeout 5000 .shutdown)
    ((searchGet query "code").getD "") (searchGet query "state") env
  have hauth : (exchangeAuthorizationCode
      ((s.emit (.respond 200 .successful)).setTimeout 5000 .shutdown)
      ((searchGet query "code").getD "") (searchGet query "state") env).1.authState.oauthState
      = none := by
    rcases exchangeAuthorizationCode_authState
      ((s.emit (.respond 200 .successful)).setTimeout 5000 .shutdown)
      ((searchGet query "code").getD "") (searchGet query "state") env
      with e | e | ⟨_, _, _, _, e⟩
    · exact absurd e.1 hne
    · rw [e]
    · rw [e]
  unfold handleServerCallback
  simp only [noError, hasCode, Bool.false_eq_true, if_false, if_true]
  split
  · refine ⟨⟨l, by rw [hl]; simp, hr, fun pass => ?_⟩, hauth, by rw [hsrv.2]; rfl⟩
    exact hfirst hne (by simpa using pass)
  · rename_i msg _
    refine ⟨⟨l ++ (if s.mainWindow then [.send "auth-error" (.text msg)] else []), ?_, ?_,
      fun pass => ?_⟩, by simpa using hauth, by rw [send_serverPort, hsrv.2]; rfl⟩
    · rw [send_log, hl]
      simp [exchangeAuthorizationCode_mainWindow]
    · rw [responses_append, hr]
      split_ifs <;> simp [responses]
    · obtain ⟨rest, e⟩ := hfirst hne (by simpa using pass)
      exact ⟨rest ++ (if s.mainWindow then [.send "auth-error" (.text msg)] else []),
        by rw [e]; rfl⟩

theorem head_fetches_of_log {s t : Sys} {l : List Effect} {req : Request}
    (h : t.log = s.log ++ (.respond 200 .successful :: .setTimeout 5000 .shutdown ::
      .fetch req :: l)) :
    (fetches (effectsSince s t)).head? = some req := by
  rw [effectsSince_of_log h]
  simp [fetches]

theorem exchangeAuthorizationCode_eq_sync_resume (s : Sys) (code : String)
    (state : Option String) (env : ExchangeEnv) :
    exchangeAuthorizationCode s code state env
      = match exchangeAuthorizationCodeSync s code state with
        | (s1, .error msg) => (s1, .error msg)
        | (s1, .ok _) => exchangeAuthorizationCodeResume s1 env := by
  unfold exchangeAuthorizationCode exchangeAuthorizationCodeSync exchangeAuthorizationCodeResume
  split_ifs <;> rfl

theorem handleServerCallbackSync_pass (s : Sys) (query : List (String × String))
    (noError : strTruthy (searchGet query "error") = false)
    (hasCode : strTruthy (searchGet query "code") = true)
    (pass : csrfPasses s (searchGet query "state") = true) :
    handleServerCallbackSync s (some query)
      = (((s.emit (.respond 200 .successful)).emit
            (.fetch (.token ((searchGet query "code").getD "") s.serverPort))).setTimeout
          5000 .shutdown, true) := by
  have hne := strTruthy_getD hasCode
  have hp : (strTruthy s.authState.oauthState
      && searchGet query "state" != s.authState.oauthState) = false :=
    (Bool.not_eq_true' _).mp pass
  unfold handleServerCallbackSync exchangeAuthorizationCodeSync
  simp only [noError, hasCode, emit_authState, hp, if_neg hne]
  rfl

theorem handleServerCallbackSync_reject (s : Sys) (query : List (String × String))
    (noError : strTruthy (searchGet query "error") = false)
    (hasCode : strTruthy (searchGet query "code") = true)
    (fail : csrfPasses s (searchGet query "state") = false) :
    handleServerCallbackSync s (some query)
      = (((updateAuthStatus
            { s.emit (.respond 200 .successful) with
              authState := { s.authState with isAuthenticating := false, oauthState := none } }
          ).setTimeout 5000 .shutdown).send "auth-error"
            (.text "Invalid state parameter - potential CSRF attack"), false) := by
  have hne := strTruthy_getD hasCode
  have hp : (strTruthy s.authState.oauthState
      && searchGet query "state" != s.authState.oauthState) = true :=
    (Bool.not_eq_false' _).mp fail
  unfold handleServerCallbackSync exchangeAuthorizationCodeSync
  simp only [noError, hasCode, emit_authState, hp, if_neg hne]
  rfl

theorem handleServerCallbackSync_code (s : Sys) (query : List (String × String))
    (noError : strTruthy (searchGet query "error") = false)
    (hasCode : strTruthy (searchGet query "code") = true) :
    responses (effectsSince s (handleServerCallbackSync s (some query)).1)
      = [(200, .successful)] ∧
    fetches (effectsSince s (handleServerCallbackSync s (some query)).1)
      = (if csrfPasses s (searchGet query "state") then
          [.token ((searchGet query "code").getD "") s.serverPort]
        else []) ∧
    (handleServerCallbackSync s (some query)).1.serverPort = s.serverPort ∧
    (csrfPasses s (searchGet query "state") = true →
      (handleServerCallbackSync s (some query)).1.authState = s.authState) ∧
    (csrfPasses s (searchGet query "state") = false →
      (handleServerCallbackSync s (some query)).1.authState.oauthState = none) := by
  cases hp : csrfPasses s (searchGet query "state")
  · rw [handleServerCallbackSync_reject s query noError hasCode hp]
    refine ⟨?_, ?_, ?_, ?_, ?_⟩
    · rw [effectsSince_of_log (l := _) (by simp; rfl)]
      split_ifs <;> simp [responses]
    · rw [effectsSince_of_log (l := _) (by simp; rfl)]
      split_ifs <;> simp_all [fetches]
    · simp
    · intro h
      exact absurd h (by decide)
    · intro _
      simp
  · rw [handleServerCallbackSync_pass s query noError hasCode hp]
    refine ⟨?_, ?_, ?_, ?_, ?_⟩
    · rw [effectsSince_of_log (l := _) (by simp; rfl)]
      simp [responses]
    · rw [effectsSince_of_log (l := _) (by simp; rfl)]
      simp [fetches]
    · simp
    · intro _
      simp
    · intro h
      exact absurd h (by decide)

theorem csrfPasses_congr {s t : Sys} (h : t.authState = s.authState) (state : Option String) :
    csrfPasses t state = csrfPasses s state := by
  unfold csrfPasses
  rw [h]

theorem csrfPasses_of_none {t : Sys} (h : t.authState.oauthState = none)
    (state : Option String) : csrfPasses t state = true := by
  unfold csrfPasses
  rw [h]
  rfl

/-- C16 (as amended): for every two callback requests carrying a non-empty
code (and no non-empty error) that reach the same server, each is answered
with status 200 and the success page and each calls
`exchangeAuthorizationCode`: the handler keeps no record of an earlier
request.  A request's code is sent to the token endpoint exactly when the
CSRF check passes in the state in which the request is handled.  So a second
request handled while the exchange of the first is still waiting for the
token endpoint is exchanged when its `state` passes the same check
(otherwise it is rejected and sends no request); a second request handled
after the first was rejected, or after the exchange of the first has run to
its end, finds the pending CSRF state cleared and is exchanged whatever its
`state` is. -/
theorem second_callback_is_exchanged (s : Sys) (query1 query2 : List (String × String))
    (env1 env2 : ExchangeEnv)
    (noError1 : strTruthy (searchGet query1 "error") = false)
    (hasCode1 : strTruthy (searchGet query1 "code") = true)
    (noError2 : strTruthy (searchGet query2 "error") = false)
    (hasCode2 : strTruthy (searchGet query2 "code") = true) :
    responses (effectsSince s (handleServerCallbackSync s (some query1)).1)
      = [(200, .successful)] ∧
    fetches (effectsSince s (handleServerCallbackSync s (some query1)).1)
      = (if csrfPasses s (searchGet query1 "state") then
          [.token ((searchGet query1 "code").getD "") s.serverPort]
        else []) ∧
    responses (effectsSince (handleServerCallbackSync s (some query1)).1
        (handleServerCallbackSync (handleServerCallbackSync s (some query1)).1
          (some query2)).1)
      = [(200, .successful)] ∧
    fetches (effectsSince (handleServerCallbackSync s (some query1)).1
        (handleServerCallbackSync (handleServerCallbackSync s (some query1)).1
          (some query2)).1)
      = (if csrfPasses s (searchGet query1 "state") then
          (if csrfPasses s (searchGet query2 "state") then
            [.token ((searchGet query2 "code").getD "") s.serverPort]
          else [])
        else [.token ((searchGet query2 "code").getD "") s.serverPort]) ∧
    responses (effectsSince s (handleServerCallback s (some query1) env1))
      = [(200, .successful)] ∧
    responses (effectsSince (handleServerCallback s (some query1) env1)
        (handleServerCallback (handleServerCallback s (some query1) env1) (some query2) env2))
      = [(200, .successful)] ∧
    ((strTruthy s.authState.oauthState && searchGet query1 "state" != s.authState.oauthState)
        = false →
      (fetches (effectsSince s (handleServerCallback s (some query1) env1))).head?
        = some (.token ((searchGet query1 "code").getD "") s.serverPort)) ∧
    (fetches (effectsSince (handleServerCallback s (some query1) env1)
        (handleServerCallback (handleServerCallback s (some query1) env1)
          (some query2) env2))).head?
      = some (.token ((searchGet query2 "code").getD "") s.serverPort) := by
  obtain ⟨hr1, hf1, hport1, hsame1, hcleared1⟩ :=
    handleServerCallbackSync_code s query1 noError1 hasCode1
  obtain ⟨hr2, hf2, _, _, _⟩ :=
    handleServerCallbackSync_code (handleServerCallbackSync s (some query1)).1 query2
      noError2 hasCode2
  obtain ⟨⟨l1, hl1, hr1a, hf1a⟩, hstate, hport⟩ :=
    handleServerCallback_code s query1 env1 noError1 hasCode1
  obtain ⟨⟨l2, hl2, hr2a, hf2a⟩, _, _⟩ :=
    handleServerCallback_code (handleServerCallback s (some query1) env1) query2 env2
      noError2 hasCode2
  refine ⟨hr1, hf1, hr2, ?_, ?_, ?_, ?_, ?_⟩
  · rw [hf2, hport1]
    cases hp : csrfPasses s (searchGet query1 "state")
    · rw [csrfPasses_of_none (hcleared1 hp)]
      simp
    · rw [csrfPasses_congr (hsame1 hp)]
      simp
  · rw [effectsSince_of_log hl1]
    simp [responses, hr1a]
  · rw [effectsSince_of_log hl2]
    simp [responses, hr2a]
  · intro pass
    obtain ⟨rest, e⟩ := hf1a pass
    rw [e] at hl1
    exact head_fetches_of_log hl1
  · obtain ⟨rest, e⟩ := hf2a (by rw [hstate]; rfl)
    rw [e, hport] at hl2
    exact head_fetches_of_log hl2

/-- The same callback delivered twice to the waiting attempt.  Handled while
the first exchange is in flight, the second request sends a second token
request; handled after the first exchange was refused by the token endpoint,
it sends one too. -/
theorem second_callback_is_exchanged_witness :
    strTruthy (searchGet (codeQuery "abc" "s1") "error") = false ∧
    strTruthy (searchGet (codeQuery "abc" "s1") "code") = true ∧
    csrfPasses waiting (searchGet (codeQuery "abc" "s1") "state") = true ∧
    fetches (effectsSince waiting
        (handleServerCallbackSync (handleServerCallbackSync waiting
          (some (codeQuery "abc" "s1"))).1 (some (codeQuery "abc" "s1"))).1)
      = [.token "abc" (some 8000), .token "abc" (some 8000)] ∧
    fetches (effectsSince waiting
        (handleServerCallbackSync (handleServerCallbackSync waiting
          (some (codeQuery "abc" "s1"))).1 (some (codeQuery "abc" "s2"))).1)
      = [.token "abc" (some 8000)] ∧
    responses (effectsSince waiting
        (handleServerCallbackSync waiting (some (codeQuery "abc" "s1"))).1)
      = [(200, .successful)] ∧
    fetches (effectsSince waiting
        (handleServerCallbackSync waiting (some (codeQuery "abc" "s1"))).1)
      = (if csrfPasses waiting (searchGet (codeQuery "abc" "s1") "state") then
          [.token ((searchGet (codeQuery "abc" "s1") "code").getD "") waiting.serverPort]
        else []) ∧
    responses (effectsSince (handleServerCallbackSync waiting (some (codeQuery "abc" "s1"))).1
        (handleServerCallbackSync (handleServerCallbackSync waiting
          (some (codeQuery "abc" "s1"))).1 (some (codeQuery "abc" "s1"))).1)
      = [(200, .successful)] ∧
    fetches (effectsSince (handleServerCallbackSync waiting (some (codeQuery "abc" "s1"))).1
        (handleServerCallbackSync (handleServerCallbackSync waiting
          (some (codeQuery "abc" "s1"))).1 (some (codeQuery "abc" "s1"))).1)
      = (if csrfPasses waiting (searchGet (codeQuery "abc" "s1") "state") then
          (if csrfPasses waiting (searchGet (codeQuery "abc" "s1") "state") then
            [.token ((searchGet (codeQuery "abc" "s1") "code").getD "") waiting.serverPort]
          else [])
        else [.token ((searchGet (codeQuery "abc" "s1") "code").getD "")
          waiting.serverPort]) ∧
    responses (effectsSince waiting
        (handleServerCallback waiting (some (codeQuery "abc" "s1")) exchangeDenied))
      = [(200, .successful)] ∧
    responses (effectsSince
        (handleServerCallback waiting (some (codeQuery "abc" "s1")) exchangeDenied)
        (handleServerCallback
          (handleServerCallback waiting (some (codeQuery "abc" "s1")) exchangeDenied)
          (some (codeQuery "abc" "s1")) (exchangeOk (.str "T1"))))
      = [(200, .successful)] ∧
    ((strTruthy waiting.authState.oauthState
          && searchGet (codeQuery "abc" "s1") "state" != waiting.authState.oauthState) = false →
      (fetches (effectsSince waiting
          (handleServerCallback waiting (some (codeQuery "abc" "s1")) exchangeDenied))).head?
        = some (.token ((searchGet (codeQuery "abc" "s1") "code").getD "")
            waiting.serverPort)) ∧
    (fetches (effectsSince
        (handleServerCallback waiting (some (codeQuery "abc" "s1")) exchangeDenied)
        (handleServerCallback
          (handleServerCallback waiting (some (codeQuery "abc" "s1")) exchangeDenied)
          (some (codeQuery "abc" "s1")) (exchangeOk (.str "T1"))))).head?
      = some (.token ((searchGet (codeQuery "abc" "s1") "code").getD "") waiting.serverPort) :=
  ⟨by decide, by decide, by decide, by decide, by decide,
    second_callback_is_exchanged waiting (codeQuery "abc" "s1") (codeQuery "abc" "s1")
      exchangeDenied (exchangeOk (.str "T1")) (by decide) (by decide) (by decide) (by decide)⟩

/-- C16 (counterexample): two callback requests carrying the same code reach
the server of the waiting attempt before it stops; both are answered, and
the exchange is run for each of them.  When the second request is handled
while the first exchange is still in flight, two token requests are pending
at once; when it is handled after the token endpoint has refused the first
exchange, two token requests are sent and it is the second one that signs
the session in. -/
theorem second_callback_triggers_second_exchange :
    fetches (effectsSince waiting
        (handleServerCallbackSync (handleServerCallbackSync waiting
          (some (codeQuery "abc" "s1"))).1 (some (codeQuery "abc" "s1"))).1)
      = [.token "abc" (some 8000), .token "abc" (some 8000)] ∧
    responses (effectsSince waiting
        (handleServerCallbackSync (handleServerCallbackSync waiting
          (some (codeQuery "abc" "s1"))).1 (some (codeQuery "abc" "s1"))).1)
      = [(200, .successful), (200, .successful)] ∧
    (run waiting [Event.callback (some (codeQuery "abc" "s1")) exchangeDenied]).servers ≠ [] ∧
    responses (effectsSince waiting
        (run waiting [Event.callback (some (codeQuery "abc" "s1")) exchangeDenied,
          Event.callback (some (codeQuery "abc" "s1")) (exchangeOk (.str "T1"))]))
      = [(200, .successful), (200, .successful)] ∧
    fetches (effectsSince waiting
        (run waiting [Event.callback (some (codeQuery "abc" "s1")) exchangeDenied,
          Event.callback (some (codeQuery "abc" "s1")) (exchangeOk (.str "T1"))]))
      = [.token "abc" (some 8000), .token "abc" (some 8000), .userinfo (.str "T1"), .health] ∧
    (run waiting [Event.callback (some (codeQuery "abc" "s1")) exchangeDenied]
      ).authState.isAuthenticated = .bool false ∧
    (run waiting [Event.callback (some (codeQuery "abc" "s1")) exchangeDenied,
        Event.callback (some (codeQuery "abc" "s1")) (exchangeOk (.str "T1"))]
      ).authState.isAuthenticated = .bool true := by
  decide

/-- C17 (as amended): for every callback request whose URL parses,
`handleServerCallback` writes exactly one response, with status 200, whose
page is chosen by the truthiness of the parsed parameters: the failure page
when `error` is present and non-empty (even if a code is present too, and
then no request is sent, so no exchange is attempted), the success page when
`error` is absent or empty and `code` is present and non-empty, and the
malformed page otherwise.  A parameter absent from the query reads as null.
The only response with status 500 is the one written when parsing the URL
throws. -/
theorem callback_page_by_query (s : Sys) (query : List (String × String))
    (env : ExchangeEnv) :
    (strTruthy (searchGet query "error") = true →
      responses (effectsSince s (handleServerCallback s (some query) env))
        = [(200, .failed ((searchGet query "error").getD "")
            (if strTruthy (searchGet query "error_description") then
              searchGet query "error_description" else none))] ∧
      fetches (effectsSince s (handleServerCallback s (some query) env)) = []) ∧
    (strTruthy (searchGet query "error") = false →
      strTruthy (searchGet query "code") = true →
      responses (effectsSince s (handleServerCallback s (some query) env))
        = [(200, .successful)]) ∧
    (strTruthy (searchGet query "error") = false →
      strTruthy (searchGet query "code") = false →
      responses (effectsSince s (handleServerCallback s (some query) env))
        = [(200, .noCode)] ∧
      fetches (effectsSince s (handleServerCallback s (some query) env)) = []) ∧
    (∀ name, searchGet [] name = none) ∧
    responses (effectsSince s (handleServerCallback s none env)) = [(500, .serverError)] := by
  refine ⟨?_, ?_, ?_, fun _ => rfl, ?_⟩
  · intro present
    rw [handleServerCallback_error s query env present]
    rw [effectsSince_of_log (l := _) (by simp; rfl)]
    constructor
    · split_ifs <;> simp [responses]
    · split_ifs <;> simp [fetches]
  · intro noError hasCode
    obtain ⟨⟨l, hl, hr, _⟩, _, _⟩ := handleServerCallback_code s query env noError hasCode
    rw [effectsSince_of_log hl]
    simp [responses, hr]
  · intro noError noCode
    have e : handleServerCallback s (some query) env
        = (((s.emit (.respond 200 .noCode)).send "auth-error"
            (.text "No authorization code received")).setTimeout 5000 .shutdown) := by
      unfold handleServerCallback
      simp [noError, noCode]
    rw [e, effectsSince_of_log (l := _) (by simp; rfl)]
    constructor
    · split_ifs <;> simp [responses]
    · split_ifs <;> simp [fetches]
  · have e : (handleServerCallback s none env).log
        = s.log ++ ([.respond 500 .serverError]
          ++ (if s.mainWindow then
              [.send "auth-error" (.text "Server error processing authentication")] else [])
          ++ (match s.localServer with
              | none => []
              | some srv => [.close srv])) := by
      unfold handleServerCallback stopLocalServer
      cases hl : s.localServer <;> simp [hl]
    rw [effectsSince_of_log e]
    cases s.localServer <;> split_ifs <;> simp [responses]

/-- The three pages at the waiting attempt: a declined provider redirect, a
code callback, and the bare `/callback`. -/
theorem callback_page_by_query_witness :
    strTruthy (searchGet declinedQuery "error") = true ∧
    (responses (effectsSince waiting
        (handleServerCallback waiting (some declinedQuery) (exchangeOk (.str "T1"))))
        = [(200, .failed ((searchGet declinedQuery "error").getD "")
            (if strTruthy (searchGet declinedQuery "error_description") then
              searchGet declinedQuery "error_description" else none))] ∧
      fetches (effectsSince waiting
        (handleServerCallback waiting (some declinedQuery) (exchangeOk (.str "T1")))) = []) ∧
    strTruthy (searchGet (codeQuery "abc" "s1") "error") = false ∧
    strTruthy (searchGet (codeQuery "abc" "s1") "code") = true ∧
    responses (effectsSince waiting
        (handleServerCallback waiting (some (codeQuery "abc" "s1")) (exchangeOk (.str "T1"))))
      = [(200, .successful)] ∧
    strTruthy (searchGet [] "error") = false ∧
    strTruthy (searchGet [] "code") = false ∧
    (responses (effectsSince waiting
        (handleServerCallback waiting (some []) (exchangeOk (.str "T1"))))
        = [(200, .noCode)] ∧
      fetches (effectsSince waiting
        (handleServerCallback waiting (some []) (exchangeOk (.str "T1")))) = []) ∧
    responses (effectsSince waiting (handleServerCallback waiting none (exchangeOk (.str "T1"))))
      = [(500, .serverError)] :=
  ⟨by decide,
    (callback_page_by_query waiting declinedQuery (exchangeOk (.str "T1"))).1 (by decide),
    by decide, by decide,
    (callback_page_by_query waiting (codeQuery "abc" "s1") (exchangeOk (.str "T1"))).2.1
      (by decide) (by decide),
    by decide, by decide,
    (callback_page_by_query waiting [] (exchangeOk (.str "T1"))).2.2.1 (by decide) (by decide),
    (callback_page_by_query waiting [] (exchangeOk (.str "T1"))).2.2.2.2⟩

/-- C17 (counterexample): a request carrying an empty `error` parameter and
a code gets the success page and its code is exchanged; a request carrying
only an empty `code` parameter gets the malformed page. -/
theorem callback_page_with_empty_parameter :
    searchGet [("error", ""), ("code", "abc"), ("state", "s1")] "error" = some "" ∧
    responses (effectsSince waiting
        (handleServerCallback waiting (some [("error", ""), ("code", "abc"), ("state", "s1")])
          (exchangeOk (.str "T1"))))
      = [(200, .successful)] ∧
    fetches (effectsSince waiting
        (handleServerCallback waiting (some [("error", ""), ("code", "abc"), ("state", "s1")])
          (exchangeOk (.str "T1"))))
      = [.token "abc" (some 8000), .userinfo (.str "T1"), .health] ∧
    searchGet [("code", "")] "code" = some "" ∧
    searchGet [("code", "")] "error" = none ∧
    responses (effectsSince waiting
        (handleServerCallback waiting (some [("code", "")]) (exchangeOk (.str "T1"))))
      = [(200, .noCode)] := by
  decide

/-! ## Stopping the callback server -/

/-- C18: `stopLocalServer` is idempotent: calling it twice gives the state
that one call gives; after a call `localServer` is null, and so is
`serverPort` in every state reached by the operations (and in every state
that records a port only while a server is referenced); a call made when no
server is referenced changes nothing and closes nothing; a call made when a
server is referenced closes exactly that server, which is then no longer
listening. -/
theorem stopLocalServer_idempotent (s : Sys) (file : Option FileContent)
    (events : List Event) :
    stopLocalServer (stopLocalServer s) = stopLocalServer s ∧
    (stopLocalServer s).localServer = none ∧
    (PortInv s → (stopLocalServer s).serverPort = none) ∧
    (stopLocalServer (run (init file) events)).serverPort = none ∧
    (s.localServer = none → stopLocalServer s = s) ∧
    (∀ srv, s.localServer = some srv →
      effectsSince s (stopLocalServer s) = [.close srv] ∧
      srv ∉ (stopLocalServer s).servers) := by
  refine ⟨?_, stopLocalServer_localServer s, stopLocalServer_serverPort s,
    stopLocalServer_serverPort _ (portInv_run events (init file) (fun _ => rfl)), ?_, ?_⟩
  · have h := stopLocalServer_localServer s
    generalize stopLocalServer s = t at h
    unfold stopLocalServer
    simp [h]
  · intro h
    unfold stopLocalServer
    simp [h]
  · intro srv h
    unfold stopLocalServer
    simp [h, effectsSince]

/-- A call while the waiting attempt references its server, and a call in
the initial state. -/
theorem stopLocalServer_idempotent_witness :
    PortInv waiting ∧ waiting.localServer = some 0 ∧ (init none).localServer = none ∧
    stopLocalServer (stopLocalServer waiting) = stopLocalServer waiting ∧
    (stopLocalServer waiting).localServer = none ∧
    (stopLocalServer waiting).serverPort = none ∧
    stopLocalServer (init none) = init none ∧
    (effectsSince waiting (stopLocalServer waiting) = [.close 0] ∧
      0 ∉ (stopLocalServer waiting).servers) :=
  have inv : PortInv waiting := fun h => absurd h (by decide)
  ⟨inv, by decide, by decide,
    (stopLocalServer_idempotent waiting none []).1,
    (stopLocalServer_idempotent waiting none []).2.1,
    (stopLocalServer_idempotent waiting none []).2.2.1 inv,
    (stopLocalServer_idempotent (init none) none []).2.2.2.2.1 (by decide),
    (stopLocalServer_idempotent waiting none []).2.2.2.2.2 0 (by decide)⟩

/-! ## Failing exchanges -/

theorem exchange_token_refused (s : Sys) (code : String) (state : Option String)
    (env : ExchangeEnv) (errorData : TokenBody) (hcode : code ≠ "")
    (pass : (strTruthy s.authState.oauthState && state != s.authState.oauthState) = false)
    (htok : env.token = .resp false (.ok errorData)) :
    exchangeAuthorizationCode s code state env
      = exchangeFailed (s.emit (.fetch (.token code s.serverPort)))
          ((errorData.error_description.or errorData.error).or
            (.str "Token exchange failed")).toMessage := by
  unfold exchangeAuthorizationCode
  rw [if_neg hcode, if_neg (by simp [pass])]
  simp only [htok]

theorem exchange_userinfo_refused (s : Sys) (code : String) (state : Option String)
    (env : ExchangeEnv) (tokenData : TokenBody) (errorData : UserData)
    (hcode : code ≠ "")
    (pass : (strTruthy s.authState.oauthState && state != s.authState.oauthState) = false)
    (htok : env.token = .resp true (.ok tokenData))
    (huser : env.userinfo = .resp false (.ok errorData)) :
    exchangeAuthorizationCode s code state env
      = exchangeFailed ((s.emit (.fetch (.token code s.serverPort))).emit
            (.fetch (.userinfo tokenData.access_token)))
          "Failed to get user information" := by
  unfold exchangeAuthorizationCode
  rw [if_neg hcode, if_neg (by simp [pass])]
  simp only [htok, huser]

theorem exchange_userinfo_unparsed (s : Sys) (code : String) (state : Option String)
    (env : ExchangeEnv) (tokenData : TokenBody) (msg : String)
    (hcode : code ≠ "")
    (pass : (strTruthy s.authState.oauthState && state != s.authState.oauthState) = false)
    (htok : env.token = .resp true (.ok tokenData))
    (huser : env.userinfo = .resp false (.error msg)) :
    exchangeAuthorizationCode s code state env
      = exchangeFailed ((s.emit (.fetch (.token code s.serverPort))).emit
            (.fetch (.userinfo tokenData.access_token))) msg := by
  unfold exchangeAuthorizationCode
  rw [if_neg hcode, if_neg (by simp [pass])]
  simp only [htok, huser]

/-- C19 (as amended): when the token request is made (non-empty code, CSRF
check passed) and the token endpoint answers non-2xx with a JSON object,
`exchangeAuthorizationCode` fails with the message of
`new Error(error_description || error || 'Token exchange failed')`: the
string conversion of `error_description` when it is truthy, otherwise that of
the `error` field when that is truthy, otherwise 'Token exchange failed'; for
a field that is a non-empty string the message is that string.  The token
request is the only request sent (the userinfo endpoint is not called),
`isAuthenticated` and `sessionToken` are left as they were, and no credential
is written. -/
theorem token_refusal_reported (s : Sys) (code : String) (state : Option String)
    (env : ExchangeEnv) (errorData : TokenBody) (hasCode : code ≠ "")
    (pass : (strTruthy s.authState.oauthState && state != s.authState.oauthState) = false)
    (refused : env.token = .resp false (.ok errorData)) :
    (exchangeAuthorizationCode s code state env).2
      = .error ((errorData.error_description.or errorData.error).or
          (.str "Token exchange failed")).toMessage ∧
    (errorData.error_description.truthy = true →
      (exchangeAuthorizationCode s code state env).2
        = .error errorData.error_description.toMessage) ∧
    (errorData.error_description.truthy = false → errorData.error.truthy = true →
      (exchangeAuthorizationCode s code state env).2 = .error errorData.error.toMessage) ∧
    (errorData.error_description.truthy = false → errorData.error.truthy = false →
      (exchangeAuthorizationCode s code state env).2 = .error "Token exchange failed") ∧
    (∀ text, errorData.error_description = .str text → text ≠ "" →
      (exchangeAuthorizationCode s code state env).2 = .error text) ∧
    (∀ text, errorData.error_description.truthy = false → errorData.error = .str text →
      text ≠ "" → (exchangeAuthorizationCode s code state env).2 = .error text) ∧
    fetches (effectsSince s (exchangeAuthorizationCode s code state env).1)
      = [.token code s.serverPort] ∧
    (exchangeAuthorizationCode s code state env).1.authState.isAuthenticated
      = s.authState.isAuthenticated ∧
    (exchangeAuthorizationCode s code state env).1.authState.sessionToken
      = s.authState.sessionToken ∧
    writes (effectsSince s (exchangeAuthorizationCode s code state env).1) = [] ∧
    (exchangeAuthorizationCode s code state env).1.file = s.file := by
  rw [exchange_token_refused s code state env errorData hasCode pass refused]
  rw [effectsSince_of_log (l := _) (by rw [exchangeFailed_log]; simp; rfl)]
  refine ⟨rfl, ?_, ?_, ?_, ?_, ?_, ?_, by simp [exchangeFailed], by simp [exchangeFailed], ?_,
    by simp [exchangeFailed]⟩
  · intro h; simp [exchangeFailed, JsVal.or, h]
  · intro h1 h2; simp [exchangeFailed, JsVal.or, h1, h2]
  · intro h1 h2; simp [exchangeFailed, JsVal.or, h1, h2, JsVal.toMessage]
  · intro text h1 h2; simp [exchangeFailed, JsVal.or, JsVal.truthy, JsVal.toMessage, h1, h2]
  · intro text h1 h2 h3
    have ht : (JsVal.str text).truthy = true := by simp [JsVal.truthy, h3]
    simp [exchangeFailed, JsVal.or, h1, h2, ht, JsVal.toMessage]
  · split_ifs <;> simp [fetches]
  · split_ifs <;> simp [writes]

/-- The waiting attempt whose code the provider refuses with
`invalid_grant` and the description "Code expired"; and the refusals whose
description is the array `["bad", "code"]` and whose error is the number
`1e21`, reported as "bad,code" and "1e+21". -/
theorem token_refusal_reported_witness :
    "abc" ≠ "" ∧
    (strTruthy waiting.authState.oauthState && some "s1" != waiting.authState.oauthState)
      = false ∧
    (exchangeRefused codeExpired).token = .resp false (.ok codeExpired) ∧
    codeExpired.error_description.truthy = true ∧
    (exchangeAuthorizationCode waiting "abc" (some "s1") (exchangeRefused codeExpired)).2
      = .error "Code expired" ∧
    (exchangeAuthorizationCode waiting "abc" (some "s1") (exchangeRefused arrayDescription)).2
      = .error "bad,code" ∧
    (exchangeAuthorizationCode waiting "abc" (some "s1") (exchangeRefused hugeError)).2
      = .error "1e+21" ∧
    fetches (effectsSince waiting
        (exchangeAuthorizationCode waiting "abc" (some "s1") (exchangeRefused codeExpired)).1)
      = [.token "abc" waiting.serverPort] ∧
    (exchangeAuthorizationCode waiting "abc" (some "s1")
        (exchangeRefused codeExpired)).1.authState.isAuthenticated
      = waiting.authState.isAuthenticated ∧
    (exchangeAuthorizationCode waiting "abc" (some "s1")
        (exchangeRefused codeExpired)).1.authState.sessionToken
      = waiting.authState.sessionToken ∧
    writes (effectsSince waiting
        (exchangeAuthorizationCode waiting "abc" (some "s1") (exchangeRefused codeExpired)).1)
      = [] ∧
    (exchangeAuthorizationCode waiting "abc" (some "s1") (exchangeRefused codeExpired)).1.file
      = waiting.file :=
  ⟨by decide, by decide, rfl, by decide,
    (token_refusal_reported waiting "abc" (some "s1") (exchangeRefused codeExpired) codeExpired
      (by decide) (by decide) rfl).2.1 (by decide),
    (token_refusal_reported waiting "abc" (some "s1") (exchangeRefused arrayDescription)
      arrayDescription (by decide) (by decide) rfl).2.1 (by decide),
    (token_refusal_reported waiting "abc" (some "s1") (exchangeRefused hugeError)
      hugeError (by decide) (by decide) rfl).2.2.1 (by decide) (by decide),
    (token_refusal_reported waiting "abc" (some "s1") (exchangeRefused codeExpired) codeExpired
      (by decide) (by decide) rfl).2.2.2.2.2.2⟩

/-- C19 (counterexample): the token endpoint answers 400 with the JSON body
`{"error_description": "", "error": "invalid_grant"}`: the description is
present, yet the message of the failure is the `error` field. -/
theorem token_refusal_with_empty_description :
    emptyDescription.error_description = .str "" ∧
    (exchangeAuthorizationCode waiting "abc" (some "s1") (exchangeRefused emptyDescription)).2
      = .error "invalid_grant" ∧
    (exchangeAuthorizationCode waiting "abc" (some "s1") (exchangeRefused emptyDescription)).2
      ≠ .error emptyDescription.error_description.toMessage :=
  ⟨rfl, rfl, by
    intro h
    have e : (exchangeAuthorizationCode waiting "abc" (some "s1")
        (exchangeRefused emptyDescription)).2 = .error "invalid_grant" := rfl
    rw [e] at h
    simp only [Except.error.injEq] at h
    exact absurd h (by decide)⟩

/-- C20 (as amended): when the token endpoint has answered 2xx and the
userinfo endpoint answers non-2xx, `exchangeAuthorizationCode` fails, with
the message 'Failed to get user information' when the body of the error
response parses as JSON; afterwards `isAuthenticated` and `sessionToken` are
what they were before the call (in particular `isAuthenticated` is false
after an attempt that started signed out, and the new access token is not
stored), the two requests are the only ones sent, and no credential is
written. -/
theorem userinfo_refusal_aborts (s : Sys) (code : String) (state : Option String)
    (env : ExchangeEnv) (tokenData : TokenBody) (body : Except String UserData)
    (hasCode : code ≠ "")
    (pass : (strTruthy s.authState.oauthState && state != s.authState.oauthState) = false)
    (tokenOk : env.token = .resp true (.ok tokenData))
    (refused : env.userinfo = .resp false body) :
    (∃ msg, (exchangeAuthorizationCode s code state env).2 = .error msg) ∧
    (∀ errorData, body = .ok errorData →
      (exchangeAuthorizationCode s code state env).2
        = .error "Failed to get user information") ∧
    (exchangeAuthorizationCode s code state env).1.authState.isAuthenticated
      = s.authState.isAuthenticated ∧
    (exchangeAuthorizationCode s code state env).1.authState.sessionToken
      = s.authState.sessionToken ∧
    fetches (effectsSince s (exchangeAuthorizationCode s code state env).1)
      = [.token code s.serverPort, .userinfo tokenData.access_token] ∧
    writes (effectsSince s (exchangeAuthorizationCode s code state env).1) = [] ∧
    (exchangeAuthorizationCode s code state env).1.file = s.file := by
  cases body with
  | ok errorData0 =>
    rw [exchange_userinfo_refused s code state env tokenData errorData0 hasCode pass tokenOk
      refused]
    rw [effectsSince_of_log (l := _) (by rw [exchangeFailed_log]; simp; rfl)]
    refine ⟨⟨_, rfl⟩, fun _ _ => rfl, by simp [exchangeFailed], by simp [exchangeFailed],
      ?_, ?_, by simp [exchangeFailed]⟩
    · split_ifs <;> simp [fetches]
    · split_ifs <;> simp [writes]
  | error msg =>
    rw [exchange_userinfo_unparsed s code state env tokenData msg hasCode pass tokenOk refused]
    rw [effectsSince_of_log (l := _) (by rw [exchangeFailed_log]; simp; rfl)]
    refine ⟨⟨_, rfl⟩, fun _ h => by simp at h, by simp [exchangeFailed],
      by simp [exchangeFailed], ?_, ?_, by simp [exchangeFailed]⟩
    · split_ifs <;> simp [fetches]
    · split_ifs <;> simp [writes]

/-- The waiting attempt whose userinfo request is answered 401 with a JSON
body. -/
theorem userinfo_refusal_aborts_witness :
    "abc" ≠ "" ∧
    (strTruthy waiting.authState.oauthState && some "s1" != waiting.authState.oauthState)
      = false ∧
    (exchangeUserDenied (.str "T1")).token = .resp true (.ok (tokenBody (.str "T1") .undefined)) ∧
    (exchangeUserDenied (.str "T1")).userinfo = .resp false (.ok emptyUserData) ∧
    waiting.authState.isAuthenticated = .bool false ∧
    (exchangeAuthorizationCode waiting "abc" (some "s1") (exchangeUserDenied (.str "T1"))).2
      = .error "Failed to get user information" ∧
    (exchangeAuthorizationCode waiting "abc" (some "s1")
        (exchangeUserDenied (.str "T1"))).1.authState.isAuthenticated
      = waiting.authState.isAuthenticated ∧
    (exchangeAuthorizationCode waiting "abc" (some "s1")
        (exchangeUserDenied (.str "T1"))).1.authState.sessionToken
      = waiting.authState.sessionToken ∧
    fetches (effectsSince waiting
        (exchangeAuthorizationCode waiting "abc" (some "s1") (exchangeUserDenied (.str "T1"))).1)
      = [.token "abc" waiting.serverPort,
          .userinfo (tokenBody (.str "T1") .undefined).access_token] ∧
    writes (effectsSince waiting
        (exchangeAuthorizationCode waiting "abc" (some "s1") (exchangeUserDenied (.str "T1"))).1)
      = [] ∧
    (exchangeAuthorizationCode waiting "abc" (some "s1")
        (exchangeUserDenied (.str "T1"))).1.file = waiting.file :=
  ⟨by decide, by decide, rfl, rfl, by decide,
    (userinfo_refusal_aborts waiting "abc" (some "s1") (exchangeUserDenied (.str "T1"))
      (tokenBody (.str "T1") .undefined) (.ok emptyUserData) (by decide) (by decide) rfl rfl
      ).2.1 emptyUserData rfl,
    (userinfo_refusal_aborts waiting "abc" (some "s1") (exchangeUserDenied (.str "T1"))
      (tokenBody (.str "T1") .undefined) (.ok emptyUserData) (by decide) (by decide) rfl rfl
      ).2.2⟩

/-- C20 (counterexample): an attempt started from a session that is
authenticated but has no user: the token endpoint answers 2xx, the userinfo
endpoint answers 401, the exchange fails, and `isAuthenticated` is still
true afterwards.  And when the body of the userinfo error response is not
JSON, the failure carries the message of the parse error. -/
theorem userinfo_refusal_keeps_authenticated :
    waitingAuthenticated.authState.isAuthenticating = true ∧
    waitingAuthenticated.authState.oauthState = some "s2" ∧
    (exchangeAuthorizationCode waitingAuthenticated "abc" (some "s2")
        (exchangeUserDenied (.str "T2"))).2 = .error "Failed to get user information" ∧
    (exchangeAuthorizationCode waitingAuthenticated "abc" (some "s2")
        (exchangeUserDenied (.str "T2"))).1.authState.isAuthenticated = .bool true ∧
    (exchangeAuthorizationCode waiting "abc" (some "s1") (exchangeUserHtml (.str "T1"))).2
      = .error "Unexpected token < in JSON at position 0" :=
  ⟨by decide, by decide, rfl, by decide, rfl⟩

/-! ## Validation of the stored token -/

theorem loadAuthState_valid (s : Sys) (savedData : SavedData)
    (stored : s.file = some (.record savedData))
    (hasToken : savedData.sessionToken.truthy = true)
    (flagged : savedData.isAuthenticated.truthy = true) :
    loadAuthState s false
      = ({ s with authState :=
            { s.authState with
              sessionToken := savedData.sessionToken
              refreshToken := savedData.refreshToken
              user := savedData.user
              isAuthenticated := savedData.isAuthenticated } }, true) := by
  unfold loadAuthState
  simp [stored, hasToken, flagged]

theorem validateStoredToken_invalid (s : Sys) (env : ValidateEnv)
    (hasToken : s.authState.sessionToken.truthy = true)
    (invalid : introspectInvalid env.introspect = true) :
    validateStoredToken s env
      = clearAuthState (s.emit (.fetch (.introspect s.authState.sessionToken)))
          env.unlinkFails := by
  unfold validateStoredToken
  rw [if_neg (by simp [hasToken])]
  cases hi : env.introspect with
  | throws msg => rfl
  | resp ok body =>
    cases ok with
    | false => rfl
    | true =>
      cases body with
      | error msg => rfl
      | ok data =>
        rw [hi] at invalid
        simp only [introspectInvalid, Bool.not_eq_true'] at invalid
        simp [invalid]

theorem clearAuthState_log (s : Sys) (unlinkFails : Bool) :
    ∃ l, (clearAuthState s unlinkFails).log = s.log ++ l ∧ sentOn "auth-error" l = [] := by
  unfold clearAuthState stopLocalServer
  cases hl : s.localServer <;> cases hf : s.file <;> cases unlinkFails <;>
    cases hw : s.mainWindow <;>
    simp [hl, hf, hw, sentOn, updateAuthStatus, Sys.send, Sys.emit]

/-- C21 (as amended): when a persisted credential with a truthy session
token and a truthy `isAuthenticated` is loaded (`loadAuthState` copies it and
starts the validation) and introspection rejects, answers non-2xx, answers
with an unparsable body or answers `active` falsy, then after
`validateStoredToken` the in-memory state is cleared (`isAuthenticated`
false, `sessionToken`, `refreshToken` and `user` null), no `auth-error`
notification is sent, and the credential file is deleted unless its deletion
fails, in which case it is left as it was. -/
theorem invalid_token_clears_session (s : Sys) (savedData : SavedData) (env : ValidateEnv)
    (stored : s.file = some (.record savedData))
    (hasToken : savedData.sessionToken.truthy = true)
    (flagged : savedData.isAuthenticated.truthy = true)
    (invalid : introspectInvalid env.introspect = true) :
    (loadAuthState s false).2 = true ∧
    (loadAuthState s false).1.authState.sessionToken = savedData.sessionToken ∧
    (validateStoredToken (loadAuthState s false).1 env).authState.isAuthenticated
      = .bool false ∧
    (validateStoredToken (loadAuthState s false).1 env).authState.sessionToken = .null ∧
    (validateStoredToken (loadAuthState s false).1 env).authState.refreshToken = .null ∧
    (validateStoredToken (loadAuthState s false).1 env).authState.user = .val .null ∧
    (validateStoredToken (loadAuthState s false).1 env).file
      = (if env.unlinkFails then s.file else none) ∧
    sentOn "auth-error"
      (effectsSince s (validateStoredToken (loadAuthState s false).1 env)) = [] := by
  rw [loadAuthState_valid s savedData stored hasToken flagged]
  simp only []
  rw [validateStoredToken_invalid _ env (by simpa using hasToken) invalid]
  obtain ⟨l, hl, hs⟩ := clearAuthState_log
    (Sys.emit { s with authState :=
        { s.authState with
          sessionToken := savedData.sessionToken
          refreshToken := savedData.refreshToken
          user := savedData.user
          isAuthenticated := savedData.isAuthenticated } }
      (.fetch (.introspect savedData.sessionToken))) env.unlinkFails
  refine ⟨trivial, trivial, by simp [emptyAuthState], by simp [emptyAuthState],
    by simp [emptyAuthState], by simp [emptyAuthState], ?_, ?_⟩
  · rw [clearAuthState_file]
    rfl
  · rw [effectsSince_of_log (l := [.fetch (.introspect savedData.sessionToken)] ++ l)
      (by rw [hl]; simp)]
    simp [sentOn, hs]

/-- The startup with the credential `storedT1` on disk when introspection
answers `active: false`. -/
theorem invalid_token_clears_session_witness :
    startup.file = some (.record storedT1) ∧
    storedT1.sessionToken.truthy = true ∧ storedT1.isAuthenticated.truthy = true ∧
    introspectInvalid (validateWith (.bool false) (.throws "not requested")).introspect = true ∧
    (loadAuthState startup false).2 = true ∧
    (loadAuthState startup false).1.authState.sessionToken = storedT1.sessionToken ∧
    (validateStoredToken (loadAuthState startup false).1
      (validateWith (.bool false) (.throws "not requested"))).authState.isAuthenticated
      = .bool false ∧
    (validateStoredToken (loadAuthState startup false).1
      (validateWith (.bool false) (.throws "not requested"))).authState.sessionToken = .null ∧
    (validateStoredToken (loadAuthState startup false).1
      (validateWith (.bool false) (.throws "not requested"))).authState.refreshToken = .null ∧
    (validateStoredToken (loadAuthState startup false).1
      (validateWith (.bool false) (.throws "not requested"))).authState.user = .val .null ∧
    (validateStoredToken (loadAuthState startup false).1
      (validateWith (.bool false) (.throws "not requested"))).file
      = (if (validateWith (.bool false) (.throws "not requested")).unlinkFails
          then startup.file else none) ∧
    sentOn "auth-error"
      (effectsSince startup (validateStoredToken (loadAuthState startup false).1
        (validateWith (.bool false) (.throws "not requested")))) = [] :=
  ⟨rfl, by decide, by decide, by decide,
    invalid_token_clears_session startup storedT1
      (validateWith (.bool false) (.throws "not requested")) rfl (by decide) (by decide)
      (by decide)⟩

/-- C21 (counterexample): introspection answers 401 and deleting the
credential file fails: the in-memory state is cleared but the file is still
on disk, and the next `loadAuthState` restores the session from it. -/
theorem invalid_token_keeps_file_when_unlink_fails :
    (validateStoredToken (loadAuthState startup false).1 validateNoUnlink
      ).authState.isAuthenticated = .bool false ∧
    (validateStoredToken (loadAuthState startup false).1 validateNoUnlink).file
      = some (.record storedT1) ∧
    (loadAuthState
      (validateStoredToken (loadAuthState startup false).1 validateNoUnlink) false
      ).1.authState.sessionToken = .str "T1" := by
  decide


theorem validateStoredToken_refreshed (s : Sys) (env : ValidateEnv) (data : IntrospectBody)
    (userData : UserData)
    (hasToken : s.authState.sessionToken.truthy = true)
    (introspected : env.introspect = .resp true (.ok data))
    (active : data.active.truthy = true)
    (userinfo : env.userinfo = .resp true (.ok userData)) :
    validateStoredToken s env
      = (fetchUsageInfoWithRetry
          (updateAuthStatus
            { s.emit (.fetch (.introspect s.authState.sessionToken)) |>.emit
                (.fetch (.userinfo s.authState.sessionToken)) with
              authState := { s.authState with user := .profile (mkProfile userData) } })
          3 1000 env.health env.usage).1 := by
  unfold validateStoredToken
  simp only [hasToken, introspected, active, userinfo]
  rfl

theorem validateStoredToken_not_refreshed (s : Sys) (env : ValidateEnv) (data : IntrospectBody)
    (body : Except String UserData)
    (hasToken : s.authState.sessionToken.truthy = true)
    (introspected : env.introspect = .resp true (.ok data))
    (active : data.active.truthy = true)
    (userinfo : env.userinfo = .resp false body) :
    validateStoredToken s env
      = (fetchUsageInfoWithRetry
          (updateAuthStatus
            (s.emit (.fetch (.introspect s.authState.sessionToken)) |>.emit
                (.fetch (.userinfo s.authState.sessionToken))))
          3 1000 env.health env.usage).1 := by
  unfold validateStoredToken
  simp only [hasToken, introspected, active, userinfo]
  rfl

/-- The paths of `validateStoredToken` on which a confirmed token is kept:
when a persisted credential with a truthy session token and a truthy
`isAuthenticated` is loaded and introspection answers 2xx with `active`
truthy, and the userinfo request is answered (2xx with a body that parses,
or non-2xx), then after `validateStoredToken` the session is
signed in (`isAuthenticated` as persisted, hence truthy) with `sessionToken`
and `refreshToken` equal to the persisted ones, the credential file is as it
was, the user profile is the one built from the userinfo body when userinfo
answered 2xx, and the persisted one when it answered non-2xx. -/
theorem valid_token_keeps_session (s : Sys) (savedData : SavedData) (env : ValidateEnv)
    (data : IntrospectBody)
    (stored : s.file = some (.record savedData))
    (hasToken : savedData.sessionToken.truthy = true)
    (flagged : savedData.isAuthenticated.truthy = true)
    (introspected : env.introspect = .resp true (.ok data))
    (active : data.active.truthy = true)
    (answered : (∃ userData, env.userinfo = .resp true (.ok userData)) ∨
      (∃ body, env.userinfo = .resp false body)) :
    (loadAuthState s false).2 = true ∧
    (validateStoredToken (loadAuthState s false).1 env).authenticated = true ∧
    (validateStoredToken (loadAuthState s false).1 env).authState.isAuthenticated
      = savedData.isAuthenticated ∧
    (validateStoredToken (loadAuthState s false).1 env).authState.sessionToken
      = savedData.sessionToken ∧
    (validateStoredToken (loadAuthState s false).1 env).authState.refreshToken
      = savedData.refreshToken ∧
    (validateStoredToken (loadAuthState s false).1 env).file = some (.record savedData) ∧
    (∀ userData, env.userinfo = .resp true (.ok userData) →
      (validateStoredToken (loadAuthState s false).1 env).authState.user
        = .profile (mkProfile userData)) ∧
    (∀ body, env.userinfo = .resp false body →
      (validateStoredToken (loadAuthState s false).1 env).authState.user = savedData.user) := by
  rw [loadAuthState_valid s savedData stored hasToken flagged]
  simp only []
  rcases answered with ⟨userData, hu⟩ | ⟨body, hu⟩
  · rw [validateStoredToken_refreshed _ env data userData (by simpa using hasToken)
      introspected active hu]
    refine ⟨trivial, ?_, ?_, ?_, ?_, ?_, ?_, ?_⟩
    · simp [Sys.authenticated, hasToken, flagged]
    · simp
    · simp
    · simp
    · simp [stored]
    · intro userData2 h2
      rw [hu] at h2
      cases h2
      simp
    · intro body h2
      rw [hu] at h2
      cases h2
  · rw [validateStoredToken_not_refreshed _ env data body (by simpa using hasToken)
      introspected active hu]
    refine ⟨trivial, ?_, ?_, ?_, ?_, ?_, ?_, ?_⟩
    · simp [Sys.authenticated, hasToken, flagged]
    · simp
    · simp
    · simp
    · simp [stored]
    · intro userData2 h2
      rw [hu] at h2
      cases h2
    · intro body2 h2
      simp

/-- The startup with the credential `storedT1` on disk when introspection
answers `active: true` and userinfo answers with the profile of
`annLeeData`. -/
theorem valid_token_keeps_session_witness :
    startup.file = some (.record storedT1) ∧
    storedT1.sessionToken.truthy = true ∧ storedT1.isAuthenticated.truthy = true ∧
    (validateStoredToken (loadAuthState startup false).1
      (validateWith (.bool true) (.resp true (.ok annLeeData)))).authState.user
      = .profile (mkProfile annLeeData) ∧
    (validateStoredToken (loadAuthState startup false).1
      (validateWith (.bool true) (.resp true (.ok annLeeData)))).authState.sessionToken
      = .str "T1" ∧
    (validateStoredToken (loadAuthState startup false).1
      (validateWith (.bool true) (.resp true (.ok annLeeData)))).file
      = some (.record storedT1) :=
  have h := valid_token_keeps_session startup storedT1
    (validateWith (.bool true) (.resp true (.ok annLeeData))) { active := .bool true }
    rfl (by decide) (by decide) rfl (by decide) (Or.inl ⟨annLeeData, rfl⟩)
  ⟨rfl, by decide, by decide, h.2.2.2.2.2.2.1 annLeeData rfl, h.2.2.2.1, h.2.2.2.2.2.1⟩

theorem clearAuthState_quiet (s : Sys) (unlinkFails : Bool) :
    ∃ l, (clearAuthState s unlinkFails).log = s.log ++ l ∧ fetches l = [] := by
  unfold clearAuthState stopLocalServer
  cases hl : s.localServer <;> cases hf : s.file <;> cases unlinkFails <;>
    cases hw : s.mainWindow <;>
    simp [hl, hf, hw, fetches, updateAuthStatus, Sys.send, Sys.emit]

theorem validateStoredToken_userinfo_fails (s : Sys) (env : ValidateEnv)
    (data : IntrospectBody)
    (hasToken : s.authState.sessionToken.truthy = true)
    (introspected : env.introspect = .resp true (.ok data))
    (active : data.active.truthy = true)
    (failed : (∃ msg, env.userinfo = .throws msg) ∨
      (∃ msg, env.userinfo = .resp true (.error msg))) :
    validateStoredToken s env
      = clearAuthState
          ((s.emit (.fetch (.introspect s.authState.sessionToken))).emit
            (.fetch (.userinfo s.authState.sessionToken))) env.unlinkFails := by
  unfold validateStoredToken
  rcases failed with ⟨msg, hu⟩ | ⟨msg, hu⟩ <;>
    simp only [hasToken, introspected, active, hu] <;> rfl

/-- C22 (code bug): a stored token that introspection has confirmed is
thrown away when the userinfo request fails.  For every persisted credential
with a truthy session token and a truthy `isAuthenticated`, when
introspection answers 2xx with `active` truthy and the userinfo request then
rejects, or answers 2xx with a body that does not parse, `validateStoredToken`
ends in its `catch` block: the session is signed out (`isAuthenticated`
false, `sessionToken`, `refreshToken` and `user` null), the credential file
is deleted (unless the deletion fails), and the two requests are the only
ones sent.  On the sibling path, userinfo answering non-2xx, the same token
is kept (`valid_token_keeps_session`). -/
theorem confirmed_token_cleared_when_userinfo_fails (s : Sys) (savedData : SavedData)
    (env : ValidateEnv) (data : IntrospectBody)
    (stored : s.file = some (.record savedData))
    (hasToken : savedData.sessionToken.truthy = true)
    (flagged : savedData.isAuthenticated.truthy = true)
    (introspected : env.introspect = .resp true (.ok data))
    (active : data.active.truthy = true)
    (failed : (∃ msg, env.userinfo = .throws msg) ∨
      (∃ msg, env.userinfo = .resp true (.error msg))) :
    (loadAuthState s false).2 = true ∧
    (loadAuthState s false).1.authState.sessionToken = savedData.sessionToken ∧
    (validateStoredToken (loadAuthState s false).1 env).authState.isAuthenticated
      = .bool false ∧
    (validateStoredToken (loadAuthState s false).1 env).authState.sessionToken = .null ∧
    (validateStoredToken (loadAuthState s false).1 env).authState.refreshToken = .null ∧
    (validateStoredToken (loadAuthState s false).1 env).authState.user = .val .null ∧
    (validateStoredToken (loadAuthState s false).1 env).file
      = (if env.unlinkFails then s.file else none) ∧
    fetches (effectsSince s (validateStoredToken (loadAuthState s false).1 env))
      = [.introspect savedData.sessionToken, .userinfo savedData.sessionToken] := by
  rw [loadAuthState_valid s savedData stored hasToken flagged]
  simp only []
  rw [validateStoredToken_userinfo_fails _ env data (by simpa using hasToken) introspected
    active failed]
  obtain ⟨l, hl, hf⟩ := clearAuthState_quiet
    (Sys.emit (Sys.emit { s with authState :=
        { s.authState with
          sessionToken := savedData.sessionToken
          refreshToken := savedData.refreshToken
          user := savedData.user
          isAuthenticated := savedData.isAuthenticated } }
      (.fetch (.introspect savedData.sessionToken)))
      (.fetch (.userinfo savedData.sessionToken))) env.unlinkFails
  refine ⟨trivial, trivial, by simp [emptyAuthState], by simp [emptyAuthState],
    by simp [emptyAuthState], by simp [emptyAuthState], ?_, ?_⟩
  · rw [clearAuthState_file]
    rfl
  · rw [effectsSince_of_log (l := [.fetch (.introspect savedData.sessionToken),
        .fetch (.userinfo savedData.sessionToken)] ++ l) (by rw [hl]; simp [Sys.emit])]
    simp [fetches, hf]

/-- The startup with the credential `storedT1` on disk when introspection
answers `active: true` and the userinfo request rejects (the network drops
between the two requests): the session is cleared and the file deleted.  When
userinfo answers 2xx with a body that is not JSON the outcome is the same,
and when it answers 503 the session and the file are kept. -/
theorem confirmed_token_cleared_when_userinfo_fails_witness :
    startup.file = some (.record storedT1) ∧
    storedT1.sessionToken.truthy = true ∧ storedT1.isAuthenticated.truthy = true ∧
    (validateStoredToken (loadAuthState startup false).1
      (validateWith (.bool true) (.resp true (.error "Unexpected token <")))
      ).authState.sessionToken = .null ∧
    (validateStoredToken (loadAuthState startup false).1
      (validateWith (.bool true) (.resp true (.error "Unexpected token <")))).file = none ∧
    (validateStoredToken (loadAuthState startup false).1
      (validateWith (.bool true) (.resp false (.error "Service Unavailable")))
      ).authState.sessionToken = .str "T1" ∧
    (validateStoredToken (loadAuthState startup false).1
      (validateWith (.bool true) (.resp false (.error "Service Unavailable")))).file
      = some (.record storedT1) ∧
    (loadAuthState startup false).2 = true ∧
    (loadAuthState startup false).1.authState.sessionToken = storedT1.sessionToken ∧
    (validateStoredToken (loadAuthState startup false).1
      (validateWith (.bool true) (.throws "fetch failed"))).authState.isAuthenticated
      = .bool false ∧
    (validateStoredToken (loadAuthState startup false).1
      (validateWith (.bool true) (.throws "fetch failed"))).authState.sessionToken = .null ∧
    (validateStoredToken (loadAuthState startup false).1
      (validateWith (.bool true) (.throws "fetch failed"))).authState.refreshToken = .null ∧
    (validateStoredToken (loadAuthState startup false).1
      (validateWith (.bool true) (.throws "fetch failed"))).authState.user = .val .null ∧
    (validateStoredToken (loadAuthState startup false).1
      (validateWith (.bool true) (.throws "fetch failed"))).file
      = (if (validateWith (.bool true) (.throws "fetch failed")).unlinkFails
          then startup.file else none) ∧
    fetches (effectsSince startup (validateStoredToken (loadAuthState startup false).1
        (validateWith (.bool true) (.throws "fetch failed"))))
      = [.introspect storedT1.sessionToken, .userinfo storedT1.sessionToken] :=
  ⟨rfl, by decide, by decide, by decide, by decide, by decide, by decide,
    confirmed_token_cleared_when_userinfo_fails startup storedT1
      (validateWith (.bool true) (.throws "fetch failed")) { active := .bool true }
      rfl (by decide) (by decide) rfl (by decide) (Or.inl ⟨"fetch failed", rfl⟩)⟩


/-! ## Failure to write the credential file -/

/-- C23 (as amended): for every state, when writing the credential file
fails, `saveAuthState` catches the error and completes normally, leaving the
state, the file and the effect log as they were; its caller
`exchangeAuthorizationCode` is not told: with a matching state and both
endpoints answering 2xx it returns normally with the user and the tokens,
the session is signed in, the file is as before the call, no record is
written and no `auth-error` is sent. -/
theorem save_failure_is_swallowed (s : Sys) (savedAt : String) (code : String)
    (state : Option String) (env : ExchangeEnv) (tokenData : TokenBody) (userData : UserData)
    (hasCode : code ≠ "") (matching : state = s.authState.oauthState)
    (tokenOk : env.token = .resp true (.ok tokenData))
    (userOk : env.userinfo = .resp true (.ok userData))
    (writeFails : env.writeFails = true) :
    saveAuthState s savedAt true = s ∧
    (exchangeAuthorizationCode s code state env).2
      = .ok (.profile (mkProfile userData), tokenData) ∧
    (exchangeAuthorizationCode s code state env).1.authState.isAuthenticated = .bool true ∧
    (exchangeAuthorizationCode s code state env).1.file = s.file ∧
    writes (effectsSince s (exchangeAuthorizationCode s code state env).1) = [] ∧
    sentOn "auth-error" (effectsSince s (exchangeAuthorizationCode s code state env).1)
      = [] := by
  have pass : (strTruthy s.authState.oauthState && state != s.authState.oauthState) = false := by
    rw [matching]; simp
  obtain ⟨l, hu, e⟩ :=
    exchangeAuthorizationCode_success s code state env tokenData userData hasCode pass
      tokenOk userOk
  rw [e]
  have hs := sentOn_of_usage "auth-error" l (by decide) hu
  have hw := writes_of_usage l hu
  refine ⟨rfl, rfl, by simp [committedState], ?_, ?_, ?_⟩
  · simp [saveAuthState_eq, writeFails]
  · rw [effectsSince_of_log (l := _) (by
      simp only [send_log, addLog_log, updateAuthStatus_log, saveAuthState_eq,
        send_mainWindow, addLog_mainWindow, updateAuthStatus_mainWindow, writeFails]
      simp
      rfl)]
    split_ifs <;> simp [writes, hw]
  · rw [effectsSince_of_log (l := _) (by
      simp only [send_log, addLog_log, updateAuthStatus_log, saveAuthState_eq,
        send_mainWindow, addLog_mainWindow, updateAuthStatus_mainWindow, writeFails]
      simp
      rfl)]
    split_ifs <;> simp [sentOn, hs]

/-- The exchange of `?code=abc123&state=s1` while the credential file cannot
be written. -/
theorem save_failure_is_swallowed_witness :
    "abc123" ≠ "" ∧ some "s1" = waiting.authState.oauthState ∧
    (exchangeNoWrite (.str "T1")).writeFails = true ∧
    saveAuthState waiting "2025-01-01T00:00:00.000Z" true = waiting ∧
    (exchangeAuthorizationCode waiting "abc123" (some "s1") (exchangeNoWrite (.str "T1"))).2
      = .ok (.profile (mkProfile annData), tokenBody (.str "T1") .undefined) ∧
    (exchangeAuthorizationCode waiting "abc123" (some "s1")
      (exchangeNoWrite (.str "T1"))).1.authState.isAuthenticated = .bool true ∧
    (exchangeAuthorizationCode waiting "abc123" (some "s1")
      (exchangeNoWrite (.str "T1"))).1.file = waiting.file ∧
    writes (effectsSince waiting
      (exchangeAuthorizationCode waiting "abc123" (some "s1")
        (exchangeNoWrite (.str "T1"))).1) = [] ∧
    sentOn "auth-error" (effectsSince waiting
      (exchangeAuthorizationCode waiting "abc123" (some "s1")
        (exchangeNoWrite (.str "T1"))).1) = [] :=
  ⟨by decide, by decide, rfl,
    save_failure_is_swallowed waiting "2025-01-01T00:00:00.000Z" "abc123" (some "s1")
      (exchangeNoWrite (.str "T1")) (tokenBody (.str "T1") .undefined) annData
      (by decide) (by decide) rfl rfl rfl⟩

/-- C23 (counterexample): in the signed-in state a failing write makes
`saveAuthState` return normally with nothing changed, and the credential
file of the legacy exchange, whose write fails, is never created although
the exchange returns normally. -/
theorem save_failure_completes_normally :
    saveAuthState signedInNoUser "2025-01-02T00:00:00.000Z" true = signedInNoUser ∧
    (exchangeTemporaryToken (init none) "tmp"
      { response := .resp true (.ok
          { sessionToken := .str "T1", user := .val .undefined, message := .undefined })
        savedAt := "2025-01-01T00:00:00.000Z"
        writeFails := true }).1.file = none ∧
    (exchangeTemporaryToken (init none) "tmp"
      { response := .resp true (.ok
          { sessionToken := .str "T1", user := .val .undefined, message := .undefined })
        savedAt := "2025-01-01T00:00:00.000Z"
        writeFails := true }).1.authState.isAuthenticated = .bool true ∧
    (exchangeTemporaryToken (init none) "tmp"
      { response := .resp true (.ok
          { sessionToken := .str "T1", user := .val .undefined, message := .undefined })
        savedAt := "2025-01-01T00:00:00.000Z"
        writeFails := true }).2
      = .ok { sessionToken := .str "T1", user := .val .undefined, message := .undefined } := by
  refine ⟨rfl, ?_, ?_, rfl⟩ <;> decide


/-! ## The authentication timeout -/

theorem onAuthTimeout_pending (s : Sys) (srv : Nat) (alive : s.localServer = some srv)
    (pending : s.authState.isAuthenticating = true) :
    onAuthTimeout s
      = (updateAuthStatus
          { s.emit (.close srv) with
            servers := s.servers.filter (fun x => x != srv)
            localServer := none
            serverPort := none
            authState := { s.authState with isAuthenticating := false } }).send
          "auth-error" (.text "Authentication timeout - please try again") := by
  unfold onAuthTimeout stopLocalServer
  simp only [alive, pending]
  rfl

theorem fire_authTimeout (s : Sys) (i due : Nat)
    (armed : s.timers.get? i = some (due, .authTimeout)) (elapsed : due ≤ s.now) :
    fire s i = onAuthTimeout { s with timers := s.timers.eraseIdx i } := by
  unfold fire
  simp only [armed, elapsed]
  rfl

/-- C24: when the timer armed by `startLocalServer` fires while a callback
server is referenced and `isAuthenticating` is true, the server is closed
and no longer listening, `localServer` and `serverPort` become null,
`isAuthenticating` becomes false, and `isAuthenticated`, the tokens and the
user are unchanged (a session that was signed out is signed out, not
authenticating); the effects are, in this order, the close of the server
and, when a main window is attached, the status update, which carries
`isAuthenticating` false, followed by the `auth-error` notification
"Authentication timeout - please try again". -/
theorem auth_timeout_cancels (s : Sys) (i due srv : Nat)
    (armed : s.timers.get? i = some (due, .authTimeout)) (elapsed : due ≤ s.now)
    (alive : s.localServer = some srv)
    (pending : s.authState.isAuthenticating = true) :
    (fire s i).localServer = none ∧
    (fire s i).serverPort = none ∧
    srv ∉ (fire s i).servers ∧
    (fire s i).authState.isAuthenticating = false ∧
    (fire s i).authState.isAuthenticated = s.authState.isAuthenticated ∧
    (fire s i).authState.sessionToken = s.authState.sessionToken ∧
    (fire s i).authState.user = s.authState.user ∧
    effectsSince s (fire s i)
      = .close srv ::
        (if s.mainWindow then
          [.send "auth-status-updated"
              (.status s.authState.isAuthenticated s.authState.user false none),
            .send "auth-error" (.text "Authentication timeout - please try again")]
        else []) := by
  rw [fire_authTimeout s i due armed elapsed,
    onAuthTimeout_pending { s with timers := s.timers.eraseIdx i } srv alive pending]
  refine ⟨by simp, by simp, ?_, by simp, by simp, by simp, by simp, ?_⟩
  · simp [Sys.emit]
  · rw [effectsSince_of_log (l := _) (by simp [updateAuthStatus]; rfl)]
    split_ifs <;> simp

/-- The attempt of `waitingWithWindow` ten minutes after its start. -/
theorem auth_timeout_cancels_witness :
    (run waitingWithWindow [.advance 600000]).timers.get? 0 = some (600000, .authTimeout) ∧
    600000 ≤ (run waitingWithWindow [.advance 600000]).now ∧
    (run waitingWithWindow [.advance 600000]).localServer = some 0 ∧
    (run waitingWithWindow [.advance 600000]).authState.isAuthenticating = true ∧
    (fire (run waitingWithWindow [.advance 600000]) 0).localServer = none ∧
    (fire (run waitingWithWindow [.advance 600000]) 0).serverPort = none ∧
    0 ∉ (fire (run waitingWithWindow [.advance 600000]) 0).servers ∧
    (fire (run waitingWithWindow [.advance 600000]) 0).authState.isAuthenticating = false ∧
    (fire (run waitingWithWindow [.advance 600000]) 0).authState.isAuthenticated
      = (run waitingWithWindow [.advance 600000]).authState.isAuthenticated ∧
    (fire (run waitingWithWindow [.advance 600000]) 0).authState.sessionToken
      = (run waitingWithWindow [.advance 600000]).authState.sessionToken ∧
    (fire (run waitingWithWindow [.advance 600000]) 0).authState.user
      = (run waitingWithWindow [.advance 600000]).authState.user ∧
    effectsSince (run waitingWithWindow [.advance 600000])
        (fire (run waitingWithWindow [.advance 600000]) 0)
      = .close 0 ::
        (if (run waitingWithWindow [.advance 600000]).mainWindow then
          [.send "auth-status-updated"
              (.status (run waitingWithWindow [.advance 600000]).authState.isAuthenticated
                (run waitingWithWindow [.advance 600000]).authState.user false none),
            .send "auth-error" (.text "Authentication timeout - please try again")]
        else []) :=
  ⟨by decide, by decide, by decide, by decide,
    auth_timeout_cancels (run waitingWithWindow [.advance 600000]) 0 600000 0
      (by decide) (by decide) (by decide) (by decide)⟩


/-! ## Callback servers alive at the same time -/

/-- C25 (code bug): two callback servers listening at the same time.  When
`shell.openExternal` rejects, the `catch` block of `initiateDesktopAuth`
clears `isAuthenticating` but leaves the server listening, so the next
`initiateDesktopAuth` starts a second server (on port 8001, port 8000 being
held by the first) and overwrites `this.localServer`: servers 0 and 1 are
both listening, and server 0 is closed neither by the timeouts nor by
`signOut`.  Likewise a new attempt started within the five seconds after a
failed exchange runs next to the server of the previous attempt, and the
shutdown timer of the previous attempt then closes the new server instead
of the old one. -/
theorem two_callback_servers_alive :
    (run (init none) [.initiateDesktopAuth (initiateNoBrowser "s1"),
      .initiateDesktopAuth (initiateNext "s2")]).servers = [0, 1] ∧
    serversStarted (run (init none) [.initiateDesktopAuth (initiateNoBrowser "s1"),
      .initiateDesktopAuth (initiateNext "s2")]).log = [(0, 8000), (1, 8001)] ∧
    (run (init none) [.initiateDesktopAuth (initiateNoBrowser "s1"),
      .initiateDesktopAuth (initiateNext "s2"), .advance 600000, .fire 0, .fire 0,
      .signOut false]).servers = [0] ∧
    (run (init none) [.initiateDesktopAuth (initiateNoBrowser "s1"),
      .initiateDesktopAuth (initiateNext "s2"), .advance 600000, .fire 0, .fire 0,
      .signOut false]).timers = [] ∧
    (run (init none) [.initiateDesktopAuth (initiateOk "s1"),
      .callback (some (codeQuery "abc" "s1")) exchangeDenied, .advance 1000,
      .initiateDesktopAuth (initiateNext "s2")]).servers = [0, 1] ∧
    (run (init none) [.initiateDesktopAuth (initiateOk "s1"),
      .callback (some (codeQuery "abc" "s1")) exchangeDenied, .advance 1000,
      .initiateDesktopAuth (initiateNext "s2"), .advance 4000, .fire 1]).servers = [0] ∧
    (run (init none) [.initiateDesktopAuth (initiateOk "s1"),
      .callback (some (codeQuery "abc" "s1")) exchangeDenied, .advance 1000,
      .initiateDesktopAuth (initiateNext "s2"), .advance 4000, .fire 1]).localServer = none := by
  refine ⟨?_, ?_, ?_, ?_, ?_, ?_, ?_⟩ <;> decide

/-! ## Failure of the bind after a successful probe -/

theorem initiateDesktopAuth_bind_fails (s : Sys) (env : InitiateEnv) (port : Nat) (msg : String)
    (signedOut : (s.authState.isAuthenticated.truthy && s.authState.user.truthy) = false)
    (idle : s.authState.isAuthenticating = false)
    (probed : findAvailablePort env.probe 8000 8020 = .ok port)
    (bindFails : env.bind = .error msg) :
    initiateDesktopAuth s env
      = initiateFailed
          (Sys.setTimeout
            { initiateEnter s with
              serverPort := some port
              localServer := some (initiateEnter s).nextServer
              nextServer := (initiateEnter s).nextServer + 1 }
            (10 * 60 * 1000) .authTimeout) msg := by
  unfold initiateDesktopAuth
  rw [if_neg (by simp [signedOut]), if_neg (by simp [idle])]
  unfold initiateRun startLocalServer
  simp only [probed, bindFails]

/-- C26 (as amended): when the probe of `findAvailablePort` returns a port
and the bind of the callback server to that port then fails, the failure is
fatal for that call of `initiateDesktopAuth`: no other port is tried, no
server is listening that was not listening before, the browser is not
opened, no request is sent, `isAuthenticating` is false afterwards, and the
`error` notification "Failed to start authentication: " followed by the
message of the bind error is sent when a main window is attached. -/
theorem bind_failure_is_fatal (s : Sys) (env : InitiateEnv) (port : Nat) (msg : String)
    (signedOut : (s.authState.isAuthenticated.truthy && s.authState.user.truthy) = false)
    (idle : s.authState.isAuthenticating = false)
    (probed : findAvailablePort env.probe 8000 8020 = .ok port)
    (bindFails : env.bind = .error msg) :
    (initiateDesktopAuth s env).authState.isAuthenticating = false ∧
    (initiateDesktopAuth s env).servers = s.servers ∧
    serversStarted (effectsSince s (initiateDesktopAuth s env)) = [] ∧
    urlsOpened (effectsSince s (initiateDesktopAuth s env)) = [] ∧
    fetches (effectsSince s (initiateDesktopAuth s env)) = [] ∧
    sentOn "error" (effectsSince s (initiateDesktopAuth s env))
      = (if s.mainWindow then [.text ("Failed to start authentication: " ++ msg)] else []) := by
  rw [initiateDesktopAuth_bind_fails s env port msg signedOut idle probed bindFails]
  have hlog : (initiateFailed
      (Sys.setTimeout
        { initiateEnter s with
          serverPort := some port
          localServer := some (initiateEnter s).nextServer
          nextServer := (initiateEnter s).nextServer + 1 }
        (10 * 60 * 1000) .authTimeout) msg).log
      = s.log ++
        ((if s.mainWindow then
            [Effect.send "auth-status-updated"
              (.status s.authState.isAuthenticated s.authState.user true none)]
          else []) ++
          [Effect.setTimeout (10 * 60 * 1000) .authTimeout] ++
          (if s.mainWindow then
            [Effect.send "auth-status-updated"
                (.status s.authState.isAuthenticated s.authState.user false none),
              Effect.send "error" (.text ("Failed to start authentication: " ++ msg))]
          else [])) := by
    simp only [initiateFailed, initiateEnter, send_log, updateAuthStatus_log, setTimeout_log,
      send_mainWindow, updateAuthStatus_mainWindow, setTimeout_mainWindow,
      updateAuthStatus_authState, setTimeout_authState]
    split_ifs <;> simp
  rw [effectsSince_of_log hlog]
  refine ⟨?_, ?_, ?_, ?_, ?_, ?_⟩
  · simp [initiateFailed]
  · simp [initiateFailed, initiateEnter, Sys.setTimeout]
  · split_ifs <;> simp [serversStarted]
  · split_ifs <;> simp [urlsOpened]
  · split_ifs <;> simp [fetches]
  · split_ifs <;> simp [sentOn]

/-- The first sign-in attempt with a main window attached, when port 8000 is
taken between the probe and the bind. -/
theorem bind_failure_is_fatal_witness :
    ((run (init none) [.setMainWindow true]).authState.isAuthenticated.truthy &&
      (run (init none) [.setMainWindow true]).authState.user.truthy) = false ∧
    (run (init none) [.setMainWindow true]).authState.isAuthenticating = false ∧
    findAvailablePort (initiateBindLost "s1").probe 8000 8020 = .ok 8000 ∧
    (initiateDesktopAuth (run (init none) [.setMainWindow true])
      (initiateBindLost "s1")).authState.isAuthenticating = false ∧
    (initiateDesktopAuth (run (init none) [.setMainWindow true])
      (initiateBindLost "s1")).servers = (run (init none) [.setMainWindow true]).servers ∧
    serversStarted (effectsSince (run (init none) [.setMainWindow true])
      (initiateDesktopAuth (run (init none) [.setMainWindow true])
        (initiateBindLost "s1"))) = [] ∧
    urlsOpened (effectsSince (run (init none) [.setMainWindow true])
      (initiateDesktopAuth (run (init none) [.setMainWindow true])
        (initiateBindLost "s1"))) = [] ∧
    fetches (effectsSince (run (init none) [.setMainWindow true])
      (initiateDesktopAuth (run (init none) [.setMainWindow true])
        (initiateBindLost "s1"))) = [] ∧
    sentOn "error" (effectsSince (run (init none) [.setMainWindow true])
      (initiateDesktopAuth (run (init none) [.setMainWindow true])
        (initiateBindLost "s1")))
      = (if (run (init none) [.setMainWindow true]).mainWindow then
          [.text ("Failed to start authentication: " ++
            "listen EADDRINUSE: address already in use 127.0.0.1:8000")]
        else []) :=
  ⟨by decide, by decide, rfl,
    bind_failure_is_fatal (run (init none) [.setMainWindow true]) (initiateBindLost "s1") 8000
      "listen EADDRINUSE: address already in use 127.0.0.1:8000" (by decide) (by decide)
      rfl rfl⟩

/-- C26 (counterexample): port 8000 passes the probe and is taken before the
bind.  `initiateDesktopAuth` fails with the bind error: no server is
listening on 8001 or on any other port, the browser is not opened, and the
attempt is over. -/
theorem bind_failure_is_not_retried :
    findAvailablePort (initiateBindLost "s1").probe 8000 8020 = .ok 8000 ∧
    (initiateBindLost "s1").bind
      = .error "listen EADDRINUSE: address already in use 127.0.0.1:8000" ∧
    (run (init none) [.setMainWindow true,
      .initiateDesktopAuth (initiateBindLost "s1")]).servers = [] ∧
    serversStarted (run (init none) [.setMainWindow true,
      .initiateDesktopAuth (initiateBindLost "s1")]).log = [] ∧
    urlsOpened (run (init none) [.setMainWindow true,
      .initiateDesktopAuth (initiateBindLost "s1")]).log = [] ∧
    (run (init none) [.setMainWindow true,
      .initiateDesktopAuth (initiateBindLost "s1")]).authState.isAuthenticating = false ∧
    sentOn "error" (run (init none) [.setMainWindow true,
      .initiateDesktopAuth (initiateBindLost "s1")]).log
      = [.text ("Failed to start authentication: " ++
          "listen EADDRINUSE: address already in use 127.0.0.1:8000")] := by
  refine ⟨rfl, rfl, ?_, ?_, ?_, ?_, ?_⟩ <;> decide


/-! ## Loading without a usable credential -/

/-- C27: `loadAuthState` is total (it never throws), and when the credential
file is absent, cannot be read, does not parse, has a falsy `sessionToken`
(in particular none) or a falsy `isAuthenticated` (in particular `false`),
the call returns the state it was given, so that every field of the
authentication state and the effect log are unchanged, and it does not call
`validateStoredToken`, so that no introspection request is started. -/
theorem load_without_credential (s : Sys) (readFails : Bool)
    (unusable : s.file = none ∨ readFails = true ∨ s.file = some .garbage ∨
      ∃ savedData, s.file = some (.record savedData) ∧
        (savedData.sessionToken.truthy = false ∨ savedData.isAuthenticated.truthy = false)) :
    loadAuthState s readFails = (s, false) ∧
    (loadAuthState s readFails).1.authState = s.authState ∧
    fetches (effectsSince s (loadAuthState s readFails).1) = [] := by
  have h : loadAuthState s readFails = (s, false) := by
    unfold loadAuthState
    rcases unusable with h | h | h | ⟨savedData, h, h2⟩
    · simp [h]
    · cases hf : s.file <;> simp [h]
    · simp [h]
    · rcases h2 with h2 | h2 <;> simp [h, h2]
  rw [h]
  exact ⟨rfl, rfl, by simp [effectsSince, fetches]⟩

/-- A credential file truncated by a crash in the middle of a write. -/
theorem load_without_credential_witness :
    loadAuthState (init (some .garbage)) false = (init (some .garbage), false) ∧
    (loadAuthState (init (some .garbage)) false).1.authState
      = (init (some .garbage)).authState ∧
    fetches (effectsSince (init (some .garbage))
      (loadAuthState (init (some .garbage)) false).1) = [] :=
  load_without_credential (init (some .garbage)) false (Or.inr (Or.inr (Or.inl rfl)))


/-! ## Timeout timers of earlier attempts -/

/-- C30 (code bug): the timeout timer of an earlier attempt cancels a later
one.  The timers armed by `startLocalServer` are never cleared and their
callback tests the current `this.localServer` and `isAuthenticating`, not
those of the attempt that armed it.  The second attempt of `secondAttempt`
starts at 540 s with its own timer due at 1140 s; when the timer of the
first attempt fires at 600 s, sixty seconds into the second attempt, the
server of the second attempt is closed and `isAuthenticating` is cleared,
while the second attempt's own timer is still armed. -/
theorem stale_timeout_cancels_later_attempt :
    secondAttempt.now = 540000 ∧
    secondAttempt.authState.isAuthenticating = true ∧
    secondAttempt.authState.oauthState = some "s2" ∧
    secondAttempt.localServer = some 1 ∧
    secondAttempt.servers = [1] ∧
    secondAttempt.timers = [(600000, .authTimeout), (1140000, .authTimeout)] ∧
    (run secondAttempt [.advance 60000, .fire 0]).now = 600000 ∧
    (run secondAttempt [.advance 60000, .fire 0]).authState.isAuthenticating = false ∧
    (run secondAttempt [.advance 60000, .fire 0]).localServer = none ∧
    (run secondAttempt [.advance 60000, .fire 0]).servers = [] ∧
    (run secondAttempt [.advance 60000, .fire 0]).timers = [(1140000, .authTimeout)] := by
  refine ⟨?_, ?_, ?_, ?_, ?_, ?_, ?_, ?_, ?_, ?_, ?_⟩ <;> decide

end AuthManager

namespace CodeExtractor

/-! ## Lines of the cleaned code -/

theorem splitOnP_pieces (p : Char → Bool) (xs : List Char) :
    ∀ l ∈ xs.splitOnP p, ∀ c ∈ l, c ∈ xs ∧ p c = false := by
  induction xs with
  | nil =>
    intro l hl c hc
    simp at hl
    subst hl
    simp at hc
  | cons x xs ih =>
    intro l hl c hc
    rw [List.splitOnP_cons] at hl
    by_cases hx : p x = true
    · rw [if_pos hx] at hl
      rcases List.mem_cons.1 hl with h | h
      · subst h
        simp at hc
      · obtain ⟨h1, h2⟩ := ih l h c hc
        exact ⟨List.mem_cons_of_mem _ h1, h2⟩
    · rw [if_neg hx] at hl
      cases hs : xs.splitOnP p with
      | nil =>
        rw [hs] at hl
        simp [List.modifyHead] at hl
      | cons hd tl =>
        rw [hs] at hl ih
        simp only [List.modifyHead] at hl
        rcases List.mem_cons.1 hl with h | h
        · subst h
          rcases List.mem_cons.1 hc with h | h
          · subst h
            exact ⟨List.mem_cons_self _ _, by simpa using hx⟩
          · obtain ⟨h1, h2⟩ := ih hd (List.mem_cons_self _ _) c h
            exact ⟨List.mem_cons_of_mem _ h1, h2⟩
        · obtain ⟨h1, h2⟩ := ih l (List.mem_cons_of_mem _ h) c hc
          exact ⟨List.mem_cons_of_mem _ h1, h2⟩

theorem splitOn_pieces (xs : List Char) (l : List Char) (hl : l ∈ xs.splitOn '\n') (c : Char)
    (hc : c ∈ l) : c ∈ xs ∧ c ≠ '\n' := by
  obtain ⟨h1, h2⟩ := splitOnP_pieces (fun x => x == '\n') xs l hl c hc
  exact ⟨h1, by simpa using h2⟩

theorem mem_intercalate (sep : List Char) :
    ∀ (ls : List (List Char)) (c : Char), c ∈ List.intercalate sep ls →
      c ∈ sep ∨ ∃ l ∈ ls, c ∈ l
  | [], c, h => by simp [List.intercalate] at h
  | [l], c, h => by
    simp [List.intercalate] at h
    exact Or.inr ⟨l, List.mem_cons_self _ _, h⟩
  | l :: m :: ls, c, h => by
    have ih := mem_intercalate sep (m :: ls) c
    simp only [List.intercalate, List.intersperse, List.flatten, List.mem_append] at h ih
    rcases h with h | h | h
    · exact Or.inr ⟨l, List.mem_cons_self _ _, h⟩
    · exact Or.inl h
    · rcases ih h with h2 | ⟨k, hk, hck⟩
      · exact Or.inl h2
      · exact Or.inr ⟨k, List.mem_cons_of_mem _ hk, hck⟩

theorem replaceCR_no_cr (s : List Char) : '\r' ∉ replaceCR s := by
  unfold replaceCR
  intro h
  obtain ⟨x, _, hx⟩ := List.mem_map.1 h
  split_ifs at hx with hc
  · exact absurd hx (by decide)
  · exact hc hx

theorem trimEnd_split (line : List Char) :
    line = trimEnd line ++ (line.reverse.takeWhile isTrimmed).reverse := by
  unfold trimEnd List.rdropWhile
  rw [← List.reverse_append, List.takeWhile_append_dropWhile, List.reverse_reverse]

theorem takeWhile_append_of_mem (p : Char → Bool) (ws : List Char) :
    ∀ (pre : List Char), (∃ c ∈ pre, p c = false) →
      (pre ++ ws).takeWhile p = pre.takeWhile p
  | [], h => by simp at h
  | a :: pre, h => by
    obtain ⟨c, hc, hp⟩ := h
    cases ha : p a
    · simp [List.takeWhile, ha]
    · have hne : c ≠ a := by
        intro e
        rw [e, ha] at hp
        cases hp
      have hmem : c ∈ pre := by
        rcases List.mem_cons.1 hc with e | e
        · exact absurd e hne
        · exact e
      simp [List.takeWhile, ha, takeWhile_append_of_mem p ws pre ⟨c, hmem, hp⟩]

theorem cleanCodeForTyping_data (code : String) :
    (cleanCodeForTyping (some code)).data
      = List.intercalate ['\n'] (((normalizedCode code.data).splitOn '\n').map trimEnd) := by
  unfold cleanCodeForTyping
  by_cases h : code = ""
  · subst h
    decide
  · simp [h]

theorem normalizedCode_eq_convertLineEndings :
    ∀ (code : List Char), normalizedCode code = convertLineEndings code
  | [] => rfl
  | [c] => by simp [normalizedCode, replaceCRLF, replaceCR, convertLineEndings]
  | c :: d :: rest => by
    have ih1 := normalizedCode_eq_convertLineEndings rest
    have ih2 := normalizedCode_eq_convertLineEndings (d :: rest)
    unfold normalizedCode at ih1 ih2 ⊢
    rw [replaceCRLF, convertLineEndings]
    by_cases h : c = '\r' ∧ d = '\n'
    · rw [if_pos h, if_pos h, ← ih1]
      simp [replaceCR]
    · rw [if_neg h, if_neg h, ← ih2]
      simp [replaceCR]

theorem isTrimmed_iff (c : Char) :
    isTrimmed c = true ↔
      (c.toNat ∈ [0x0009, 0x000B, 0x000C, 0xFEFF, 0x0020, 0x00A0, 0x1680, 0x202F, 0x205F,
          0x3000] ∨ (0x2000 ≤ c.toNat ∧ c.toNat ≤ 0x200A)) ∨
        c.toNat ∈ [0x000A, 0x000D, 0x2028, 0x2029] := by
  simp [isTrimmed, isWhiteSpace, isLineTerminator]

/-- An example with a CRLF, a lone CR, trailing blanks and an indented line. -/
theorem cleanCodeForTyping_example :
    cleanCodeForTyping (some "def f():  \r\n\treturn 1\t\rpass") = "def f():\n\treturn 1\npass" := by
  decide

/-- C28: for every string `code`, `cleanCodeForTyping(code)` contains no
carriage return; the normalised code is the code with every CRLF and every
lone CR converted to LF; split at line feeds, the lines of the result are
the lines of the normalised code, each passed through `trimEnd`, so the
number of lines is unchanged; every line of the normalised code is its
trimmed line followed by removed characters that are all white space or line
terminators, the trimmed line does not end in such a character, and when the
line has any other character its leading indentation is the same before and
after; the characters removed are exactly TAB, VT, FF, SP, NBSP, ZWNBSP, the
other Unicode space separators and the four line terminators; for the empty
string and for a missing argument the result is the empty string. -/
theorem cleanCodeForTyping_trims_lines (code : String) :
    '\r' ∉ (cleanCodeForTyping (some code)).data ∧
    normalizedCode code.data = convertLineEndings code.data ∧
    (∀ c : Char, isTrimmed c = true ↔
      (c.toNat ∈ [0x0009, 0x000B, 0x000C, 0xFEFF, 0x0020, 0x00A0, 0x1680, 0x202F, 0x205F,
          0x3000] ∨ (0x2000 ≤ c.toNat ∧ c.toNat ≤ 0x200A)) ∨
        c.toNat ∈ [0x000A, 0x000D, 0x2028, 0x2029]) ∧
    (cleanCodeForTyping (some code)).data.splitOn '\n'
      = ((normalizedCode code.data).splitOn '\n').map trimEnd ∧
    ((cleanCodeForTyping (some code)).data.splitOn '\n').length
      = ((normalizedCode code.data).splitOn '\n').length ∧
    (∀ line ∈ (normalizedCode code.data).splitOn '\n',
      (∃ removed, line = trimEnd line ++ removed ∧ ∀ c ∈ removed, isTrimmed c = true) ∧
      (∀ h : trimEnd line ≠ [], isTrimmed ((trimEnd line).getLast h) = false) ∧
      ((∃ c ∈ line, isTrimmed c = false) →
        (trimEnd line).takeWhile isTrimmed = line.takeWhile isTrimmed)) ∧
    cleanCodeForTyping (some "") = "" ∧
    cleanCodeForTyping none = "" := by
  have hsplit : (cleanCodeForTyping (some code)).data.splitOn '\n'
      = ((normalizedCode code.data).splitOn '\n').map trimEnd := by
    rw [cleanCodeForTyping_data]
    apply List.splitOn_intercalate
    · intro l hl hmem
      obtain ⟨line, hline, rfl⟩ := List.mem_map.1 hl
      have hsub : '\n' ∈ line := (List.rdropWhile_prefix isTrimmed line).subset hmem
      exact (splitOn_pieces _ line hline '\n' hsub).2 rfl
    · intro h
      exact List.splitOnP_ne_nil _ _ (List.map_eq_nil_iff.1 h)
  refine ⟨?_, normalizedCode_eq_convertLineEndings _, isTrimmed_iff, hsplit, ?_, ?_, rfl, rfl⟩
  · rw [cleanCodeForTyping_data]
    intro h
    rcases mem_intercalate _ _ _ h with h | ⟨l, hl, hc⟩
    · exact absurd h (by decide)
    · obtain ⟨line, hline, rfl⟩ := List.mem_map.1 hl
      have hsub : '\r' ∈ line := (List.rdropWhile_prefix isTrimmed line).subset hc
      exact replaceCR_no_cr _ (splitOn_pieces _ line hline '\r' hsub).1
  · rw [hsplit, List.length_map]
  · intro line _
    refine ⟨⟨(line.reverse.takeWhile isTrimmed).reverse, trimEnd_split line, ?_⟩, ?_, ?_⟩
    · intro c hc
      exact List.mem_takeWhile_imp (List.mem_reverse.1 hc)
    · intro h
      simpa using List.rdropWhile_last_not isTrimmed line h
    · rintro ⟨c, hc, hp⟩
      have hpre : c ∈ trimEnd line := by
        rw [trimEnd_split line] at hc
        rcases List.mem_append.1 hc with h | h
        · exact h
        · have := List.mem_takeWhile_imp (List.mem_reverse.1 h)
          rw [hp] at this
          cases this
      have e := takeWhile_append_of_mem isTrimmed (line.reverse.takeWhile isTrimmed).reverse
        (trimEnd line) ⟨c, hpre, hp⟩
      rw [← trimEnd_split line] at e
      exact e.symm

/-- A code with a CRLF, a lone CR, trailing blanks and an indented line: the
result is "def f():", the indented "return 1" and "pass", joined by line
feeds. -/
theorem cleanCodeForTyping_trims_lines_witness :
    cleanCodeForTyping (some "def f():  \r\n\treturn 1\t\rpass") = "def f():\n\treturn 1\npass" ∧
    convertLineEndings "def f():  \r\n\treturn 1\t\rpass".data
      = "def f():  \n\treturn 1\t\npass".data ∧
    ((normalizedCode "def f():  \r\n\treturn 1\t\rpass".data).splitOn '\n').map trimEnd
      = ["def f():".data, "\treturn 1".data, "pass".data] ∧
    '\r' ∉ (cleanCodeForTyping (some "def f():  \r\n\treturn 1\t\rpass")).data ∧
    normalizedCode "def f():  \r\n\treturn 1\t\rpass".data
      = convertLineEndings "def f():  \r\n\treturn 1\t\rpass".data ∧
    (cleanCodeForTyping (some "def f():  \r\n\treturn 1\t\rpass")).data.splitOn '\n'
      = ((normalizedCode "def f():  \r\n\treturn 1\t\rpass".data).splitOn '\n').map trimEnd :=
  ⟨by decide, by decide, by decide,
    (cleanCodeForTyping_trims_lines "def f():  \r\n\treturn 1\t\rpass").1,
    (cleanCodeForTyping_trims_lines "def f():  \r\n\treturn 1\t\rpass").2.1,
    (cleanCodeForTyping_trims_lines "def f():  \r\n\treturn 1\t\rpass").2.2.2.1⟩

end CodeExtractor

namespace ShortcutManager

open KeyBlockingConfig

/-! ## The level after `setKeyBlockingLevel` -/

theorem loadConfig_level (platform : Platform) (config : Config) :
    (loadConfig platform config).level = "standard" := by
  cases platform <;> rfl

theorem initializeKeyBlocking_level (s : State) (setupThrows : Option Bool) :
    (initializeKeyBlocking s setupThrows).keyBlockingLevel = "standard" := by
  unfold initializeKeyBlocking
  simp only [loadConfig_level]
  rw [if_neg (by decide)]
  cases setupThrows <;> rfl

theorem contains_validLevels (level : String) :
    validLevels.contains level = true
      ↔ level = "none" ∨ level = "standard" ∨ level = "aggressive" := by
  simp [validLevels]

/-- C29 (code bug): `setKeyBlockingLevel(level)` throws if and only if
`level` is not one of "none", "standard" and "aggressive", and when it
returns the level it assigned is the one reported; but the
`initializeKeyBlocking()` it starts reloads the configuration, whose level
is always "standard", and assigns that to `keyBlockingLevel`.  So once the
re-initialisation has completed the reported level is "standard" whatever
valid level was set: after `setKeyBlockingLevel("none")` and after
`setKeyBlockingLevel("aggressive")` the status reports "standard", and key
blocking is active although "none" was set. -/
theorem key_blocking_level_is_reset (s : State) (level : String) (setupThrows : Option Bool) :
    ((∃ msg, setKeyBlockingLevel s level setupThrows = .error msg)
      ↔ ¬ (level = "none" ∨ level = "standard" ∨ level = "aggressive")) ∧
    (∀ t, setKeyBlockingLevelSync s level = .ok t → (getKeyBlockingStatus t).level = level) ∧
    (∀ t, setKeyBlockingLevel s level setupThrows = .ok t →
      (getKeyBlockingStatus t).level = "standard") ∧
    (∃ t, setKeyBlockingLevel (init .linux) "none" none = .ok t ∧
      (getKeyBlockingStatus t).level = "standard" ∧ (getKeyBlockingStatus t).active = true) ∧
    (∃ t, setKeyBlockingLevel (init .win32) "aggressive" none = .ok t ∧
      (getKeyBlockingStatus t).level = "standard") := by
  refine ⟨?_, ?_, ?_, ⟨_, rfl, by decide, by decide⟩, ⟨_, rfl, by decide⟩⟩
  · by_cases h : validLevels.contains level = true
    · have h2 := (contains_validLevels level).1 h
      have hs : setKeyBlockingLevelSync s level
          = .ok (deinitializeKeyBlocking { s with keyBlockingLevel := level }) := by
        unfold setKeyBlockingLevelSync
        rw [if_neg (by rw [h]; decide)]
      unfold setKeyBlockingLevel
      rw [hs]
      constructor
      · rintro ⟨msg, hmsg⟩
        cases hmsg
      · intro hn
        exact absurd h2 hn
    · have h2 : ¬ (level = "none" ∨ level = "standard" ∨ level = "aggressive") :=
        fun e => h ((contains_validLevels level).2 e)
      have hf : validLevels.contains level = false := by
        cases hc : validLevels.contains level
        · rfl
        · exact absurd hc h
      have hs : setKeyBlockingLevelSync s level
          = .error ("Invalid key blocking level: " ++ level ++ ". Must be one of: " ++
              ", ".intercalate validLevels) := by
        unfold setKeyBlockingLevelSync
        rw [if_pos (by rw [hf]; decide)]
      unfold setKeyBlockingLevel
      rw [hs]
      exact ⟨fun _ => h2, fun _ => ⟨_, rfl⟩⟩
  · intro t ht
    unfold setKeyBlockingLevelSync at ht
    split_ifs at ht
    cases ht
    rfl
  · intro t ht
    unfold setKeyBlockingLevel at ht
    split at ht
    · cases ht
    · cases ht
      exact initializeKeyBlocking_level _ _

end ShortcutManager
